import Mathlib

/-!
The tool-invocation pipeline of m2a-mcp.

A shallow embedding of the Go sources

* `internal/config/config.go` (`Config`),
* `internal/client/client.go` (`M2AClient` and its `Get`/`Post`/`Put`/`Delete`/`doRequest`),
* `internal/tools/{connect,live,capture,vod}.go` (the 37 tool handlers),

followed by theorems about them.

Conventions of the embedding.

* Go strings and byte slices are Lean strings; `string(data)` is the identity.
* A Go `error` is represented by its message; `fmt.Errorf("p: %w", err)` and
  `fmt.Sprintf("p: %v", err)` are `"p: " ++ err`.
* The argument bag `map[string]interface{}` is an association list read with
  `Arguments.get`; a value is one of the kinds `encoding/json` decodes into.
* A `float64` argument is a rational number (every finite `float64` is one).
* The network and `net/http` are a parameter `Http` of the client.
* A handler returns its `*mcp.CallToolResult` together with the list of calls it
  made on the client (the Go `error` result of every handler is `nil`, see
  `HandlerReturn`).
* The types of this translation fix what `main` establishes when it builds the objects:
  no pointer is nil. The section "The same code with nil left possible" translates the
  same functions again with nil pointers, a nil argument map and panics (`Go.call`), and
  `go_call_eq` relates the two translations.
-/

namespace M2A

/-! ## Dynamically typed values and the argument bag -/

/-- A value held in an `interface{}` of the argument bag. -/
inductive Value where
  | str (s : String)
  | num (f : Rat)
  | bool (b : Bool)
  | null
  | arr (xs : List Value)
  | obj (kvs : List (String × Value))

/-- The argument bag `map[string]interface{}`. -/
abbrev Arguments := List (String × Value)

/-- Map index expression `arguments[key]`: the stored value, or the nil interface (`none`). -/
def Arguments.get (arguments : Arguments) (key : String) : Option Value :=
  match arguments with
  | [] => none
  | (k, v) :: rest => if k = key then some v else Arguments.get rest key

/-- Type assertion `v.(string)` in its two-valued form `s, ok := v.(string)`. -/
def assertString (v : Option Value) : String × Bool :=
  match v with
  | some (Value.str s) => (s, true)
  | _ => ("", false)

/-- Type assertion `v.(float64)` in its two-valued form `f, ok := v.(float64)`. -/
def assertFloat64 (v : Option Value) : Rat × Bool :=
  match v with
  | some (Value.num f) => (f, true)
  | _ => (0, false)

/-- Smallest value of Go's 64-bit `int`. -/
def minInt : Int := -(2 ^ 63)

/-- Largest value of Go's 64-bit `int`. -/
def maxInt : Int := 2 ^ 63 - 1

/-- Conversion `int(f)` of a `float64`: the fraction is discarded (truncation toward zero).
When the truncated value does not fit in `int` the Go specification leaves the result
implementation-dependent; the value used here is the one amd64 yields, `minInt`. -/
def goInt (f : Rat) : Int :=
  let t := Int.tdiv f.num f.den
  if minInt ≤ t ∧ t ≤ maxInt then t else minInt

/-- Formatting verb `%d` applied to an `int`. -/
def fmtD (i : Int) : String := toString i

/-! ## Results returned to the caller (`mcp.CallToolResult`) -/

/-- The part of `mcp.CallToolResult` the handlers determine: one text content and the
`IsError` flag. -/
structure CallToolResult where
  text : String
  isError : Bool
  deriving DecidableEq, Repr

/-- Constructor `mcp.NewToolResultError(msg)`: the error envelope. -/
def NewToolResultError (msg : String) : CallToolResult := { text := msg, isError := true }

/-- Constructor `mcp.NewToolResultText(text)`: the success envelope. -/
def NewToolResultText (text : String) : CallToolResult := { text := text, isError := false }

/-! ## JSON encoding of the maps the handlers build (`json.Marshal`) -/

/-- A value the handlers store in a `map[string]interface{}` they marshal. -/
inductive Field where
  | str (s : String)
  | bool (b : Bool)
  deriving DecidableEq, Repr

/-- A Go `map[string]interface{}` built by a handler; keys are kept unique by `GoMap.set`. -/
abbrev GoMap := List (String × Field)

/-- Assignment `m[key] = v`. -/
def GoMap.set (m : GoMap) (key : String) (v : Field) : GoMap :=
  match m with
  | [] => [(key, v)]
  | (k, w) :: rest => if k = key then (k, v) :: rest else (k, w) :: GoMap.set rest key v

/-- Index expression `m[key]`. -/
def GoMap.get (m : GoMap) (key : String) : Option Field :=
  match m with
  | [] => none
  | (k, w) :: rest => if k = key then some w else GoMap.get rest key

/-- Keys of the map. -/
def GoMap.keys (m : GoMap) : List String := m.map Prod.fst

/-- Lexicographic comparison of strings by code point, which is the byte order of UTF-8
that `json.Marshal` sorts map keys with. -/
def charsLt : List Char → List Char → Bool
  | [], [] => false
  | [], _ :: _ => true
  | _ :: _, [] => false
  | a :: as, b :: bs => if a.toNat < b.toNat then true else if b.toNat < a.toNat then false
      else charsLt as bs

/-- Insert an entry into a list sorted by key. -/
def insertByKey (e : String × Field) : List (String × Field) → List (String × Field)
  | [] => [e]
  | x :: rest => if charsLt x.1.data e.1.data then x :: insertByKey e rest else e :: x :: rest

/-- Entries of a map in ascending key order. -/
def sortByKey : List (String × Field) → List (String × Field)
  | [] => []
  | e :: rest => insertByKey e (sortByKey rest)

/-- Lower-case hexadecimal digit. -/
def hexDigit (n : Nat) : Char :=
  if n < 10 then Char.ofNat (48 + n) else Char.ofNat (87 + n)

/-- Escape of one character inside a JSON string, as `encoding/json` writes it with HTML
escaping on (the default of `json.Marshal`): the quote and the backslash get a backslash,
control characters, `<`, `>` and `&` are written `\u00XX` (with the short forms `\b`, `\f`,
`\n`, `\r`, `\t`; Go before 1.22 wrote `\u0008` and `\u000c` for the first two), U+2028 and
U+2029 are written `\u2028` and `\u2029`, every other character is written as it is. -/
def jsonEscapeChar (c : Char) : String :=
  if c = '"' then "\\\""
  else if c = '\\' then "\\\\"
  else if c.toNat = 8 then "\\b"
  else if c.toNat = 12 then "\\f"
  else if c = '\n' then "\\n"
  else if c = '\r' then "\\r"
  else if c = '\t' then "\\t"
  else if c.toNat < 32 ∨ c = '<' ∨ c = '>' ∨ c = '&' then
    "\\u00" ++ String.mk [hexDigit (c.toNat / 16), hexDigit (c.toNat % 16)]
  else if c.toNat = 8232 then "\\u2028"
  else if c.toNat = 8233 then "\\u2029"
  else String.mk [c]

/-- The characters of a string, each escaped. -/
def jsonEscape : List Char → String
  | [] => ""
  | c :: cs => jsonEscapeChar c ++ jsonEscape cs

/-- JSON string literal for a Go string. -/
def jsonString (s : String) : String :=
  "\"" ++ jsonEscape s.data ++ "\""

/-- JSON text of a stored value. -/
def jsonField : Field → String
  | Field.str s => jsonString s
  | Field.bool true => "true"
  | Field.bool false => "false"

/-- Members of a JSON object, comma separated. -/
def jsonMembers : List (String × Field) → String
  | [] => ""
  | [e] => jsonString e.1 ++ ":" ++ jsonField e.2
  | e :: rest => jsonString e.1 ++ ":" ++ jsonField e.2 ++ "," ++ jsonMembers rest

/-- JSON text `json.Marshal(m)` of a map: an object with the keys in sorted order. -/
def jsonMarshalMap (m : GoMap) : String :=
  "\x7b" ++ jsonMembers (sortByKey m) ++ "\x7d"

/-- JSON text `json.Marshal(body)` of the `body interface{}` argument of `Post`/`Put`:
the nil interface (`none`) marshals to `null`. Marshalling these values never fails. -/
def jsonMarshal (body : Option GoMap) : String :=
  match body with
  | none => "null"
  | some m => jsonMarshalMap m

/-! ## Configuration (`internal/config`) -/

/-- Go struct `config.Config`. -/
structure Config where
  APIKey : String
  BaseURL : String
  AWSAccountID : String
  deriving DecidableEq, Repr

/-- Default base URL used by `Load`. -/
def defaultBaseURL : String := "https://cloud.m2amedia.tv"

/-- Function `config.Load`, as a function of the three environment values (`os.Getenv`
yields the empty string for an unset variable). -/
def Load (envAPIKey envBaseURL envAWSAccountID : String) : Except String Config :=
  let apiKey := envAPIKey
  if apiKey = "" then Except.error "M2A_API_KEY environment variable is required"
  else
    let baseURL := envBaseURL
    let baseURL := if baseURL = "" then defaultBaseURL else baseURL
    let awsAccountID := envAWSAccountID
    if awsAccountID = "" then Except.error "M2A_AWS_ACCOUNT_ID environment variable is required"
    else Except.ok { APIKey := apiKey, BaseURL := baseURL, AWSAccountID := awsAccountID }

/-! ## The HTTP client (`internal/client`) -/

/-- An `*http.Request` as far as the client determines it. -/
structure HttpRequest where
  method : String
  url : String
  body : Option String
  header : List (String × String)
  deriving DecidableEq, Repr

/-- Method `Header.Set(key, value)`: replaces the value of `key`. -/
def setHeader (h : List (String × String)) (key value : String) : List (String × String) :=
  match h with
  | [] => [(key, value)]
  | (k, w) :: rest => if k = key then (k, value) :: rest else (k, w) :: setHeader rest key value

/-- What `httpClient.Do(req)` followed by `io.ReadAll(resp.Body)` yields. -/
inductive RoundTrip where
  | doError (err : String)
  | readError (status : Int) (err : String)
  | response (status : Int) (body : String)
  deriving DecidableEq, Repr

/-- The `net/http` library and the network behind it: whether `http.NewRequest` rejects a
method and URL string (with which error); the URL of the request it creates from a URL
string it accepts (`net/url` parses the string, and the request carries the parsed URL, which
is written back with its path re-escaped, so it need not be the string given); and what a
request sent with `Do` comes back with. -/
structure Http where
  newRequestError : String → String → Option String
  requestURL : String → String
  roundTrip : HttpRequest → RoundTrip

/-- Function `http.NewRequest(method, url, body)`: the field `url` of the request is the URL
the library derives from the string `url`. -/
def Http.NewRequest (h : Http) (method url : String) (body : Option String) :
    Except String HttpRequest :=
  match h.newRequestError method url with
  | some err => Except.error err
  | none =>
    Except.ok { method := method, url := h.requestURL url, body := body, header := [] }

/-- Go struct `client.M2AClient`; the `httpClient` field is the `Http` parameter. -/
structure M2AClient where
  config : Config
  httpClient : Http

/-- One call of `Get`, `Post`, `Put` or `Delete` on the client: the method, the endpoint and
body arguments, and the request handed to `httpClient.Do` (none when the call returned
before sending). -/
structure GatewayCall where
  method : String
  endpoint : String
  body : Option GoMap
  sent : Option HttpRequest
  deriving DecidableEq, Repr

/-- Method `M2AClient.doRequest`: the result and the request as sent. -/
def M2AClient.doRequest (c : M2AClient) (req : HttpRequest) :
    Except String String × HttpRequest :=
  let req := { req with header := setHeader req.header "Authorization" ("Bearer " ++ c.config.APIKey) }
  let req := { req with header := setHeader req.header "Accept" "application/json" }
  match c.httpClient.roundTrip req with
  | RoundTrip.doError err => (Except.error ("request failed: " ++ err), req)
  | RoundTrip.readError _ err => (Except.error ("failed to read response: " ++ err), req)
  | RoundTrip.response status body =>
    if status < 200 ∨ status ≥ 300 then
      (Except.error ("API error (status " ++ fmtD status ++ "): " ++ body), req)
    else (Except.ok body, req)

/-- Method `M2AClient.Get`. -/
def M2AClient.Get (c : M2AClient) (endpoint : String) :
    Except String String × List GatewayCall :=
  let url := c.config.BaseURL ++ endpoint
  match c.httpClient.NewRequest "GET" url none with
  | Except.error err =>
    (Except.error ("failed to create request: " ++ err),
      [{ method := "GET", endpoint := endpoint, body := none, sent := none }])
  | Except.ok req =>
    let r := c.doRequest req
    (r.1, [{ method := "GET", endpoint := endpoint, body := none, sent := some r.2 }])

/-- Method `M2AClient.Post`. -/
def M2AClient.Post (c : M2AClient) (endpoint : String) (body : Option GoMap) :
    Except String String × List GatewayCall :=
  let url := c.config.BaseURL ++ endpoint
  let jsonData := jsonMarshal body
  match c.httpClient.NewRequest "POST" url (some jsonData) with
  | Except.error err =>
    (Except.error ("failed to create request: " ++ err),
      [{ method := "POST", endpoint := endpoint, body := body, sent := none }])
  | Except.ok req =>
    let req := { req with header := setHeader req.header "Content-Type" "application/json" }
    let r := c.doRequest req
    (r.1, [{ method := "POST", endpoint := endpoint, body := body, sent := some r.2 }])

/-- Method `M2AClient.Put`. -/
def M2AClient.Put (c : M2AClient) (endpoint : String) (body : Option GoMap) :
    Except String String × List GatewayCall :=
  let url := c.config.BaseURL ++ endpoint
  let jsonData := jsonMarshal body
  match c.httpClient.NewRequest "PUT" url (some jsonData) with
  | Except.error err =>
    (Except.error ("failed to create request: " ++ err),
      [{ method := "PUT", endpoint := endpoint, body := body, sent := none }])
  | Except.ok req =>
    let req := { req with header := setHeader req.header "Content-Type" "application/json" }
    let r := c.doRequest req
    (r.1, [{ method := "PUT", endpoint := endpoint, body := body, sent := some r.2 }])

/-- Method `M2AClient.Delete`. -/
def M2AClient.Delete (c : M2AClient) (endpoint : String) :
    Except String String × List GatewayCall :=
  let url := c.config.BaseURL ++ endpoint
  match c.httpClient.NewRequest "DELETE" url none with
  | Except.error err =>
    (Except.error ("failed to create request: " ++ err),
      [{ method := "DELETE", endpoint := endpoint, body := none, sent := none }])
  | Except.ok req =>
    let r := c.doRequest req
    (r.1, [{ method := "DELETE", endpoint := endpoint, body := none, sent := some r.2 }])

/-! ## The tool handlers (`internal/tools`) -/

/-- The pair `(*mcp.CallToolResult, error)` a handler returns (`err = none` is the nil
error), with the calls the handler made on the client, in order. -/
structure HandlerReturn where
  result : CallToolResult
  err : Option String
  calls : List GatewayCall
  deriving DecidableEq, Repr

/-- Go struct `tools.ConnectTools`. -/
structure ConnectTools where
  client : M2AClient

/-- Go struct `tools.LiveTools`. -/
structure LiveTools where
  client : M2AClient

/-- Go struct `tools.CaptureTools`. -/
structure CaptureTools where
  client : M2AClient

/-- Go struct `tools.VODTools`. -/
structure VODTools where
  client : M2AClient

/-! ### connect.go -/

/-- Handler `ConnectTools.ListSources`: lists all video sources. -/
def ConnectTools.ListSources (t : ConnectTools) (arguments : Arguments) : HandlerReturn :=
  let status := (assertString (arguments.get "status")).1
  let endpoint := "/api/v2/connect/sources"
  let endpoint := if status != "" && status != "all" then endpoint ++ ("?status=" ++ status)
    else endpoint
  let r := t.client.Get endpoint
  match r.1 with
  | Except.error err =>
    { result := NewToolResultError ("failed to list sources: " ++ err), err := none, calls := r.2 }
  | Except.ok data => { result := NewToolResultText data, err := none, calls := r.2 }

/-- Handler `ConnectTools.GetSource`: gets details of a specific source. -/
def ConnectTools.GetSource (t : ConnectTools) (arguments : Arguments) : HandlerReturn :=
  let sourceIDok := assertString (arguments.get "source_id")
  let sourceID := sourceIDok.1
  let ok := sourceIDok.2
  if !ok || sourceID == "" then
    { result := NewToolResultError "source_id is required", err := none, calls := [] }
  else
    let endpoint := "/api/v2/connect/sources/" ++ sourceID
    let r := t.client.Get endpoint
    match r.1 with
    | Except.error err =>
      { result := NewToolResultError ("failed to get source: " ++ err), err := none, calls := r.2 }
    | Except.ok data => { result := NewToolResultText data, err := none, calls := r.2 }

/-- Handler `ConnectTools.CreateSource`: creates a new video source. -/
def ConnectTools.CreateSource (t : ConnectTools) (arguments : Arguments) : HandlerReturn :=
  let nameok := assertString (arguments.get "name")
  let name := nameok.1
  let ok := nameok.2
  if !ok || name == "" then
    { result := NewToolResultError "name is required", err := none, calls := [] }
  else
    let sourceTypeok := assertString (arguments.get "type")
    let sourceType := sourceTypeok.1
    let ok := sourceTypeok.2
    if !ok || sourceType == "" then
      { result := NewToolResultError "type is required", err := none, calls := [] }
    else
      let urlok := assertString (arguments.get "url")
      let url := urlok.1
      let ok := urlok.2
      if !ok || url == "" then
        { result := NewToolResultError "url is required", err := none, calls := [] }
      else
        let body : GoMap := [("name", Field.str name), ("type", Field.str sourceType), ("url", Field.str url)]
        let desc := (assertString (arguments.get "description")).1
        let body := if desc != "" then GoMap.set body "description" (Field.str desc) else body
        let endpoint := "/api/v2/connect/sources"
        let r := t.client.Post endpoint (some body)
        match r.1 with
        | Except.error err =>
          { result := NewToolResultError ("failed to create source: " ++ err), err := none, calls := r.2 }
        | Except.ok data => { result := NewToolResultText data, err := none, calls := r.2 }

/-- Handler `ConnectTools.UpdateSource`: updates an existing source. -/
def ConnectTools.UpdateSource (t : ConnectTools) (arguments : Arguments) : HandlerReturn :=
  let sourceIDok := assertString (arguments.get "source_id")
  let sourceID := sourceIDok.1
  let ok := sourceIDok.2
  if !ok || sourceID == "" then
    { result := NewToolResultError "source_id is required", err := none, calls := [] }
  else
    let body : GoMap := []
    let name := (assertString (arguments.get "name")).1
    let body := if name != "" then GoMap.set body "name" (Field.str name) else body
    let url := (assertString (arguments.get "url")).1
    let body := if url != "" then GoMap.set body "url" (Field.str url) else body
    let desc := (assertString (arguments.get "description")).1
    let body := if desc != "" then GoMap.set body "description" (Field.str desc) else body
    if body.length == 0 then
      { result := NewToolResultError "at least one field to update is required", err := none, calls := [] }
    else
      let endpoint := "/api/v2/connect/sources/" ++ sourceID
      let r := t.client.Put endpoint (some body)
      match r.1 with
      | Except.error err =>
        { result := NewToolResultError ("failed to update source: " ++ err), err := none, calls := r.2 }
      | Except.ok data => { result := NewToolResultText data, err := none, calls := r.2 }

/-- Handler `ConnectTools.DeleteSource`: deletes a source. -/
def ConnectTools.DeleteSource (t : ConnectTools) (arguments : Arguments) : HandlerReturn :=
  let sourceIDok := assertString (arguments.get "source_id")
  let sourceID := sourceIDok.1
  let ok := sourceIDok.2
  if !ok || sourceID == "" then
    { result := NewToolResultError "source_id is required", err := none, calls := [] }
  else
    let endpoint := "/api/v2/connect/sources/" ++ sourceID
    let r := t.client.Delete endpoint
    match r.1 with
    | Except.error err =>
      { result := NewToolResultError ("failed to delete source: " ++ err), err := none, calls := r.2 }
    | Except.ok _ =>
      let result : GoMap := [("success", Field.bool true),
        ("message", Field.str ("Source " ++ sourceID ++ " deleted successfully"))]
      let jsonData := jsonMarshalMap result
      { result := NewToolResultText jsonData, err := none, calls := r.2 }

/-- Handler `ConnectTools.ListSubscribers`: lists all subscribers. -/
def ConnectTools.ListSubscribers (t : ConnectTools) (arguments : Arguments) : HandlerReturn :=
  let endpoint := "/api/v2/connect/subscribers"
  let queryParams := ""
  let limit := (assertFloat64 (arguments.get "limit")).1
  let queryParams := if limit > 0 then queryParams ++ ("?limit=" ++ fmtD (goInt limit))
    else queryParams
  let offset := (assertFloat64 (arguments.get "offset")).1
  let queryParams := if offset > 0 then
      (if queryParams == "" then queryParams ++ "?" else queryParams ++ "&")
        ++ ("offset=" ++ fmtD (goInt offset))
    else queryParams
  let endpoint := endpoint ++ queryParams
  let r := t.client.Get endpoint
  match r.1 with
  | Except.error err =>
    { result := NewToolResultError ("failed to list subscribers: " ++ err), err := none, calls := r.2 }
  | Except.ok data => { result := NewToolResultText data, err := none, calls := r.2 }

/-- Handler `ConnectTools.GetSubscriber`: gets details of a specific subscriber. -/
def ConnectTools.GetSubscriber (t : ConnectTools) (arguments : Arguments) : HandlerReturn :=
  let subscriberIDok := assertString (arguments.get "subscriber_id")
  let subscriberID := subscriberIDok.1
  let ok := subscriberIDok.2
  if !ok || subscriberID == "" then
    { result := NewToolResultError "subscriber_id is required", err := none, calls := [] }
  else
    let endpoint := "/api/v2/connect/subscribers/" ++ subscriberID
    let r := t.client.Get endpoint
    match r.1 with
    | Except.error err =>
      { result := NewToolResultError ("failed to get subscriber: " ++ err), err := none, calls := r.2 }
    | Except.ok data => { result := NewToolResultText data, err := none, calls := r.2 }

/-- Handler `ConnectTools.CreateSubscriber`: creates a new subscriber. -/
def ConnectTools.CreateSubscriber (t : ConnectTools) (arguments : Arguments) : HandlerReturn :=
  let nameok := assertString (arguments.get "name")
  let name := nameok.1
  let ok := nameok.2
  if !ok || name == "" then
    { result := NewToolResultError "name is required", err := none, calls := [] }
  else
    let emailok := assertString (arguments.get "email")
    let email := emailok.1
    let ok := emailok.2
    if !ok || email == "" then
      { result := NewToolResultError "email is required", err := none, calls := [] }
    else
      let body : GoMap := [("name", Field.str name), ("email", Field.str email)]
      let org := (assertString (arguments.get "organization")).1
      let body := if org != "" then GoMap.set body "organization" (Field.str org) else body
      let endpoint := "/api/v2/connect/subscribers"
      let r := t.client.Post endpoint (some body)
      match r.1 with
      | Except.error err =>
        { result := NewToolResultError ("failed to create subscriber: " ++ err), err := none, calls := r.2 }
      | Except.ok data => { result := NewToolResultText data, err := none, calls := r.2 }

/-- Handler `ConnectTools.ListSubscriptions`: lists all subscriptions. -/
def ConnectTools.ListSubscriptions (t : ConnectTools) (_arguments : Arguments) : HandlerReturn :=
  let endpoint := "/api/v2/connect/subscriptions"
  let r := t.client.Get endpoint
  match r.1 with
  | Except.error err =>
    { result := NewToolResultError ("failed to list subscriptions: " ++ err), err := none, calls := r.2 }
  | Except.ok data => { result := NewToolResultText data, err := none, calls := r.2 }

/-- Handler `ConnectTools.GetSubscription`: gets details of a specific subscription. -/
def ConnectTools.GetSubscription (t : ConnectTools) (arguments : Arguments) : HandlerReturn :=
  let subscriptionIDok := assertString (arguments.get "subscription_id")
  let subscriptionID := subscriptionIDok.1
  let ok := subscriptionIDok.2
  if !ok || subscriptionID == "" then
    { result := NewToolResultError "subscription_id is required", err := none, calls := [] }
  else
    let endpoint := "/api/v2/connect/subscriptions/" ++ subscriptionID
    let r := t.client.Get endpoint
    match r.1 with
    | Except.error err =>
      { result := NewToolResultError ("failed to get subscription: " ++ err), err := none, calls := r.2 }
    | Except.ok data => { result := NewToolResultText data, err := none, calls := r.2 }

/-- Handler `ConnectTools.CreateSubscription`: creates a new subscription package. -/
def ConnectTools.CreateSubscription (t : ConnectTools) (arguments : Arguments) : HandlerReturn :=
  let nameok := assertString (arguments.get "name")
  let name := nameok.1
  let ok := nameok.2
  if !ok || name == "" then
    { result := NewToolResultError "name is required", err := none, calls := [] }
  else
    let subscriberIDok := assertString (arguments.get "subscriber_id")
    let subscriberID := subscriberIDok.1
    let ok := subscriberIDok.2
    if !ok || subscriberID == "" then
      { result := NewToolResultError "subscriber_id is required", err := none, calls := [] }
    else
      let sourceIDsok := assertString (arguments.get "source_ids")
      let sourceIDs := sourceIDsok.1
      let ok := sourceIDsok.2
      if !ok || sourceIDs == "" then
        { result := NewToolResultError "source_ids is required", err := none, calls := [] }
      else
        let body : GoMap := [("name", Field.str name), ("subscriber_id", Field.str subscriberID), ("source_ids", Field.str sourceIDs)]
        let endpoint := "/api/v2/connect/subscriptions"
        let r := t.client.Post endpoint (some body)
        match r.1 with
        | Except.error err =>
          { result := NewToolResultError ("failed to create subscription: " ++ err), err := none, calls := r.2 }
        | Except.ok data => { result := NewToolResultText data, err := none, calls := r.2 }

/-- Handler `ConnectTools.ListSchedules`: lists all schedules. -/
def ConnectTools.ListSchedules (t : ConnectTools) (arguments : Arguments) : HandlerReturn :=
  let endpoint := "/api/v2/connect/schedules"
  let queryParams := ""
  let startDate := (assertString (arguments.get "start_date")).1
  let queryParams := if startDate != "" then queryParams ++ ("?start_date=" ++ startDate)
    else queryParams
  let endDate := (assertString (arguments.get "end_date")).1
  let queryParams := if endDate != "" then
      (if queryParams == "" then queryParams ++ "?" else queryParams ++ "&")
        ++ ("end_date=" ++ endDate)
    else queryParams
  let endpoint := endpoint ++ queryParams
  let r := t.client.Get endpoint
  match r.1 with
  | Except.error err =>
    { result := NewToolResultError ("failed to list schedules: " ++ err), err := none, calls := r.2 }
  | Except.ok data => { result := NewToolResultText data, err := none, calls := r.2 }

/-- Handler `ConnectTools.GetSchedule`: gets details of a specific schedule. -/
def ConnectTools.GetSchedule (t : ConnectTools) (arguments : Arguments) : HandlerReturn :=
  let scheduleIDok := assertString (arguments.get "schedule_id")
  let scheduleID := scheduleIDok.1
  let ok := scheduleIDok.2
  if !ok || scheduleID == "" then
    { result := NewToolResultError "schedule_id is required", err := none, calls := [] }
  else
    let endpoint := "/api/v2/connect/schedules/" ++ scheduleID
    let r := t.client.Get endpoint
    match r.1 with
    | Except.error err =>
      { result := NewToolResultError ("failed to get schedule: " ++ err), err := none, calls := r.2 }
    | Except.ok data => { result := NewToolResultText data, err := none, calls := r.2 }

/-- Handler `ConnectTools.CreateSchedule`: creates a new schedule. -/
def ConnectTools.CreateSchedule (t : ConnectTools) (arguments : Arguments) : HandlerReturn :=
  let nameok := assertString (arguments.get "name")
  let name := nameok.1
  let ok := nameok.2
  if !ok || name == "" then
    { result := NewToolResultError "name is required", err := none, calls := [] }
  else
    let sourceIDok := assertString (arguments.get "source_id")
    let sourceID := sourceIDok.1
    let ok := sourceIDok.2
    if !ok || sourceID == "" then
      { result := NewToolResultError "source_id is required", err := none, calls := [] }
    else
      let startTimeok := assertString (arguments.get "start_time")
      let startTime := startTimeok.1
      let ok := startTimeok.2
      if !ok || startTime == "" then
        { result := NewToolResultError "start_time is required", err := none, calls := [] }
      else
        let endTimeok := assertString (arguments.get "end_time")
        let endTime := endTimeok.1
        let ok := endTimeok.2
        if !ok || endTime == "" then
          { result := NewToolResultError "end_time is required", err := none, calls := [] }
        else
          let body : GoMap := [("name", Field.str name), ("source_id", Field.str sourceID), ("start_time", Field.str startTime), ("end_time", Field.str endTime)]
          let endpoint := "/api/v2/connect/schedules"
          let r := t.client.Post endpoint (some body)
          match r.1 with
          | Except.error err =>
            { result := NewToolResultError ("failed to create schedule: " ++ err), err := none, calls := r.2 }
          | Except.ok data => { result := NewToolResultText data, err := none, calls := r.2 }

/-! ### live.go -/

/-- Handler `LiveTools.ListChannels`: lists all MediaLive channels. -/
def LiveTools.ListChannels (t : LiveTools) (arguments : Arguments) : HandlerReturn :=
  let endpoint := "/api/v3/live/channels"
  let state := (assertString (arguments.get "state")).1
  let endpoint := if state != "" then endpoint ++ ("?state=" ++ state) else endpoint
  let r := t.client.Get endpoint
  match r.1 with
  | Except.error err =>
    { result := NewToolResultError ("failed to list channels: " ++ err), err := none, calls := r.2 }
  | Except.ok data => { result := NewToolResultText data, err := none, calls := r.2 }

/-- Handler `LiveTools.GetChannel`: gets details of a specific channel. -/
def LiveTools.GetChannel (t : LiveTools) (arguments : Arguments) : HandlerReturn :=
  let channelIDok := assertString (arguments.get "channel_id")
  let channelID := channelIDok.1
  let ok := channelIDok.2
  if !ok || channelID == "" then
    { result := NewToolResultError "channel_id is required", err := none, calls := [] }
  else
    let endpoint := "/api/v3/live/channels/" ++ channelID
    let r := t.client.Get endpoint
    match r.1 with
    | Except.error err =>
      { result := NewToolResultError ("failed to get channel: " ++ err), err := none, calls := r.2 }
    | Except.ok data => { result := NewToolResultText data, err := none, calls := r.2 }

/-- Handler `LiveTools.CreateChannel`: creates a new MediaLive channel. -/
def LiveTools.CreateChannel (t : LiveTools) (arguments : Arguments) : HandlerReturn :=
  let nameok := assertString (arguments.get "name")
  let name := nameok.1
  let ok := nameok.2
  if !ok || name == "" then
    { result := NewToolResultError "name is required", err := none, calls := [] }
  else
    let inputTypeok := assertString (arguments.get "input_type")
    let inputType := inputTypeok.1
    let ok := inputTypeok.2
    if !ok || inputType == "" then
      { result := NewToolResultError "input_type is required", err := none, calls := [] }
    else
      let body : GoMap := [("name", Field.str name), ("input_type", Field.str inputType)]
      let encoderConfigID := (assertString (arguments.get "encoder_config_id")).1
      let body := if encoderConfigID != "" then GoMap.set body "encoder_config_id" (Field.str encoderConfigID) else body
      let endpoint := "/api/v3/live/channels"
      let r := t.client.Post endpoint (some body)
      match r.1 with
      | Except.error err =>
        { result := NewToolResultError ("failed to create channel: " ++ err), err := none, calls := r.2 }
      | Except.ok data => { result := NewToolResultText data, err := none, calls := r.2 }

/-- Handler `LiveTools.StartChannel`: starts a MediaLive channel. -/
def LiveTools.StartChannel (t : LiveTools) (arguments : Arguments) : HandlerReturn :=
  let channelIDok := assertString (arguments.get "channel_id")
  let channelID := channelIDok.1
  let ok := channelIDok.2
  if !ok || channelID == "" then
    { result := NewToolResultError "channel_id is required", err := none, calls := [] }
  else
    let endpoint := "/api/v3/live/channels/" ++ channelID ++ "/start"
    let r := t.client.Post endpoint none
    match r.1 with
    | Except.error err =>
      { result := NewToolResultError ("failed to start channel: " ++ err), err := none, calls := r.2 }
    | Except.ok data => { result := NewToolResultText data, err := none, calls := r.2 }

/-- Handler `LiveTools.StopChannel`: stops a MediaLive channel. -/
def LiveTools.StopChannel (t : LiveTools) (arguments : Arguments) : HandlerReturn :=
  let channelIDok := assertString (arguments.get "channel_id")
  let channelID := channelIDok.1
  let ok := channelIDok.2
  if !ok || channelID == "" then
    { result := NewToolResultError "channel_id is required", err := none, calls := [] }
  else
    let endpoint := "/api/v3/live/channels/" ++ channelID ++ "/stop"
    let r := t.client.Post endpoint none
    match r.1 with
    | Except.error err =>
      { result := NewToolResultError ("failed to stop channel: " ++ err), err := none, calls := r.2 }
    | Except.ok data => { result := NewToolResultText data, err := none, calls := r.2 }

/-- Handler `LiveTools.DeleteChannel`: deletes a MediaLive channel. -/
def LiveTools.DeleteChannel (t : LiveTools) (arguments : Arguments) : HandlerReturn :=
  let channelIDok := assertString (arguments.get "channel_id")
  let channelID := channelIDok.1
  let ok := channelIDok.2
  if !ok || channelID == "" then
    { result := NewToolResultError "channel_id is required", err := none, calls := [] }
  else
    let endpoint := "/api/v3/live/channels/" ++ channelID
    let r := t.client.Delete endpoint
    match r.1 with
    | Except.error err =>
      { result := NewToolResultError ("failed to delete channel: " ++ err), err := none, calls := r.2 }
    | Except.ok _ =>
      let result : GoMap := [("success", Field.bool true),
        ("message", Field.str ("Channel " ++ channelID ++ " deleted successfully"))]
      let jsonData := jsonMarshalMap result
      { result := NewToolResultText jsonData, err := none, calls := r.2 }

/-- Handler `LiveTools.ListEncoderConfigs`: lists encoder configuration fragments. -/
def LiveTools.ListEncoderConfigs (t : LiveTools) (_arguments : Arguments) : HandlerReturn :=
  let endpoint := "/api/v1/live/encoder-configs"
  let r := t.client.Get endpoint
  match r.1 with
  | Except.error err =>
    { result := NewToolResultError ("failed to list encoder configs: " ++ err), err := none, calls := r.2 }
  | Except.ok data => { result := NewToolResultText data, err := none, calls := r.2 }

/-- Handler `LiveTools.GetEncoderConfig`: gets details of a specific encoder configuration. -/
def LiveTools.GetEncoderConfig (t : LiveTools) (arguments : Arguments) : HandlerReturn :=
  let configIDok := assertString (arguments.get "config_id")
  let configID := configIDok.1
  let ok := configIDok.2
  if !ok || configID == "" then
    { result := NewToolResultError "config_id is required", err := none, calls := [] }
  else
    let endpoint := "/api/v1/live/encoder-configs/" ++ configID
    let r := t.client.Get endpoint
    match r.1 with
    | Except.error err =>
      { result := NewToolResultError ("failed to get encoder config: " ++ err), err := none, calls := r.2 }
    | Except.ok data => { result := NewToolResultText data, err := none, calls := r.2 }

/-- Handler `LiveTools.ListWorkflows`: lists all live streaming workflows. -/
def LiveTools.ListWorkflows (t : LiveTools) (_arguments : Arguments) : HandlerReturn :=
  let endpoint := "/api/v1/live/workflows"
  let r := t.client.Get endpoint
  match r.1 with
  | Except.error err =>
    { result := NewToolResultError ("failed to list workflows: " ++ err), err := none, calls := r.2 }
  | Except.ok data => { result := NewToolResultText data, err := none, calls := r.2 }

/-- Handler `LiveTools.GetWorkflow`: gets details of a specific workflow. -/
def LiveTools.GetWorkflow (t : LiveTools) (arguments : Arguments) : HandlerReturn :=
  let workflowIDok := assertString (arguments.get "workflow_id")
  let workflowID := workflowIDok.1
  let ok := workflowIDok.2
  if !ok || workflowID == "" then
    { result := NewToolResultError "workflow_id is required", err := none, calls := [] }
  else
    let endpoint := "/api/v1/live/workflows/" ++ workflowID
    let r := t.client.Get endpoint
    match r.1 with
    | Except.error err =>
      { result := NewToolResultError ("failed to get workflow: " ++ err), err := none, calls := r.2 }
    | Except.ok data => { result := NewToolResultText data, err := none, calls := r.2 }

/-- Handler `LiveTools.CreateWorkflow`: creates a new live streaming workflow. -/
def LiveTools.CreateWorkflow (t : LiveTools) (arguments : Arguments) : HandlerReturn :=
  let nameok := assertString (arguments.get "name")
  let name := nameok.1
  let ok := nameok.2
  if !ok || name == "" then
    { result := NewToolResultError "name is required", err := none, calls := [] }
  else
    let body : GoMap := [("name", Field.str name)]
    let desc := (assertString (arguments.get "description")).1
    let body := if desc != "" then GoMap.set body "description" (Field.str desc) else body
    let endpoint := "/api/v1/live/workflows"
    let r := t.client.Post endpoint (some body)
    match r.1 with
    | Except.error err =>
      { result := NewToolResultError ("failed to create workflow: " ++ err), err := none, calls := r.2 }
    | Except.ok data => { result := NewToolResultText data, err := none, calls := r.2 }

/-! ### capture.go -/

/-- Handler `CaptureTools.ListCaptures`: lists all capture jobs. -/
def CaptureTools.ListCaptures (t : CaptureTools) (arguments : Arguments) : HandlerReturn :=
  let endpoint := "/api/v1/connect/capture"
  let status := (assertString (arguments.get "status")).1
  let endpoint := if status != "" then endpoint ++ ("?status=" ++ status) else endpoint
  let r := t.client.Get endpoint
  match r.1 with
  | Except.error err =>
    { result := NewToolResultError ("failed to list captures: " ++ err), err := none, calls := r.2 }
  | Except.ok data => { result := NewToolResultText data, err := none, calls := r.2 }

/-- Handler `CaptureTools.GetCapture`: gets details of a specific capture job. -/
def CaptureTools.GetCapture (t : CaptureTools) (arguments : Arguments) : HandlerReturn :=
  let captureIDok := assertString (arguments.get "capture_id")
  let captureID := captureIDok.1
  let ok := captureIDok.2
  if !ok || captureID == "" then
    { result := NewToolResultError "capture_id is required", err := none, calls := [] }
  else
    let endpoint := "/api/v1/connect/capture/" ++ captureID
    let r := t.client.Get endpoint
    match r.1 with
    | Except.error err =>
      { result := NewToolResultError ("failed to get capture: " ++ err), err := none, calls := r.2 }
    | Except.ok data => { result := NewToolResultText data, err := none, calls := r.2 }

/-- Handler `CaptureTools.CreateCapture`: creates a new live-to-VOD capture job. -/
def CaptureTools.CreateCapture (t : CaptureTools) (arguments : Arguments) : HandlerReturn :=
  let nameok := assertString (arguments.get "name")
  let name := nameok.1
  let ok := nameok.2
  if !ok || name == "" then
    { result := NewToolResultError "name is required", err := none, calls := [] }
  else
    let channelIDok := assertString (arguments.get "channel_id")
    let channelID := channelIDok.1
    let ok := channelIDok.2
    if !ok || channelID == "" then
      { result := NewToolResultError "channel_id is required", err := none, calls := [] }
    else
      let startTimeok := assertString (arguments.get "start_time")
      let startTime := startTimeok.1
      let ok := startTimeok.2
      if !ok || startTime == "" then
        { result := NewToolResultError "start_time is required", err := none, calls := [] }
      else
        let endTimeok := assertString (arguments.get "end_time")
        let endTime := endTimeok.1
        let ok := endTimeok.2
        if !ok || endTime == "" then
          { result := NewToolResultError "end_time is required", err := none, calls := [] }
        else
          let body : GoMap := [("name", Field.str name), ("channel_id", Field.str channelID), ("start_time", Field.str startTime), ("end_time", Field.str endTime)]
          let endpoint := "/api/v1/connect/capture"
          let r := t.client.Post endpoint (some body)
          match r.1 with
          | Except.error err =>
            { result := NewToolResultError ("failed to create capture: " ++ err), err := none, calls := r.2 }
          | Except.ok data => { result := NewToolResultText data, err := none, calls := r.2 }

/-- Handler `CaptureTools.CancelCapture`: cancels an in-progress capture job. -/
def CaptureTools.CancelCapture (t : CaptureTools) (arguments : Arguments) : HandlerReturn :=
  let captureIDok := assertString (arguments.get "capture_id")
  let captureID := captureIDok.1
  let ok := captureIDok.2
  if !ok || captureID == "" then
    { result := NewToolResultError "capture_id is required", err := none, calls := [] }
  else
    let endpoint := "/api/v1/connect/capture/" ++ captureID ++ "/cancel"
    let r := t.client.Post endpoint none
    match r.1 with
    | Except.error err =>
      { result := NewToolResultError ("failed to cancel capture: " ++ err), err := none, calls := r.2 }
    | Except.ok data => { result := NewToolResultText data, err := none, calls := r.2 }

/-- Handler `CaptureTools.ListCaptureExports`: lists all completed VOD exports from captures. -/
def CaptureTools.ListCaptureExports (t : CaptureTools) (_arguments : Arguments) : HandlerReturn :=
  let endpoint := "/api/v1/connect/capture/exports"
  let r := t.client.Get endpoint
  match r.1 with
  | Except.error err =>
    { result := NewToolResultError ("failed to list capture exports: " ++ err), err := none, calls := r.2 }
  | Except.ok data => { result := NewToolResultText data, err := none, calls := r.2 }

/-- Handler `CaptureTools.GetCaptureExport`: gets details of a specific capture export. -/
def CaptureTools.GetCaptureExport (t : CaptureTools) (arguments : Arguments) : HandlerReturn :=
  let exportIDok := assertString (arguments.get "export_id")
  let exportID := exportIDok.1
  let ok := exportIDok.2
  if !ok || exportID == "" then
    { result := NewToolResultError "export_id is required", err := none, calls := [] }
  else
    let endpoint := "/api/v1/connect/capture/exports/" ++ exportID
    let r := t.client.Get endpoint
    match r.1 with
    | Except.error err =>
      { result := NewToolResultError ("failed to get capture export: " ++ err), err := none, calls := r.2 }
    | Except.ok data => { result := NewToolResultText data, err := none, calls := r.2 }

/-- Handler `CaptureTools.CreateClip`: creates a frame-accurate clip from a capture. -/
def CaptureTools.CreateClip (t : CaptureTools) (arguments : Arguments) : HandlerReturn :=
  let captureIDok := assertString (arguments.get "capture_id")
  let captureID := captureIDok.1
  let ok := captureIDok.2
  if !ok || captureID == "" then
    { result := NewToolResultError "capture_id is required", err := none, calls := [] }
  else
    let startTimecodeok := assertString (arguments.get "start_timecode")
    let startTimecode := startTimecodeok.1
    let ok := startTimecodeok.2
    if !ok || startTimecode == "" then
      { result := NewToolResultError "start_timecode is required", err := none, calls := [] }
    else
      let endTimecodeok := assertString (arguments.get "end_timecode")
      let endTimecode := endTimecodeok.1
      let ok := endTimecodeok.2
      if !ok || endTimecode == "" then
        { result := NewToolResultError "end_timecode is required", err := none, calls := [] }
      else
        let nameok := assertString (arguments.get "name")
        let name := nameok.1
        let ok := nameok.2
        if !ok || name == "" then
          { result := NewToolResultError "name is required", err := none, calls := [] }
        else
          let body : GoMap := [("capture_id", Field.str captureID), ("start_timecode", Field.str startTimecode), ("end_timecode", Field.str endTimecode), ("name", Field.str name)]
          let endpoint := "/api/v1/connect/capture/clips"
          let r := t.client.Post endpoint (some body)
          match r.1 with
          | Except.error err =>
            { result := NewToolResultError ("failed to create clip: " ++ err), err := none, calls := r.2 }
          | Except.ok data => { result := NewToolResultText data, err := none, calls := r.2 }

/-! ### vod.go -/

/-- Handler `VODTools.ListVODAssets`: lists all VOD assets. -/
def VODTools.ListVODAssets (t : VODTools) (arguments : Arguments) : HandlerReturn :=
  let endpoint := "/api/v1/vod/assets"
  let queryParams := ""
  let limit := (assertFloat64 (arguments.get "limit")).1
  let queryParams := if limit > 0 then queryParams ++ ("?limit=" ++ fmtD (goInt limit))
    else queryParams
  let offset := (assertFloat64 (arguments.get "offset")).1
  let queryParams := if offset > 0 then
      (if queryParams == "" then queryParams ++ "?" else queryParams ++ "&")
        ++ ("offset=" ++ fmtD (goInt offset))
    else queryParams
  let endpoint := endpoint ++ queryParams
  let r := t.client.Get endpoint
  match r.1 with
  | Except.error err =>
    { result := NewToolResultError ("failed to list VOD assets: " ++ err), err := none, calls := r.2 }
  | Except.ok data => { result := NewToolResultText data, err := none, calls := r.2 }

/-- Handler `VODTools.GetVODAsset`: gets details of a specific VOD asset. -/
def VODTools.GetVODAsset (t : VODTools) (arguments : Arguments) : HandlerReturn :=
  let assetIDok := assertString (arguments.get "asset_id")
  let assetID := assetIDok.1
  let ok := assetIDok.2
  if !ok || assetID == "" then
    { result := NewToolResultError "asset_id is required", err := none, calls := [] }
  else
    let endpoint := "/api/v1/vod/assets/" ++ assetID
    let r := t.client.Get endpoint
    match r.1 with
    | Except.error err =>
      { result := NewToolResultError ("failed to get VOD asset: " ++ err), err := none, calls := r.2 }
    | Except.ok data => { result := NewToolResultText data, err := none, calls := r.2 }

/-- Handler `VODTools.UpdateVODMetadata`: updates metadata for a VOD asset. -/
def VODTools.UpdateVODMetadata (t : VODTools) (arguments : Arguments) : HandlerReturn :=
  let assetIDok := assertString (arguments.get "asset_id")
  let assetID := assetIDok.1
  let ok := assetIDok.2
  if !ok || assetID == "" then
    { result := NewToolResultError "asset_id is required", err := none, calls := [] }
  else
    let body : GoMap := []
    let title := (assertString (arguments.get "title")).1
    let body := if title != "" then GoMap.set body "title" (Field.str title) else body
    let desc := (assertString (arguments.get "description")).1
    let body := if desc != "" then GoMap.set body "description" (Field.str desc) else body
    let tags := (assertString (arguments.get "tags")).1
    let body := if tags != "" then GoMap.set body "tags" (Field.str tags) else body
    if body.length == 0 then
      { result := NewToolResultError "at least one metadata field is required", err := none, calls := [] }
    else
      let endpoint := "/api/v1/vod/assets/" ++ assetID
      let r := t.client.Put endpoint (some body)
      match r.1 with
      | Except.error err =>
        { result := NewToolResultError ("failed to update VOD metadata: " ++ err), err := none, calls := r.2 }
      | Except.ok data => { result := NewToolResultText data, err := none, calls := r.2 }

/-- Handler `VODTools.DeleteVODAsset`: deletes a VOD asset. -/
def VODTools.DeleteVODAsset (t : VODTools) (arguments : Arguments) : HandlerReturn :=
  let assetIDok := assertString (arguments.get "asset_id")
  let assetID := assetIDok.1
  let ok := assetIDok.2
  if !ok || assetID == "" then
    { result := NewToolResultError "asset_id is required", err := none, calls := [] }
  else
    let endpoint := "/api/v1/vod/assets/" ++ assetID
    let r := t.client.Delete endpoint
    match r.1 with
    | Except.error err =>
      { result := NewToolResultError ("failed to delete VOD asset: " ++ err), err := none, calls := r.2 }
    | Except.ok _ =>
      let result : GoMap := [("success", Field.bool true),
        ("message", Field.str ("VOD asset " ++ assetID ++ " deleted successfully"))]
      let jsonData := jsonMarshalMap result
      { result := NewToolResultText jsonData, err := none, calls := r.2 }

/-- Handler `VODTools.GetPlaybackURL`: gets the streaming playback URL for a VOD asset. -/
def VODTools.GetPlaybackURL (t : VODTools) (arguments : Arguments) : HandlerReturn :=
  let assetIDok := assertString (arguments.get "asset_id")
  let assetID := assetIDok.1
  let ok := assetIDok.2
  if !ok || assetID == "" then
    { result := NewToolResultError "asset_id is required", err := none, calls := [] }
  else
    let format := (assertString (arguments.get "format")).1
    let format := if format == "" then "hls" else format
    let endpoint := "/api/v1/vod/assets/" ++ assetID ++ "/playback?format=" ++ format
    let r := t.client.Get endpoint
    match r.1 with
    | Except.error err =>
      { result := NewToolResultError ("failed to get playback URL: " ++ err), err := none, calls := r.2 }
    | Except.ok data => { result := NewToolResultText data, err := none, calls := r.2 }

/-! ## Registration (`main.go`, `registerTools`) -/

/-- The handlers, one constructor per method of the four tool structs. -/
inductive Handler where
  | ListSources
  | GetSource
  | CreateSource
  | UpdateSource
  | DeleteSource
  | ListSubscribers
  | GetSubscriber
  | CreateSubscriber
  | ListSubscriptions
  | GetSubscription
  | CreateSubscription
  | ListSchedules
  | GetSchedule
  | CreateSchedule
  | ListChannels
  | GetChannel
  | CreateChannel
  | StartChannel
  | StopChannel
  | DeleteChannel
  | ListEncoderConfigs
  | GetEncoderConfig
  | ListWorkflows
  | GetWorkflow
  | CreateWorkflow
  | ListCaptures
  | GetCapture
  | CreateCapture
  | CancelCapture
  | ListCaptureExports
  | GetCaptureExport
  | CreateClip
  | ListVODAssets
  | GetVODAsset
  | UpdateVODMetadata
  | DeleteVODAsset
  | GetPlaybackURL
  deriving DecidableEq, Repr

/-- The calls `s.AddTool(mcp.NewTool(name, ...), handler)` of `registerTools`, in order:
the tool name and the handler bound to it. -/
def registerTools : List (String × Handler) :=
  [("list_sources", Handler.ListSources),
   ("get_source", Handler.GetSource),
   ("create_source", Handler.CreateSource),
   ("update_source", Handler.UpdateSource),
   ("delete_source", Handler.DeleteSource),
   ("list_subscribers", Handler.ListSubscribers),
   ("get_subscriber", Handler.GetSubscriber),
   ("create_subscriber", Handler.CreateSubscriber),
   ("list_subscriptions", Handler.ListSubscriptions),
   ("get_subscription", Handler.GetSubscription),
   ("create_subscription", Handler.CreateSubscription),
   ("list_schedules", Handler.ListSchedules),
   ("get_schedule", Handler.GetSchedule),
   ("create_schedule", Handler.CreateSchedule),
   ("list_channels", Handler.ListChannels),
   ("get_channel", Handler.GetChannel),
   ("create_channel", Handler.CreateChannel),
   ("start_channel", Handler.StartChannel),
   ("stop_channel", Handler.StopChannel),
   ("delete_channel", Handler.DeleteChannel),
   ("list_encoder_configs", Handler.ListEncoderConfigs),
   ("get_encoder_config", Handler.GetEncoderConfig),
   ("list_workflows", Handler.ListWorkflows),
   ("get_workflow", Handler.GetWorkflow),
   ("create_workflow", Handler.CreateWorkflow),
   ("list_captures", Handler.ListCaptures),
   ("get_capture", Handler.GetCapture),
   ("create_capture", Handler.CreateCapture),
   ("cancel_capture", Handler.CancelCapture),
   ("list_capture_exports", Handler.ListCaptureExports),
   ("get_capture_export", Handler.GetCaptureExport),
   ("create_clip", Handler.CreateClip),
   ("list_vod_assets", Handler.ListVODAssets),
   ("get_vod_asset", Handler.GetVODAsset),
   ("update_vod_metadata", Handler.UpdateVODMetadata),
   ("delete_vod_asset", Handler.DeleteVODAsset),
   ("get_playback_url", Handler.GetPlaybackURL)]

/-- Invocation of a handler on the tool structs that `registerTools` creates from the
client (`tools.NewConnectTools(client)` and its three siblings). -/
def Handler.call (h : Handler) (client : M2AClient) (arguments : Arguments) : HandlerReturn :=
  match h with
  | Handler.ListSources => ConnectTools.ListSources { client := client } arguments
  | Handler.GetSource => ConnectTools.GetSource { client := client } arguments
  | Handler.CreateSource => ConnectTools.CreateSource { client := client } arguments
  | Handler.UpdateSource => ConnectTools.UpdateSource { client := client } arguments
  | Handler.DeleteSource => ConnectTools.DeleteSource { client := client } arguments
  | Handler.ListSubscribers => ConnectTools.ListSubscribers { client := client } arguments
  | Handler.GetSubscriber => ConnectTools.GetSubscriber { client := client } arguments
  | Handler.CreateSubscriber => ConnectTools.CreateSubscriber { client := client } arguments
  | Handler.ListSubscriptions => ConnectTools.ListSubscriptions { client := client } arguments
  | Handler.GetSubscription => ConnectTools.GetSubscription { client := client } arguments
  | Handler.CreateSubscription => ConnectTools.CreateSubscription { client := client } arguments
  | Handler.ListSchedules => ConnectTools.ListSchedules { client := client } arguments
  | Handler.GetSchedule => ConnectTools.GetSchedule { client := client } arguments
  | Handler.CreateSchedule => ConnectTools.CreateSchedule { client := client } arguments
  | Handler.ListChannels => LiveTools.ListChannels { client := client } arguments
  | Handler.GetChannel => LiveTools.GetChannel { client := client } arguments
  | Handler.CreateChannel => LiveTools.CreateChannel { client := client } arguments
  | Handler.StartChannel => LiveTools.StartChannel { client := client } arguments
  | Handler.StopChannel => LiveTools.StopChannel { client := client } arguments
  | Handler.DeleteChannel => LiveTools.DeleteChannel { client := client } arguments
  | Handler.ListEncoderConfigs => LiveTools.ListEncoderConfigs { client := client } arguments
  | Handler.GetEncoderConfig => LiveTools.GetEncoderConfig { client := client } arguments
  | Handler.ListWorkflows => LiveTools.ListWorkflows { client := client } arguments
  | Handler.GetWorkflow => LiveTools.GetWorkflow { client := client } arguments
  | Handler.CreateWorkflow => LiveTools.CreateWorkflow { client := client } arguments
  | Handler.ListCaptures => CaptureTools.ListCaptures { client := client } arguments
  | Handler.GetCapture => CaptureTools.GetCapture { client := client } arguments
  | Handler.CreateCapture => CaptureTools.CreateCapture { client := client } arguments
  | Handler.CancelCapture => CaptureTools.CancelCapture { client := client } arguments
  | Handler.ListCaptureExports => CaptureTools.ListCaptureExports { client := client } arguments
  | Handler.GetCaptureExport => CaptureTools.GetCaptureExport { client := client } arguments
  | Handler.CreateClip => CaptureTools.CreateClip { client := client } arguments
  | Handler.ListVODAssets => VODTools.ListVODAssets { client := client } arguments
  | Handler.GetVODAsset => VODTools.GetVODAsset { client := client } arguments
  | Handler.UpdateVODMetadata => VODTools.UpdateVODMetadata { client := client } arguments
  | Handler.DeleteVODAsset => VODTools.DeleteVODAsset { client := client } arguments
  | Handler.GetPlaybackURL => VODTools.GetPlaybackURL { client := client } arguments

/-! ## Tables read off the handlers, used to state the properties -/

/-- The required parameters of a handler, in the order in which the handler checks them. -/
def Handler.required : Handler → List String
  | Handler.ListSources => []
  | Handler.GetSource => ["source_id"]
  | Handler.CreateSource => ["name", "type", "url"]
  | Handler.UpdateSource => ["source_id"]
  | Handler.DeleteSource => ["source_id"]
  | Handler.ListSubscribers => []
  | Handler.GetSubscriber => ["subscriber_id"]
  | Handler.CreateSubscriber => ["name", "email"]
  | Handler.ListSubscriptions => []
  | Handler.GetSubscription => ["subscription_id"]
  | Handler.CreateSubscription => ["name", "subscriber_id", "source_ids"]
  | Handler.ListSchedules => []
  | Handler.GetSchedule => ["schedule_id"]
  | Handler.CreateSchedule => ["name", "source_id", "start_time", "end_time"]
  | Handler.ListChannels => []
  | Handler.GetChannel => ["channel_id"]
  | Handler.CreateChannel => ["name", "input_type"]
  | Handler.StartChannel => ["channel_id"]
  | Handler.StopChannel => ["channel_id"]
  | Handler.DeleteChannel => ["channel_id"]
  | Handler.ListEncoderConfigs => []
  | Handler.GetEncoderConfig => ["config_id"]
  | Handler.ListWorkflows => []
  | Handler.GetWorkflow => ["workflow_id"]
  | Handler.CreateWorkflow => ["name"]
  | Handler.ListCaptures => []
  | Handler.GetCapture => ["capture_id"]
  | Handler.CreateCapture => ["name", "channel_id", "start_time", "end_time"]
  | Handler.CancelCapture => ["capture_id"]
  | Handler.ListCaptureExports => []
  | Handler.GetCaptureExport => ["export_id"]
  | Handler.CreateClip => ["capture_id", "start_timecode", "end_timecode", "name"]
  | Handler.ListVODAssets => []
  | Handler.GetVODAsset => ["asset_id"]
  | Handler.UpdateVODMetadata => ["asset_id"]
  | Handler.DeleteVODAsset => ["asset_id"]
  | Handler.GetPlaybackURL => ["asset_id"]

/-- The operation phrase of a handler: what follows `failed to ` in the message it formats
around an error of the client. -/
def Handler.operation : Handler → String
  | Handler.ListSources => "list sources"
  | Handler.GetSource => "get source"
  | Handler.CreateSource => "create source"
  | Handler.UpdateSource => "update source"
  | Handler.DeleteSource => "delete source"
  | Handler.ListSubscribers => "list subscribers"
  | Handler.GetSubscriber => "get subscriber"
  | Handler.CreateSubscriber => "create subscriber"
  | Handler.ListSubscriptions => "list subscriptions"
  | Handler.GetSubscription => "get subscription"
  | Handler.CreateSubscription => "create subscription"
  | Handler.ListSchedules => "list schedules"
  | Handler.GetSchedule => "get schedule"
  | Handler.CreateSchedule => "create schedule"
  | Handler.ListChannels => "list channels"
  | Handler.GetChannel => "get channel"
  | Handler.CreateChannel => "create channel"
  | Handler.StartChannel => "start channel"
  | Handler.StopChannel => "stop channel"
  | Handler.DeleteChannel => "delete channel"
  | Handler.ListEncoderConfigs => "list encoder configs"
  | Handler.GetEncoderConfig => "get encoder config"
  | Handler.ListWorkflows => "list workflows"
  | Handler.GetWorkflow => "get workflow"
  | Handler.CreateWorkflow => "create workflow"
  | Handler.ListCaptures => "list captures"
  | Handler.GetCapture => "get capture"
  | Handler.CreateCapture => "create capture"
  | Handler.CancelCapture => "cancel capture"
  | Handler.ListCaptureExports => "list capture exports"
  | Handler.GetCaptureExport => "get capture export"
  | Handler.CreateClip => "create clip"
  | Handler.ListVODAssets => "list VOD assets"
  | Handler.GetVODAsset => "get VOD asset"
  | Handler.UpdateVODMetadata => "update VOD metadata"
  | Handler.DeleteVODAsset => "delete VOD asset"
  | Handler.GetPlaybackURL => "get playback URL"

/-- The argument `p` is present and is a non-empty string. -/
def populated (arguments : Arguments) (p : String) : Bool :=
  match arguments.get p with
  | some (Value.str s) => decide (s ≠ "")
  | _ => false

/-- The first of the parameters `ps` that is absent, the empty string or not a string. -/
def firstMissing (arguments : Arguments) (ps : List String) : Option String :=
  ps.find? (fun p => !populated arguments p)

/-- The optional fields of the update-style handlers (empty for every other handler). -/
def Handler.updateFields : Handler → List String
  | Handler.UpdateSource => ["name", "url", "description"]
  | Handler.UpdateVODMetadata => ["title", "description", "tags"]
  | _ => []

/-- The delete-style handlers. -/
def Handler.isDelete : Handler → Bool
  | Handler.DeleteSource => true
  | Handler.DeleteChannel => true
  | Handler.DeleteVODAsset => true
  | _ => false

/-- The arguments pass the validation of the handler: every required parameter is a
non-empty string and, for an update-style handler, so is at least one optional field. -/
def passesValidation (h : Handler) (arguments : Arguments) : Bool :=
  h.required.all (populated arguments) &&
    (h.updateFields.isEmpty || h.updateFields.any (populated arguments))

/-- The backend answers: `http.NewRequest` accepts the request and the round trip yields
a response with the given status code and body, whatever the request. -/
def Responds (client : M2AClient) (status : Int) (body : String) : Prop :=
  (∀ m u, client.httpClient.newRequestError m u = none) ∧
    ∀ req, client.httpClient.roundTrip req = RoundTrip.response status body

/-- What `doRequest` returns for a response with the given status code and body. -/
def statusResult (status : Int) (body : String) : Except String String :=
  if status < 200 ∨ status ≥ 300 then
    Except.error ("API error (status " ++ fmtD status ++ "): " ++ body)
  else Except.ok body

/-- The arguments of a call on the client: method, endpoint and body. -/
def GatewayCall.invocation (g : GatewayCall) : String × String × Option GoMap :=
  (g.method, g.endpoint, g.body)

/-- The calls a handler made on the client, as method, endpoint and body. -/
def HandlerReturn.invocations (r : HandlerReturn) : List (String × String × Option GoMap) :=
  r.calls.map GatewayCall.invocation

/-- The string `s` starts with the string `p`. -/
def startsWith (s p : String) : Bool := p.data.isPrefixOf s.data

/-- The characters of a URL string with every space of the path, that is every space before
the first `?` or `#`, written `%20`. -/
def escapePathSpaces : List Char → List Char
  | [] => []
  | c :: cs =>
    if c = '?' ∨ c = '#' then c :: cs
    else if c = Char.ofNat 32 then '%' :: '2' :: '0' :: escapePathSpaces cs
    else c :: escapePathSpaces cs

/-- Stand-in for `net/url` in the example clients: the URL written back for a URL string
whose only characters that `net/url` rewrites are spaces in the path. -/
def exampleRequestURL (url : String) : String := String.mk (escapePathSpaces url.data)

/-- A client whose backend answers every request with the given status code and body; used
to evaluate the handlers on concrete inputs. -/
def stubClient (status : Int) (body : String) : M2AClient :=
  { config := { APIKey := "key", BaseURL := "https://cloud.m2amedia.tv", AWSAccountID := "acct" }
    httpClient :=
      { newRequestError := fun _ _ => none
        requestURL := exampleRequestURL
        roundTrip := fun _ => RoundTrip.response status body } }

/-- The populated ones among the optional fields `fields`, in order, each with the string
supplied for it. -/
def populatedFields (arguments : Arguments) (fields : List String) : GoMap :=
  (fields.filter (populated arguments)).map
    (fun k => (k, Field.str (assertString (arguments.get k)).1))

/-- The query string `queryParams` that `ListSubscribers` and `ListVODAssets` build from the
asserted `limit` and `offset` values. -/
def pageQuery (limit offset : Rat) : String :=
  let queryParams := ""
  let queryParams := if limit > 0 then queryParams ++ ("?limit=" ++ fmtD (goInt limit))
    else queryParams
  if offset > 0 then
    (if queryParams == "" then queryParams ++ "?" else queryParams ++ "&")
      ++ ("offset=" ++ fmtD (goInt offset))
  else queryParams

/-- A character that `encoding/json` writes unchanged inside a string literal. -/
def jsonPlain (c : Char) : Bool :=
  decide (32 ≤ c.toNat) && c != '"' && c != '\\' && c != '<' && c != '>' && c != '&' &&
    c.toNat != 8232 && c.toNat != 8233

/-- Method `Header.Get(key)`: the value set for `key`, if any. -/
def getHeader (h : List (String × String)) (key : String) : Option String :=
  match h with
  | [] => none
  | (k, w) :: rest => if k = key then some w else getHeader rest key

/-- The `mcp.Enum(...)` values that `registerTools` advertises for a parameter of a tool
(empty when the parameter has no enum). -/
def advertisedEnum (tool param : String) : List String :=
  if tool = "list_sources" ∧ param = "status" then ["active", "inactive", "all"]
  else if tool = "create_source" ∧ param = "type" then ["rtmp", "srt", "udp", "rtp"]
  else if tool = "list_channels" ∧ param = "state" then
    ["IDLE", "CREATING", "STARTING", "RUNNING", "STOPPING", "DELETING"]
  else if tool = "create_channel" ∧ param = "input_type" then
    ["RTMP_PUSH", "RTP_PUSH", "UDP_PUSH", "MEDIACONNECT"]
  else if tool = "list_captures" ∧ param = "status" then
    ["PENDING", "IN_PROGRESS", "COMPLETED", "FAILED", "CANCELLED"]
  else if tool = "get_playback_url" ∧ param = "format" then ["hls", "dash", "mp4"]
  else []

/-- Every call on the client fails with the error `e`, whatever the endpoint and body. -/
def GatewayFails (client : M2AClient) (e : String) : Prop :=
  (∀ endpoint, (client.Get endpoint).1 = Except.error e) ∧
  (∀ endpoint b, (client.Post endpoint b).1 = Except.error e) ∧
  (∀ endpoint b, (client.Put endpoint b).1 = Except.error e) ∧
  (∀ endpoint, (client.Delete endpoint).1 = Except.error e)

/-- A client whose HTTP round trip always fails with the transport error `err`; used to
evaluate the handlers on concrete inputs. -/
def downClient (err : String) : M2AClient :=
  { config := { APIKey := "key", BaseURL := "https://cloud.m2amedia.tv", AWSAccountID := "acct" }
    httpClient :=
      { newRequestError := fun _ _ => none
        requestURL := exampleRequestURL
        roundTrip := fun _ => RoundTrip.doError err } }

/-- Map assignment `arguments[key] = v`. -/
def Arguments.set (arguments : Arguments) (key : String) (v : Value) : Arguments :=
  match arguments with
  | [] => [(key, v)]
  | (k, w) :: rest => if k = key then (k, v) :: rest else (k, w) :: Arguments.set rest key v

/-- Map deletion `delete(arguments, key)`. -/
def Arguments.erase (arguments : Arguments) (key : String) : Arguments :=
  match arguments with
  | [] => []
  | (k, w) :: rest => if k = key then Arguments.erase rest key else (k, w) :: Arguments.erase rest key

/-- The dynamic type of the value is `string`. -/
def Value.isString : Value → Bool
  | Value.str _ => true
  | _ => false

/-- The dynamic type of the value is `float64`. -/
def Value.isNumber : Value → Bool
  | Value.num _ => true
  | _ => false

/-- The optional string parameters of a handler: those it reads with `.(string)` without
rejecting the call when the assertion fails or the string is empty. -/
def Handler.optionalStrings : Handler → List String
  | Handler.ListSources => ["status"]
  | Handler.CreateSource => ["description"]
  | Handler.UpdateSource => ["name", "url", "description"]
  | Handler.CreateSubscriber => ["organization"]
  | Handler.ListSchedules => ["start_date", "end_date"]
  | Handler.ListChannels => ["state"]
  | Handler.CreateChannel => ["encoder_config_id"]
  | Handler.CreateWorkflow => ["description"]
  | Handler.ListCaptures => ["status"]
  | Handler.UpdateVODMetadata => ["title", "description", "tags"]
  | Handler.GetPlaybackURL => ["format"]
  | _ => []

/-- The optional numeric parameters of a handler: those it reads with `.(float64)`. -/
def Handler.optionalNumbers : Handler → List String
  | Handler.ListSubscribers => ["limit", "offset"]
  | Handler.ListVODAssets => ["limit", "offset"]
  | _ => []

/-! ## The same code with nil left possible

The definitions above fix by their types what `main` establishes when it builds the
objects: the tool structs, the client, its configuration and its HTTP client are values, and
the argument bag is a map. Below the same functions are translated once more with these left
open, as Go has them: a pointer may be nil, the argument map may be nil, and code that
dereferences a nil pointer panics. The result is the value `mcp.CallToolResult` behind a
pointer, with its list of contents. -/

/-- Outcome of running a Go function: it returns, or it panics (the run-time panic within
reach of this code is the dereference of a nil pointer). -/
inductive Run (α : Type) where
  | ret (a : α)
  | panic
  deriving DecidableEq, Repr

/-- One element of the field `Content` of `mcp.CallToolResult`: the three implementations of
`mcp.Content`. -/
inductive Go.Content where
  | text (text : String)
  | image (data mimeType : String)
  | resource (uri : String)
  deriving DecidableEq, Repr

/-- Go struct `mcp.CallToolResult`. -/
structure Go.CallToolResult where
  content : List Go.Content
  isError : Bool
  deriving DecidableEq, Repr

/-- Constructor `mcp.NewToolResultError(msg)`: a pointer to a result with the one text
content `msg` and `IsError` set. -/
def Go.NewToolResultError (msg : String) : Option Go.CallToolResult :=
  some { content := [Go.Content.text msg], isError := true }

/-- Constructor `mcp.NewToolResultText(text)`: a pointer to a result with the one text
content `text` and `IsError` unset. -/
def Go.NewToolResultText (text : String) : Option Go.CallToolResult :=
  some { content := [Go.Content.text text], isError := false }

/-- Map index expression `arguments[key]` on a map that may be nil: reading a nil map gives
the zero value, here the nil interface. -/
def Go.index (arguments : Option Arguments) (key : String) : Option Value :=
  match arguments with
  | none => none
  | some m => m.get key

/-- Go struct `http.Client` as far as `NewM2AClient` sets it: the timeout in seconds. -/
structure Go.HttpClient where
  timeoutSeconds : Nat
  deriving DecidableEq, Repr

/-- Go struct `client.M2AClient` with its two pointer fields. -/
structure Go.M2AClient where
  config : Option Config
  httpClient : Option Go.HttpClient
  deriving DecidableEq, Repr

/-- Function `client.NewM2AClient(cfg)`. -/
def Go.NewM2AClient (cfg : Option Config) : Option Go.M2AClient :=
  some { config := cfg, httpClient := some { timeoutSeconds := 30 } }

/-- Method `M2AClient.doRequest` on a receiver that may be nil; `net` is the `net/http`
library and the network. Reading `c.config.APIKey` panics when `c` or `c.config` is nil, and
`c.httpClient.Do` panics when `c.httpClient` is nil. -/
def Go.M2AClient.doRequest (net : Http) (c : Option Go.M2AClient) (req : HttpRequest) :
    Run (Except String String × HttpRequest) :=
  match c with
  | none => Run.panic
  | some cc =>
    match cc.config with
    | none => Run.panic
    | some config =>
      let req := { req with header := setHeader req.header "Authorization" ("Bearer " ++ config.APIKey) }
      let req := { req with header := setHeader req.header "Accept" "application/json" }
      match cc.httpClient with
      | none => Run.panic
      | some _ =>
        match net.roundTrip req with
        | RoundTrip.doError err => Run.ret (Except.error ("request failed: " ++ err), req)
        | RoundTrip.readError _ err =>
          Run.ret (Except.error ("failed to read response: " ++ err), req)
        | RoundTrip.response status body =>
          if status < 200 ∨ status ≥ 300 then
            Run.ret (Except.error ("API error (status " ++ fmtD status ++ "): " ++ body), req)
          else Run.ret (Except.ok body, req)

/-- Method `M2AClient.Get` on a receiver that may be nil: reading `c.config.BaseURL` panics
when `c` or `c.config` is nil. -/
def Go.M2AClient.Get (net : Http) (c : Option Go.M2AClient) (endpoint : String) :
    Run (Except String String × List GatewayCall) :=
  match c with
  | none => Run.panic
  | some cc =>
    match cc.config with
    | none => Run.panic
    | some config =>
      let url := config.BaseURL ++ endpoint
      match net.NewRequest "GET" url none with
      | Except.error err =>
        Run.ret (Except.error ("failed to create request: " ++ err),
          [{ method := "GET", endpoint := endpoint, body := none, sent := none }])
      | Except.ok req =>
        match Go.M2AClient.doRequest net c req with
        | Run.panic => Run.panic
        | Run.ret r =>
          Run.ret (r.1, [{ method := "GET", endpoint := endpoint, body := none, sent := some r.2 }])

/-- Method `M2AClient.Post` on a receiver that may be nil. -/
def Go.M2AClient.Post (net : Http) (c : Option Go.M2AClient) (endpoint : String)
    (body : Option GoMap) : Run (Except String String × List GatewayCall) :=
  match c with
  | none => Run.panic
  | some cc =>
    match cc.config with
    | none => Run.panic
    | some config =>
      let url := config.BaseURL ++ endpoint
      let jsonData := jsonMarshal body
      match net.NewRequest "POST" url (some jsonData) with
      | Except.error err =>
        Run.ret (Except.error ("failed to create request: " ++ err),
          [{ method := "POST", endpoint := endpoint, body := body, sent := none }])
      | Except.ok req =>
        let req := { req with header := setHeader req.header "Content-Type" "application/json" }
        match Go.M2AClient.doRequest net c req with
        | Run.panic => Run.panic
        | Run.ret r =>
          Run.ret (r.1, [{ method := "POST", endpoint := endpoint, body := body, sent := some r.2 }])

/-- Method `M2AClient.Put` on a receiver that may be nil. -/
def Go.M2AClient.Put (net : Http) (c : Option Go.M2AClient) (endpoint : String)
    (body : Option GoMap) : Run (Except String String × List GatewayCall) :=
  match c with
  | none => Run.panic
  | some cc =>
    match cc.config with
    | none => Run.panic
    | some config =>
      let url := config.BaseURL ++ endpoint
      let jsonData := jsonMarshal body
      match net.NewRequest "PUT" url (some jsonData) with
      | Except.error err =>
        Run.ret (Except.error ("failed to create request: " ++ err),
          [{ method := "PUT", endpoint := endpoint, body := body, sent := none }])
      | Except.ok req =>
        let req := { req with header := setHeader req.header "Content-Type" "application/json" }
        match Go.M2AClient.doRequest net c req with
        | Run.panic => Run.panic
        | Run.ret r =>
          Run.ret (r.1, [{ method := "PUT", endpoint := endpoint, body := body, sent := some r.2 }])

/-- Method `M2AClient.Delete` on a receiver that may be nil. -/
def Go.M2AClient.Delete (net : Http) (c : Option Go.M2AClient) (endpoint : String) :
    Run (Except String String × List GatewayCall) :=
  match c with
  | none => Run.panic
  | some cc =>
    match cc.config with
    | none => Run.panic
    | some config =>
      let url := config.BaseURL ++ endpoint
      match net.NewRequest "DELETE" url none with
      | Except.error err =>
        Run.ret (Except.error ("failed to create request: " ++ err),
          [{ method := "DELETE", endpoint := endpoint, body := none, sent := none }])
      | Except.ok req =>
        match Go.M2AClient.doRequest net c req with
        | Run.panic => Run.panic
        | Run.ret r =>
          Run.ret (r.1, [{ method := "DELETE", endpoint := endpoint, body := none, sent := some r.2 }])

/-- The pair `(*mcp.CallToolResult, error)` a handler returns: the result pointer (`none` is
nil), the error (`none` is nil), and the calls the handler made on the client. -/
structure Go.HandlerReturn where
  result : Option Go.CallToolResult
  err : Option String
  calls : List GatewayCall
  deriving DecidableEq, Repr

/-- Go struct `tools.ConnectTools` with its pointer field. -/
structure Go.ConnectTools where
  client : Option Go.M2AClient

/-- Go struct `tools.LiveTools` with its pointer field. -/
structure Go.LiveTools where
  client : Option Go.M2AClient

/-- Go struct `tools.CaptureTools` with its pointer field. -/
structure Go.CaptureTools where
  client : Option Go.M2AClient

/-- Go struct `tools.VODTools` with its pointer field. -/
structure Go.VODTools where
  client : Option Go.M2AClient

/-- Function `tools.NewConnectTools(client)`. -/
def Go.NewConnectTools (client : Option Go.M2AClient) : Option Go.ConnectTools :=
  some { client := client }

/-- Function `tools.NewLiveTools(client)`. -/
def Go.NewLiveTools (client : Option Go.M2AClient) : Option Go.LiveTools :=
  some { client := client }

/-- Function `tools.NewCaptureTools(client)`. -/
def Go.NewCaptureTools (client : Option Go.M2AClient) : Option Go.CaptureTools :=
  some { client := client }

/-- Function `tools.NewVODTools(client)`. -/
def Go.NewVODTools (client : Option Go.M2AClient) : Option Go.VODTools :=
  some { client := client }

/-! ### connect.go, receivers and arguments that may be nil -/

/-- Handler `ConnectTools.ListSources`, nil left possible: the call
`t.client.Get` panics when `t` is nil, and inside the method when the client is nil. -/
def Go.ConnectTools.ListSources (net : Http) (t : Option Go.ConnectTools)
    (arguments : Option Arguments) : Run Go.HandlerReturn :=
  let status := (assertString (Go.index arguments "status")).1
  let endpoint := "/api/v2/connect/sources"
  let endpoint := if status != "" && status != "all" then endpoint ++ ("?status=" ++ status)
    else endpoint
  match t with
  | none => Run.panic
  | some tools =>
    match Go.M2AClient.Get net tools.client endpoint with
    | Run.panic => Run.panic
    | Run.ret r =>
      match r.1 with
      | Except.error err =>
        Run.ret { result := Go.NewToolResultError ("failed to list sources: " ++ err), err := none, calls := r.2 }
      | Except.ok data => Run.ret { result := Go.NewToolResultText data, err := none, calls := r.2 }

/-- Handler `ConnectTools.GetSource`, nil left possible: the call
`t.client.Get` panics when `t` is nil, and inside the method when the client is nil. -/
def Go.ConnectTools.GetSource (net : Http) (t : Option Go.ConnectTools)
    (arguments : Option Arguments) : Run Go.HandlerReturn :=
  let sourceIDok := assertString (Go.index arguments "source_id")
  let sourceID := sourceIDok.1
  let ok := sourceIDok.2
  if !ok || sourceID == "" then
    Run.ret { result := Go.NewToolResultError "source_id is required", err := none, calls := [] }
  else
    let endpoint := "/api/v2/connect/sources/" ++ sourceID
    match t with
    | none => Run.panic
    | some tools =>
      match Go.M2AClient.Get net tools.client endpoint with
      | Run.panic => Run.panic
      | Run.ret r =>
        match r.1 with
        | Except.error err =>
          Run.ret { result := Go.NewToolResultError ("failed to get source: " ++ err), err := none, calls := r.2 }
        | Except.ok data => Run.ret { result := Go.NewToolResultText data, err := none, calls := r.2 }

/-- Handler `ConnectTools.CreateSource`, nil left possible: the call
`t.client.Post` panics when `t` is nil, and inside the method when the client is nil. -/
def Go.ConnectTools.CreateSource (net : Http) (t : Option Go.ConnectTools)
    (arguments : Option Arguments) : Run Go.HandlerReturn :=
  let nameok := assertString (Go.index arguments "name")
  let name := nameok.1
  let ok := nameok.2
  if !ok || name == "" then
    Run.ret { result := Go.NewToolResultError "name is required", err := none, calls := [] }
  else
    let sourceTypeok := assertString (Go.index arguments "type")
    let sourceType := sourceTypeok.1
    let ok := sourceTypeok.2
    if !ok || sourceType == "" then
      Run.ret { result := Go.NewToolResultError "type is required", err := none, calls := [] }
    else
      let urlok := assertString (Go.index arguments "url")
      let url := urlok.1
      let ok := urlok.2
      if !ok || url == "" then
        Run.ret { result := Go.NewToolResultError "url is required", err := none, calls := [] }
      else
        let body : GoMap := [("name", Field.str name), ("type", Field.str sourceType), ("url", Field.str url)]
        let desc := (assertString (Go.index arguments "description")).1
        let body := if desc != "" then GoMap.set body "description" (Field.str desc) else body
        let endpoint := "/api/v2/connect/sources"
        match t with
        | none => Run.panic
        | some tools =>
          match Go.M2AClient.Post net tools.client endpoint (some body) with
          | Run.panic => Run.panic
          | Run.ret r =>
            match r.1 with
            | Except.error err =>
              Run.ret { result := Go.NewToolResultError ("failed to create source: " ++ err), err := none, calls := r.2 }
            | Except.ok data => Run.ret { result := Go.NewToolResultText data, err := none, calls := r.2 }

/-- Handler `ConnectTools.UpdateSource`, nil left possible: the call
`t.client.Put` panics when `t` is nil, and inside the method when the client is nil. -/
def Go.ConnectTools.UpdateSource (net : Http) (t : Option Go.ConnectTools)
    (arguments : Option Arguments) : Run Go.HandlerReturn :=
  let sourceIDok := assertString (Go.index arguments "source_id")
  let sourceID := sourceIDok.1
  let ok := sourceIDok.2
  if !ok || sourceID == "" then
    Run.ret { result := Go.NewToolResultError "source_id is required", err := none, calls := [] }
  else
    let body : GoMap := []
    let name := (assertString (Go.index arguments "name")).1
    let body := if name != "" then GoMap.set body "name" (Field.str name) else body
    let url := (assertString (Go.index arguments "url")).1
    let body := if url != "" then GoMap.set body "url" (Field.str url) else body
    let desc := (assertString (Go.index arguments "description")).1
    let body := if desc != "" then GoMap.set body "description" (Field.str desc) else body
    if body.length == 0 then
      Run.ret { result := Go.NewToolResultError "at least one field to update is required", err := none, calls := [] }
    else
      let endpoint := "/api/v2/connect/sources/" ++ sourceID
      match t with
      | none => Run.panic
      | some tools =>
        match Go.M2AClient.Put net tools.client endpoint (some body) with
        | Run.panic => Run.panic
        | Run.ret r =>
          match r.1 with
          | Except.error err =>
            Run.ret { result := Go.NewToolResultError ("failed to update source: " ++ err), err := none, calls := r.2 }
          | Except.ok data => Run.ret { result := Go.NewToolResultText data, err := none, calls := r.2 }

/-- Handler `ConnectTools.DeleteSource`, nil left possible: the call
`t.client.Delete` panics when `t` is nil, and inside the method when the client is nil. -/
def Go.ConnectTools.DeleteSource (net : Http) (t : Option Go.ConnectTools)
    (arguments : Option Arguments) : Run Go.HandlerReturn :=
  let sourceIDok := assertString (Go.index arguments "source_id")
  let sourceID := sourceIDok.1
  let ok := sourceIDok.2
  if !ok || sourceID == "" then
    Run.ret { result := Go.NewToolResultError "source_id is required", err := none, calls := [] }
  else
    let endpoint := "/api/v2/connect/sources/" ++ sourceID
    match t with
    | none => Run.panic
    | some tools =>
      match Go.M2AClient.Delete net tools.client endpoint with
      | Run.panic => Run.panic
      | Run.ret r =>
        match r.1 with
        | Except.error err =>
          Run.ret { result := Go.NewToolResultError ("failed to delete source: " ++ err), err := none, calls := r.2 }
        | Except.ok _ =>
          let result : GoMap := [("success", Field.bool true),
            ("message", Field.str ("Source " ++ sourceID ++ " deleted successfully"))]
          let jsonData := jsonMarshalMap result
          Run.ret { result := Go.NewToolResultText jsonData, err := none, calls := r.2 }

/-- Handler `ConnectTools.ListSubscribers`, nil left possible: the call
`t.client.Get` panics when `t` is nil, and inside the method when the client is nil. -/
def Go.ConnectTools.ListSubscribers (net : Http) (t : Option Go.ConnectTools)
    (arguments : Option Arguments) : Run Go.HandlerReturn :=
  let endpoint := "/api/v2/connect/subscribers"
  let queryParams := ""
  let limit := (assertFloat64 (Go.index arguments "limit")).1
  let queryParams := if limit > 0 then queryParams ++ ("?limit=" ++ fmtD (goInt limit))
    else queryParams
  let offset := (assertFloat64 (Go.index arguments "offset")).1
  let queryParams := if offset > 0 then
      (if queryParams == "" then queryParams ++ "?" else queryParams ++ "&")
        ++ ("offset=" ++ fmtD (goInt offset))
    else queryParams
  let endpoint := endpoint ++ queryParams
  match t with
  | none => Run.panic
  | some tools =>
    match Go.M2AClient.Get net tools.client endpoint with
    | Run.panic => Run.panic
    | Run.ret r =>
      match r.1 with
      | Except.error err =>
        Run.ret { result := Go.NewToolResultError ("failed to list subscribers: " ++ err), err := none, calls := r.2 }
      | Except.ok data => Run.ret { result := Go.NewToolResultText data, err := none, calls := r.2 }

/-- Handler `ConnectTools.GetSubscriber`, nil left possible: the call
`t.client.Get` panics when `t` is nil, and inside the method when the client is nil. -/
def Go.ConnectTools.GetSubscriber (net : Http) (t : Option Go.ConnectTools)
    (arguments : Option Arguments) : Run Go.HandlerReturn :=
  let subscriberIDok := assertString (Go.index arguments "subscriber_id")
  let subscriberID := subscriberIDok.1
  let ok := subscriberIDok.2
  if !ok || subscriberID == "" then
    Run.ret { result := Go.NewToolResultError "subscriber_id is required", err := none, calls := [] }
  else
    let endpoint := "/api/v2/connect/subscribers/" ++ subscriberID
    match t with
    | none => Run.panic
    | some tools =>
      match Go.M2AClient.Get net tools.client endpoint with
      | Run.panic => Run.panic
      | Run.ret r =>
        match r.1 with
        | Except.error err =>
          Run.ret { result := Go.NewToolResultError ("failed to get subscriber: " ++ err), err := none, calls := r.2 }
        | Except.ok data => Run.ret { result := Go.NewToolResultText data, err := none, calls := r.2 }

/-- Handler `ConnectTools.CreateSubscriber`, nil left possible: the call
`t.client.Post` panics when `t` is nil, and inside the method when the client is nil. -/
def Go.ConnectTools.CreateSubscriber (net : Http) (t : Option Go.ConnectTools)
    (arguments : Option Arguments) : Run Go.HandlerReturn :=
  let nameok := assertString (Go.index arguments "name")
  let name := nameok.1
  let ok := nameok.2
  if !ok || name == "" then
    Run.ret { result := Go.NewToolResultError "name is required", err := none, calls := [] }
  else
    let emailok := assertString (Go.index arguments "email")
    let email := emailok.1
    let ok := emailok.2
    if !ok || email == "" then
      Run.ret { result := Go.NewToolResultError "email is required", err := none, calls := [] }
    else
      let body : GoMap := [("name", Field.str name), ("email", Field.str email)]
      let org := (assertString (Go.index arguments "organization")).1
      let body := if org != "" then GoMap.set body "organization" (Field.str org) else body
      let endpoint := "/api/v2/connect/subscribers"
      match t with
      | none => Run.panic
      | some tools =>
        match Go.M2AClient.Post net tools.client endpoint (some body) with
        | Run.panic => Run.panic
        | Run.ret r =>
          match r.1 with
          | Except.error err =>
            Run.ret { result := Go.NewToolResultError ("failed to create subscriber: " ++ err), err := none, calls := r.2 }
          | Except.ok data => Run.ret { result := Go.NewToolResultText data, err := none, calls := r.2 }

/-- Handler `ConnectTools.ListSubscriptions`, nil left possible: the call
`t.client.Get` panics when `t` is nil, and inside the method when the client is nil. -/
def Go.ConnectTools.ListSubscriptions (net : Http) (t : Option Go.ConnectTools)
    (_arguments : Option Arguments) : Run Go.HandlerReturn :=
  let endpoint := "/api/v2/connect/subscriptions"
  match t with
  | none => Run.panic
  | some tools =>
    match Go.M2AClient.Get net tools.client endpoint with
    | Run.panic => Run.panic
    | Run.ret r =>
      match r.1 with
      | Except.error err =>
        Run.ret { result := Go.NewToolResultError ("failed to list subscriptions: " ++ err), err := none, calls := r.2 }
      | Except.ok data => Run.ret { result := Go.NewToolResultText data, err := none, calls := r.2 }

/-- Handler `ConnectTools.GetSubscription`, nil left possible: the call
`t.client.Get` panics when `t` is nil, and inside the method when the client is nil. -/
def Go.ConnectTools.GetSubscription (net : Http) (t : Option Go.ConnectTools)
    (arguments : Option Arguments) : Run Go.HandlerReturn :=
  let subscriptionIDok := assertString (Go.index arguments "subscription_id")
  let subscriptionID := subscriptionIDok.1
  let ok := subscriptionIDok.2
  if !ok || subscriptionID == "" then
    Run.ret { result := Go.NewToolResultError "subscription_id is required", err := none, calls := [] }
  else
    let endpoint := "/api/v2/connect/subscriptions/" ++ subscriptionID
    match t with
    | none => Run.panic
    | some tools =>
      match Go.M2AClient.Get net tools.client endpoint with
      | Run.panic => Run.panic
      | Run.ret r =>
        match r.1 with
        | Except.error err =>
          Run.ret { result := Go.NewToolResultError ("failed to get subscription: " ++ err), err := none, calls := r.2 }
        | Except.ok data => Run.ret { result := Go.NewToolResultText data, err := none, calls := r.2 }

/-- Handler `ConnectTools.CreateSubscription`, nil left possible: the call
`t.client.Post` panics when `t` is nil, and inside the method when the client is nil. -/
def Go.ConnectTools.CreateSubscription (net : Http) (t : Option Go.ConnectTools)
    (arguments : Option Arguments) : Run Go.HandlerReturn :=
  let nameok := assertString (Go.index arguments "name")
  let name := nameok.1
  let ok := nameok.2
  if !ok || name == "" then
    Run.ret { result := Go.NewToolResultError "name is required", err := none, calls := [] }
  else
    let subscriberIDok := assertString (Go.index arguments "subscriber_id")
    let subscriberID := subscriberIDok.1
    let ok := subscriberIDok.2
    if !ok || subscriberID == "" then
      Run.ret { result := Go.NewToolResultError "subscriber_id is required", err := none, calls := [] }
    else
      let sourceIDsok := assertString (Go.index arguments "source_ids")
      let sourceIDs := sourceIDsok.1
      let ok := sourceIDsok.2
      if !ok || sourceIDs == "" then
        Run.ret { result := Go.NewToolResultError "source_ids is required", err := none, calls := [] }
      else
        let body : GoMap := [("name", Field.str name), ("subscriber_id", Field.str subscriberID), ("source_ids", Field.str sourceIDs)]
        let endpoint := "/api/v2/connect/subscriptions"
        match t with
        | none => Run.panic
        | some tools =>
          match Go.M2AClient.Post net tools.client endpoint (some body) with
          | Run.panic => Run.panic
          | Run.ret r =>
            match r.1 with
            | Except.error err =>
              Run.ret { result := Go.NewToolResultError ("failed to create subscription: " ++ err), err := none, calls := r.2 }
            | Except.ok data => Run.ret { result := Go.NewToolResultText data, err := none, calls := r.2 }

/-- Handler `ConnectTools.ListSchedules`, nil left possible: the call
`t.client.Get` panics when `t` is nil, and inside the method when the client is nil. -/
def Go.ConnectTools.ListSchedules (net : Http) (t : Option Go.ConnectTools)
    (arguments : Option Arguments) : Run Go.HandlerReturn :=
  let endpoint := "/api/v2/connect/schedules"
  let queryParams := ""
  let startDate := (assertString (Go.index arguments "start_date")).1
  let queryParams := if startDate != "" then queryParams ++ ("?start_date=" ++ startDate)
    else queryParams
  let endDate := (assertString (Go.index arguments "end_date")).1
  let queryParams := if endDate != "" then
      (if queryParams == "" then queryParams ++ "?" else queryParams ++ "&")
        ++ ("end_date=" ++ endDate)
    else queryParams
  let endpoint := endpoint ++ queryParams
  match t with
  | none => Run.panic
  | some tools =>
    match Go.M2AClient.Get net tools.client endpoint with
    | Run.panic => Run.panic
    | Run.ret r =>
      match r.1 with
      | Except.error err =>
        Run.ret { result := Go.NewToolResultError ("failed to list schedules: " ++ err), err := none, calls := r.2 }
      | Except.ok data => Run.ret { result := Go.NewToolResultText data, err := none, calls := r.2 }

/-- Handler `ConnectTools.GetSchedule`, nil left possible: the call
`t.client.Get` panics when `t` is nil, and inside the method when the client is nil. -/
def Go.ConnectTools.GetSchedule (net : Http) (t : Option Go.ConnectTools)
    (arguments : Option Arguments) : Run Go.HandlerReturn :=
  let scheduleIDok := assertString (Go.index arguments "schedule_id")
  let scheduleID := scheduleIDok.1
  let ok := scheduleIDok.2
  if !ok || scheduleID == "" then
    Run.ret { result := Go.NewToolResultError "schedule_id is required", err := none, calls := [] }
  else
    let endpoint := "/api/v2/connect/schedules/" ++ scheduleID
    match t with
    | none => Run.panic
    | some tools =>
      match Go.M2AClient.Get net tools.client endpoint with
      | Run.panic => Run.panic
      | Run.ret r =>
        match r.1 with
        | Except.error err =>
          Run.ret { result := Go.NewToolResultError ("failed to get schedule: " ++ err), err := none, calls := r.2 }
        | Except.ok data => Run.ret { result := Go.NewToolResultText data, err := none, calls := r.2 }

/-- Handler `ConnectTools.CreateSchedule`, nil left possible: the call
`t.client.Post` panics when `t` is nil, and inside the method when the client is nil. -/
def Go.ConnectTools.CreateSchedule (net : Http) (t : Option Go.ConnectTools)
    (arguments : Option Arguments) : Run Go.HandlerReturn :=
  let nameok := assertString (Go.index arguments "name")
  let name := nameok.1
  let ok := nameok.2
  if !ok || name == "" then
    Run.ret { result := Go.NewToolResultError "name is required", err := none, calls := [] }
  else
    let sourceIDok := assertString (Go.index arguments "source_id")
    let sourceID := sourceIDok.1
    let ok := sourceIDok.2
    if !ok || sourceID == "" then
      Run.ret { result := Go.NewToolResultError "source_id is required", err := none, calls := [] }
    else
      let startTimeok := assertString (Go.index arguments "start_time")
      let startTime := startTimeok.1
      let ok := startTimeok.2
      if !ok || startTime == "" then
        Run.ret { result := Go.NewToolResultError "start_time is required", err := none, calls := [] }
      else
        let endTimeok := assertString (Go.index arguments "end_time")
        let endTime := endTimeok.1
        let ok := endTimeok.2
        if !ok || endTime == "" then
          Run.ret { result := Go.NewToolResultError "end_time is required", err := none, calls := [] }
        else
          let body : GoMap := [("name", Field.str name), ("source_id", Field.str sourceID), ("start_time", Field.str startTime), ("end_time", Field.str endTime)]
          let endpoint := "/api/v2/connect/schedules"
          match t with
          | none => Run.panic
          | some tools =>
            match Go.M2AClient.Post net tools.client endpoint (some body) with
            | Run.panic => Run.panic
            | Run.ret r =>
              match r.1 with
              | Except.error err =>
                Run.ret { result := Go.NewToolResultError ("failed to create schedule: " ++ err), err := none, calls := r.2 }
              | Except.ok data => Run.ret { result := Go.NewToolResultText data, err := none, calls := r.2 }

/-! ### live.go, receivers and arguments that may be nil -/

/-- Handler `LiveTools.ListChannels`, nil left possible: the call
`t.client.Get` panics when `t` is nil, and inside the method when the client is nil. -/
def Go.LiveTools.ListChannels (net : Http) (t : Option Go.LiveTools)
    (arguments : Option Arguments) : Run Go.HandlerReturn :=
  let endpoint := "/api/v3/live/channels"
  let state := (assertString (Go.index arguments "state")).1
  let endpoint := if state != "" then endpoint ++ ("?state=" ++ state) else endpoint
  match t with
  | none => Run.panic
  | some tools =>
    match Go.M2AClient.Get net tools.client endpoint with
    | Run.panic => Run.panic
    | Run.ret r =>
      match r.1 with
      | Except.error err =>
        Run.ret { result := Go.NewToolResultError ("failed to list channels: " ++ err), err := none, calls := r.2 }
      | Except.ok data => Run.ret { result := Go.NewToolResultText data, err := none, calls := r.2 }

/-- Handler `LiveTools.GetChannel`, nil left possible: the call
`t.client.Get` panics when `t` is nil, and inside the method when the client is nil. -/
def Go.LiveTools.GetChannel (net : Http) (t : Option Go.LiveTools)
    (arguments : Option Arguments) : Run Go.HandlerReturn :=
  let channelIDok := assertString (Go.index arguments "channel_id")
  let channelID := channelIDok.1
  let ok := channelIDok.2
  if !ok || channelID == "" then
    Run.ret { result := Go.NewToolResultError "channel_id is required", err := none, calls := [] }
  else
    let endpoint := "/api/v3/live/channels/" ++ channelID
    match t with
    | none => Run.panic
    | some tools =>
      match Go.M2AClient.Get net tools.client endpoint with
      | Run.panic => Run.panic
      | Run.ret r =>
        match r.1 with
        | Except.error err =>
          Run.ret { result := Go.NewToolResultError ("failed to get channel: " ++ err), err := none, calls := r.2 }
        | Except.ok data => Run.ret { result := Go.NewToolResultText data, err := none, calls := r.2 }

/-- Handler `LiveTools.CreateChannel`, nil left possible: the call
`t.client.Post` panics when `t` is nil, and inside the method when the client is nil. -/
def Go.LiveTools.CreateChannel (net : Http) (t : Option Go.LiveTools)
    (arguments : Option Arguments) : Run Go.HandlerReturn :=
  let nameok := assertString (Go.index arguments "name")
  let name := nameok.1
  let ok := nameok.2
  if !ok || name == "" then
    Run.ret { result := Go.NewToolResultError "name is required", err := none, calls := [] }
  else
    let inputTypeok := assertString (Go.index arguments "input_type")
    let inputType := inputTypeok.1
    let ok := inputTypeok.2
    if !ok || inputType == "" then
      Run.ret { result := Go.NewToolResultError "input_type is required", err := none, calls := [] }
    else
      let body : GoMap := [("name", Field.str name), ("input_type", Field.str inputType)]
      let encoderConfigID := (assertString (Go.index arguments "encoder_config_id")).1
      let body := if encoderConfigID != "" then GoMap.set body "encoder_config_id" (Field.str encoderConfigID) else body
      let endpoint := "/api/v3/live/channels"
      match t with
      | none => Run.panic
      | some tools =>
        match Go.M2AClient.Post net tools.client endpoint (some body) with
        | Run.panic => Run.panic
        | Run.ret r =>
          match r.1 with
          | Except.error err =>
            Run.ret { result := Go.NewToolResultError ("failed to create channel: " ++ err), err := none, calls := r.2 }
          | Except.ok data => Run.ret { result := Go.NewToolResultText data, err := none, calls := r.2 }

/-- Handler `LiveTools.StartChannel`, nil left possible: the call
`t.client.Post` panics when `t` is nil, and inside the method when the client is nil. -/
def Go.LiveTools.StartChannel (net : Http) (t : Option Go.LiveTools)
    (arguments : Option Arguments) : Run Go.HandlerReturn :=
  let channelIDok := assertString (Go.index arguments "channel_id")
  let channelID := channelIDok.1
  let ok := channelIDok.2
  if !ok || channelID == "" then
    Run.ret { result := Go.NewToolResultError "channel_id is required", err := none, calls := [] }
  else
    let endpoint := "/api/v3/live/channels/" ++ channelID ++ "/start"
    match t with
    | none => Run.panic
    | some tools =>
      match Go.M2AClient.Post net tools.client endpoint none with
      | Run.panic => Run.panic
      | Run.ret r =>
        match r.1 with
        | Except.error err =>
          Run.ret { result := Go.NewToolResultError ("failed to start channel: " ++ err), err := none, calls := r.2 }
        | Except.ok data => Run.ret { result := Go.NewToolResultText data, err := none, calls := r.2 }

/-- Handler `LiveTools.StopChannel`, nil left possible: the call
`t.client.Post` panics when `t` is nil, and inside the method when the client is nil. -/
def Go.LiveTools.StopChannel (net : Http) (t : Option Go.LiveTools)
    (arguments : Option Arguments) : Run Go.HandlerReturn :=
  let channelIDok := assertString (Go.index arguments "channel_id")
  let channelID := channelIDok.1
  let ok := channelIDok.2
  if !ok || channelID == "" then
    Run.ret { result := Go.NewToolResultError "channel_id is required", err := none, calls := [] }
  else
    let endpoint := "/api/v3/live/channels/" ++ channelID ++ "/stop"
    match t with
    | none => Run.panic
    | some tools =>
      match Go.M2AClient.Post net tools.client endpoint none with
      | Run.panic => Run.panic
      | Run.ret r =>
        match r.1 with
        | Except.error err =>
          Run.ret { result := Go.NewToolResultError ("failed to stop channel: " ++ err), err := none, calls := r.2 }
        | Except.ok data => Run.ret { result := Go.NewToolResultText data, err := none, calls := r.2 }

/-- Handler `LiveTools.DeleteChannel`, nil left possible: the call
`t.client.Delete` panics when `t` is nil, and inside the method when the client is nil. -/
def Go.LiveTools.DeleteChannel (net : Http) (t : Option Go.LiveTools)
    (arguments : Option Arguments) : Run Go.HandlerReturn :=
  let channelIDok := assertString (Go.index arguments "channel_id")
  let channelID := channelIDok.1
  let ok := channelIDok.2
  if !ok || channelID == "" then
    Run.ret { result := Go.NewToolResultError "channel_id is required", err := none, calls := [] }
  else
    let endpoint := "/api/v3/live/channels/" ++ channelID
    match t with
    | none => Run.panic
    | some tools =>
      match Go.M2AClient.Delete net tools.client endpoint with
      | Run.panic => Run.panic
      | Run.ret r =>
        match r.1 with
        | Except.error err =>
          Run.ret { result := Go.NewToolResultError ("failed to delete channel: " ++ err), err := none, calls := r.2 }
        | Except.ok _ =>
          let result : GoMap := [("success", Field.bool true),
            ("message", Field.str ("Channel " ++ channelID ++ " deleted successfully"))]
          let jsonData := jsonMarshalMap result
          Run.ret { result := Go.NewToolResultText jsonData, err := none, calls := r.2 }

/-- Handler `LiveTools.ListEncoderConfigs`, nil left possible: the call
`t.client.Get` panics when `t` is nil, and inside the method when the client is nil. -/
def Go.LiveTools.ListEncoderConfigs (net : Http) (t : Option Go.LiveTools)
    (_arguments : Option Arguments) : Run Go.HandlerReturn :=
  let endpoint := "/api/v1/live/encoder-configs"
  match t with
  | none => Run.panic
  | some tools =>
    match Go.M2AClient.Get net tools.client endpoint with
    | Run.panic => Run.panic
    | Run.ret r =>
      match r.1 with
      | Except.error err =>
        Run.ret { result := Go.NewToolResultError ("failed to list encoder configs: " ++ err), err := none, calls := r.2 }
      | Except.ok data => Run.ret { result := Go.NewToolResultText data, err := none, calls := r.2 }

/-- Handler `LiveTools.GetEncoderConfig`, nil left possible: the call
`t.client.Get` panics when `t` is nil, and inside the method when the client is nil. -/
def Go.LiveTools.GetEncoderConfig (net : Http) (t : Option Go.LiveTools)
    (arguments : Option Arguments) : Run Go.HandlerReturn :=
  let configIDok := assertString (Go.index arguments "config_id")
  let configID := configIDok.1
  let ok := configIDok.2
  if !ok || configID == "" then
    Run.ret { result := Go.NewToolResultError "config_id is required", err := none, calls := [] }
  else
    let endpoint := "/api/v1/live/encoder-configs/" ++ configID
    match t with
    | none => Run.panic
    | some tools =>
      match Go.M2AClient.Get net tools.client endpoint with
      | Run.panic => Run.panic
      | Run.ret r =>
        match r.1 with
        | Except.error err =>
          Run.ret { result := Go.NewToolResultError ("failed to get encoder config: " ++ err), err := none, calls := r.2 }
        | Except.ok data => Run.ret { result := Go.NewToolResultText data, err := none, calls := r.2 }

/-- Handler `LiveTools.ListWorkflows`, nil left possible: the call
`t.client.Get` panics when `t` is nil, and inside the method when the client is nil. -/
def Go.LiveTools.ListWorkflows (net : Http) (t : Option Go.LiveTools)
    (_arguments : Option Arguments) : Run Go.HandlerReturn :=
  let endpoint := "/api/v1/live/workflows"
  match t with
  | none => Run.panic
  | some tools =>
    match Go.M2AClient.Get net tools.client endpoint with
    | Run.panic => Run.panic
    | Run.ret r =>
      match r.1 with
      | Except.error err =>
        Run.ret { result := Go.NewToolResultError ("failed to list workflows: " ++ err), err := none, calls := r.2 }
      | Except.ok data => Run.ret { result := Go.NewToolResultText data, err := none, calls := r.2 }

/-- Handler `LiveTools.GetWorkflow`, nil left possible: the call
`t.client.Get` panics when `t` is nil, and inside the method when the client is nil. -/
def Go.LiveTools.GetWorkflow (net : Http) (t : Option Go.LiveTools)
    (arguments : Option Arguments) : Run Go.HandlerReturn :=
  let workflowIDok := assertString (Go.index arguments "workflow_id")
  let workflowID := workflowIDok.1
  let ok := workflowIDok.2
  if !ok || workflowID == "" then
    Run.ret { result := Go.NewToolResultError "workflow_id is required", err := none, calls := [] }
  else
    let endpoint := "/api/v1/live/workflows/" ++ workflowID
    match t with
    | none => Run.panic
    | some tools =>
      match Go.M2AClient.Get net tools.client endpoint with
      | Run.panic => Run.panic
      | Run.ret r =>
        match r.1 with
        | Except.error err =>
          Run.ret { result := Go.NewToolResultError ("failed to get workflow: " ++ err), err := none, calls := r.2 }
        | Except.ok data => Run.ret { result := Go.NewToolResultText data, err := none, calls := r.2 }

/-- Handler `LiveTools.CreateWorkflow`, nil left possible: the call
`t.client.Post` panics when `t` is nil, and inside the method when the client is nil. -/
def Go.LiveTools.CreateWorkflow (net : Http) (t : Option Go.LiveTools)
    (arguments : Option Arguments) : Run Go.HandlerReturn :=
  let nameok := assertString (Go.index arguments "name")
  let name := nameok.1
  let ok := nameok.2
  if !ok || name == "" then
    Run.ret { result := Go.NewToolResultError "name is required", err := none, calls := [] }
  else
    let body : GoMap := [("name", Field.str name)]
    let desc := (assertString (Go.index arguments "description")).1
    let body := if desc != "" then GoMap.set body "description" (Field.str desc) else body
    let endpoint := "/api/v1/live/workflows"
    match t with
    | none => Run.panic
    | some tools =>
      match Go.M2AClient.Post net tools.client endpoint (some body) with
      | Run.panic => Run.panic
      | Run.ret r =>
        match r.1 with
        | Except.error err =>
          Run.ret { result := Go.NewToolResultError ("failed to create workflow: " ++ err), err := none, calls := r.2 }
        | Except.ok data => Run.ret { result := Go.NewToolResultText data, err := none, calls := r.2 }

/-! ### capture.go, receivers and arguments that may be nil -/

/-- Handler `CaptureTools.ListCaptures`, nil left possible: the call
`t.client.Get` panics when `t` is nil, and inside the method when the client is nil. -/
def Go.CaptureTools.ListCaptures (net : Http) (t : Option Go.CaptureTools)
    (arguments : Option Arguments) : Run Go.HandlerReturn :=
  let endpoint := "/api/v1/connect/capture"
  let status := (assertString (Go.index arguments "status")).1
  let endpoint := if status != "" then endpoint ++ ("?status=" ++ status) else endpoint
  match t with
  | none => Run.panic
  | some tools =>
    match Go.M2AClient.Get net tools.client endpoint with
    | Run.panic => Run.panic
    | Run.ret r =>
      match r.1 with
      | Except.error err =>
        Run.ret { result := Go.NewToolResultError ("failed to list captures: " ++ err), err := none, calls := r.2 }
      | Except.ok data => Run.ret { result := Go.NewToolResultText data, err := none, calls := r.2 }

/-- Handler `CaptureTools.GetCapture`, nil left possible: the call
`t.client.Get` panics when `t` is nil, and inside the method when the client is nil. -/
def Go.CaptureTools.GetCapture (net : Http) (t : Option Go.CaptureTools)
    (arguments : Option Arguments) : Run Go.HandlerReturn :=
  let captureIDok := assertString (Go.index arguments "capture_id")
  let captureID := captureIDok.1
  let ok := captureIDok.2
  if !ok || captureID == "" then
    Run.ret { result := Go.NewToolResultError "capture_id is required", err := none, calls := [] }
  else
    let endpoint := "/api/v1/connect/capture/" ++ captureID
    match t with
    | none => Run.panic
    | some tools =>
      match Go.M2AClient.Get net tools.client endpoint with
      | Run.panic => Run.panic
      | Run.ret r =>
        match r.1 with
        | Except.error err =>
          Run.ret { result := Go.NewToolResultError ("failed to get capture: " ++ err), err := none, calls := r.2 }
        | Except.ok data => Run.ret { result := Go.NewToolResultText data, err := none, calls := r.2 }

/-- Handler `CaptureTools.CreateCapture`, nil left possible: the call
`t.client.Post` panics when `t` is nil, and inside the method when the client is nil. -/
def Go.CaptureTools.CreateCapture (net : Http) (t : Option Go.CaptureTools)
    (arguments : Option Arguments) : Run Go.HandlerReturn :=
  let nameok := assertString (Go.index arguments "name")
  let name := nameok.1
  let ok := nameok.2
  if !ok || name == "" then
    Run.ret { result := Go.NewToolResultError "name is required", err := none, calls := [] }
  else
    let channelIDok := assertString (Go.index arguments "channel_id")
    let channelID := channelIDok.1
    let ok := channelIDok.2
    if !ok || channelID == "" then
      Run.ret { result := Go.NewToolResultError "channel_id is required", err := none, calls := [] }
    else
      let startTimeok := assertString (Go.index arguments "start_time")
      let startTime := startTimeok.1
      let ok := startTimeok.2
      if !ok || startTime == "" then
        Run.ret { result := Go.NewToolResultError "start_time is required", err := none, calls := [] }
      else
        let endTimeok := assertString (Go.index arguments "end_time")
        let endTime := endTimeok.1
        let ok := endTimeok.2
        if !ok || endTime == "" then
          Run.ret { result := Go.NewToolResultError "end_time is required", err := none, calls := [] }
        else
          let body : GoMap := [("name", Field.str name), ("channel_id", Field.str channelID), ("start_time", Field.str startTime), ("end_time", Field.str endTime)]
          let endpoint := "/api/v1/connect/capture"
          match t with
          | none => Run.panic
          | some tools =>
            match Go.M2AClient.Post net tools.client endpoint (some body) with
            | Run.panic => Run.panic
            | Run.ret r =>
              match r.1 with
              | Except.error err =>
                Run.ret { result := Go.NewToolResultError ("failed to create capture: " ++ err), err := none, calls := r.2 }
              | Except.ok data => Run.ret { result := Go.NewToolResultText data, err := none, calls := r.2 }

/-- Handler `CaptureTools.CancelCapture`, nil left possible: the call
`t.client.Post` panics when `t` is nil, and inside the method when the client is nil. -/
def Go.CaptureTools.CancelCapture (net : Http) (t : Option Go.CaptureTools)
    (arguments : Option Arguments) : Run Go.HandlerReturn :=
  let captureIDok := assertString (Go.index arguments "capture_id")
  let captureID := captureIDok.1
  let ok := captureIDok.2
  if !ok || captureID == "" then
    Run.ret { result := Go.NewToolResultError "capture_id is required", err := none, calls := [] }
  else
    let endpoint := "/api/v1/connect/capture/" ++ captureID ++ "/cancel"
    match t with
    | none => Run.panic
    | some tools =>
      match Go.M2AClient.Post net tools.client endpoint none with
      | Run.panic => Run.panic
      | Run.ret r =>
        match r.1 with
        | Except.error err =>
          Run.ret { result := Go.NewToolResultError ("failed to cancel capture: " ++ err), err := none, calls := r.2 }
        | Except.ok data => Run.ret { result := Go.NewToolResultText data, err := none, calls := r.2 }

/-- Handler `CaptureTools.ListCaptureExports`, nil left possible: the call
`t.client.Get` panics when `t` is nil, and inside the method when the client is nil. -/
def Go.CaptureTools.ListCaptureExports (net : Http) (t : Option Go.CaptureTools)
    (_arguments : Option Arguments) : Run Go.HandlerReturn :=
  let endpoint := "/api/v1/connect/capture/exports"
  match t with
  | none => Run.panic
  | some tools =>
    match Go.M2AClient.Get net tools.client endpoint with
    | Run.panic => Run.panic
    | Run.ret r =>
      match r.1 with
      | Except.error err =>
        Run.ret { result := Go.NewToolResultError ("failed to list capture exports: " ++ err), err := none, calls := r.2 }
      | Except.ok data => Run.ret { result := Go.NewToolResultText data, err := none, calls := r.2 }

/-- Handler `CaptureTools.GetCaptureExport`, nil left possible: the call
`t.client.Get` panics when `t` is nil, and inside the method when the client is nil. -/
def Go.CaptureTools.GetCaptureExport (net : Http) (t : Option Go.CaptureTools)
    (arguments : Option Arguments) : Run Go.HandlerReturn :=
  let exportIDok := assertString (Go.index arguments "export_id")
  let exportID := exportIDok.1
  let ok := exportIDok.2
  if !ok || exportID == "" then
    Run.ret { result := Go.NewToolResultError "export_id is required", err := none, calls := [] }
  else
    let endpoint := "/api/v1/connect/capture/exports/" ++ exportID
    match t with
    | none => Run.panic
    | some tools =>
      match Go.M2AClient.Get net tools.client endpoint with
      | Run.panic => Run.panic
      | Run.ret r =>
        match r.1 with
        | Except.error err =>
          Run.ret { result := Go.NewToolResultError ("failed to get capture export: " ++ err), err := none, calls := r.2 }
        | Except.ok data => Run.ret { result := Go.NewToolResultText data, err := none, calls := r.2 }

/-- Handler `CaptureTools.CreateClip`, nil left possible: the call
`t.client.Post` panics when `t` is nil, and inside the method when the client is nil. -/
def Go.CaptureTools.CreateClip (net : Http) (t : Option Go.CaptureTools)
    (arguments : Option Arguments) : Run Go.HandlerReturn :=
  let captureIDok := assertString (Go.index arguments "capture_id")
  let captureID := captureIDok.1
  let ok := captureIDok.2
  if !ok || captureID == "" then
    Run.ret { result := Go.NewToolResultError "capture_id is required", err := none, calls := [] }
  else
    let startTimecodeok := assertString (Go.index arguments "start_timecode")
    let startTimecode := startTimecodeok.1
    let ok := startTimecodeok.2
    if !ok || startTimecode == "" then
      Run.ret { result := Go.NewToolResultError "start_timecode is required", err := none, calls := [] }
    else
      let endTimecodeok := assertString (Go.index arguments "end_timecode")
      let endTimecode := endTimecodeok.1
      let ok := endTimecodeok.2
      if !ok || endTimecode == "" then
        Run.ret { result := Go.NewToolResultError "end_timecode is required", err := none, calls := [] }
      else
        let nameok := assertString (Go.index arguments "name")
        let name := nameok.1
        let ok := nameok.2
        if !ok || name == "" then
          Run.ret { result := Go.NewToolResultError "name is required", err := none, calls := [] }
        else
          let body : GoMap := [("capture_id", Field.str captureID), ("start_timecode", Field.str startTimecode), ("end_timecode", Field.str endTimecode), ("name", Field.str name)]
          let endpoint := "/api/v1/connect/capture/clips"
          match t with
          | none => Run.panic
          | some tools =>
            match Go.M2AClient.Post net tools.client endpoint (some body) with
            | Run.panic => Run.panic
            | Run.ret r =>
              match r.1 with
              | Except.error err =>
                Run.ret { result := Go.NewToolResultError ("failed to create clip: " ++ err), err := none, calls := r.2 }
              | Except.ok data => Run.ret { result := Go.NewToolResultText data, err := none, calls := r.2 }

/-! ### vod.go, receivers and arguments that may be nil -/

/-- Handler `VODTools.ListVODAssets`, nil left possible: the call
`t.client.Get` panics when `t` is nil, and inside the method when the client is nil. -/
def Go.VODTools.ListVODAssets (net : Http) (t : Option Go.VODTools)
    (arguments : Option Arguments) : Run Go.HandlerReturn :=
  let endpoint := "/api/v1/vod/assets"
  let queryParams := ""
  let limit := (assertFloat64 (Go.index arguments "limit")).1
  let queryParams := if limit > 0 then queryParams ++ ("?limit=" ++ fmtD (goInt limit))
    else queryParams
  let offset := (assertFloat64 (Go.index arguments "offset")).1
  let queryParams := if offset > 0 then
      (if queryParams == "" then queryParams ++ "?" else queryParams ++ "&")
        ++ ("offset=" ++ fmtD (goInt offset))
    else queryParams
  let endpoint := endpoint ++ queryParams
  match t with
  | none => Run.panic
  | some tools =>
    match Go.M2AClient.Get net tools.client endpoint with
    | Run.panic => Run.panic
    | Run.ret r =>
      match r.1 with
      | Except.error err =>
        Run.ret { result := Go.NewToolResultError ("failed to list VOD assets: " ++ err), err := none, calls := r.2 }
      | Except.ok data => Run.ret { result := Go.NewToolResultText data, err := none, calls := r.2 }

/-- Handler `VODTools.GetVODAsset`, nil left possible: the call
`t.client.Get` panics when `t` is nil, and inside the method when the client is nil. -/
def Go.VODTools.GetVODAsset (net : Http) (t : Option Go.VODTools)
    (arguments : Option Arguments) : Run Go.HandlerReturn :=
  let assetIDok := assertString (Go.index arguments "asset_id")
  let assetID := assetIDok.1
  let ok := assetIDok.2
  if !ok || assetID == "" then
    Run.ret { result := Go.NewToolResultError "asset_id is required", err := none, calls := [] }
  else
    let endpoint := "/api/v1/vod/assets/" ++ assetID
    match t with
    | none => Run.panic
    | some tools =>
      match Go.M2AClient.Get net tools.client endpoint with
      | Run.panic => Run.panic
      | Run.ret r =>
        match r.1 with
        | Except.error err =>
          Run.ret { result := Go.NewToolResultError ("failed to get VOD asset: " ++ err), err := none, calls := r.2 }
        | Except.ok data => Run.ret { result := Go.NewToolResultText data, err := none, calls := r.2 }

/-- Handler `VODTools.UpdateVODMetadata`, nil left possible: the call
`t.client.Put` panics when `t` is nil, and inside the method when the client is nil. -/
def Go.VODTools.UpdateVODMetadata (net : Http) (t : Option Go.VODTools)
    (arguments : Option Arguments) : Run Go.HandlerReturn :=
  let assetIDok := assertString (Go.index arguments "asset_id")
  let assetID := assetIDok.1
  let ok := assetIDok.2
  if !ok || assetID == "" then
    Run.ret { result := Go.NewToolResultError "asset_id is required", err := none, calls := [] }
  else
    let body : GoMap := []
    let title := (assertString (Go.index arguments "title")).1
    let body := if title != "" then GoMap.set body "title" (Field.str title) else body
    let desc := (assertString (Go.index arguments "description")).1
    let body := if desc != "" then GoMap.set body "description" (Field.str desc) else body
    let tags := (assertString (Go.index arguments "tags")).1
    let body := if tags != "" then GoMap.set body "tags" (Field.str tags) else body
    if body.length == 0 then
      Run.ret { result := Go.NewToolResultError "at least one metadata field is required", err := none, calls := [] }
    else
      let endpoint := "/api/v1/vod/assets/" ++ assetID
      match t with
      | none => Run.panic
      | some tools =>
        match Go.M2AClient.Put net tools.client endpoint (some body) with
        | Run.panic => Run.panic
        | Run.ret r =>
          match r.1 with
          | Except.error err =>
            Run.ret { result := Go.NewToolResultError ("failed to update VOD metadata: " ++ err), err := none, calls := r.2 }
          | Except.ok data => Run.ret { result := Go.NewToolResultText data, err := none, calls := r.2 }

/-- Handler `VODTools.DeleteVODAsset`, nil left possible: the call
`t.client.Delete` panics when `t` is nil, and inside the method when the client is nil. -/
def Go.VODTools.DeleteVODAsset (net : Http) (t : Option Go.VODTools)
    (arguments : Option Arguments) : Run Go.HandlerReturn :=
  let assetIDok := assertString (Go.index arguments "asset_id")
  let assetID := assetIDok.1
  let ok := assetIDok.2
  if !ok || assetID == "" then
    Run.ret { result := Go.NewToolResultError "asset_id is required", err := none, calls := [] }
  else
    let endpoint := "/api/v1/vod/assets/" ++ assetID
    match t with
    | none => Run.panic
    | some tools =>
      match Go.M2AClient.Delete net tools.client endpoint with
      | Run.panic => Run.panic
      | Run.ret r =>
        match r.1 with
        | Except.error err =>
          Run.ret { result := Go.NewToolResultError ("failed to delete VOD asset: " ++ err), err := none, calls := r.2 }
        | Except.ok _ =>
          let result : GoMap := [("success", Field.bool true),
            ("message", Field.str ("VOD asset " ++ assetID ++ " deleted successfully"))]
          let jsonData := jsonMarshalMap result
          Run.ret { result := Go.NewToolResultText jsonData, err := none, calls := r.2 }

/-- Handler `VODTools.GetPlaybackURL`, nil left possible: the call
`t.client.Get` panics when `t` is nil, and inside the method when the client is nil. -/
def Go.VODTools.GetPlaybackURL (net : Http) (t : Option Go.VODTools)
    (arguments : Option Arguments) : Run Go.HandlerReturn :=
  let assetIDok := assertString (Go.index arguments "asset_id")
  let assetID := assetIDok.1
  let ok := assetIDok.2
  if !ok || assetID == "" then
    Run.ret { result := Go.NewToolResultError "asset_id is required", err := none, calls := [] }
  else
    let format := (assertString (Go.index arguments "format")).1
    let format := if format == "" then "hls" else format
    let endpoint := "/api/v1/vod/assets/" ++ assetID ++ "/playback?format=" ++ format
    match t with
    | none => Run.panic
    | some tools =>
      match Go.M2AClient.Get net tools.client endpoint with
      | Run.panic => Run.panic
      | Run.ret r =>
        match r.1 with
        | Except.error err =>
          Run.ret { result := Go.NewToolResultError ("failed to get playback URL: " ++ err), err := none, calls := r.2 }
        | Except.ok data => Run.ret { result := Go.NewToolResultText data, err := none, calls := r.2 }

/-- Invocation of a handler as `registerTools` binds it: a method value of the tool struct
that `tools.NewConnectTools(client)`, or one of its three siblings, returns for the client
pointer handed to `registerTools`. -/
def Go.call (net : Http) (h : Handler) (client : Option Go.M2AClient)
    (arguments : Option Arguments) : Run Go.HandlerReturn :=
  match h with
  | Handler.ListSources => Go.ConnectTools.ListSources net (Go.NewConnectTools client) arguments
  | Handler.GetSource => Go.ConnectTools.GetSource net (Go.NewConnectTools client) arguments
  | Handler.CreateSource => Go.ConnectTools.CreateSource net (Go.NewConnectTools client) arguments
  | Handler.UpdateSource => Go.ConnectTools.UpdateSource net (Go.NewConnectTools client) arguments
  | Handler.DeleteSource => Go.ConnectTools.DeleteSource net (Go.NewConnectTools client) arguments
  | Handler.ListSubscribers => Go.ConnectTools.ListSubscribers net (Go.NewConnectTools client) arguments
  | Handler.GetSubscriber => Go.ConnectTools.GetSubscriber net (Go.NewConnectTools client) arguments
  | Handler.CreateSubscriber => Go.ConnectTools.CreateSubscriber net (Go.NewConnectTools client) arguments
  | Handler.ListSubscriptions => Go.ConnectTools.ListSubscriptions net (Go.NewConnectTools client) arguments
  | Handler.GetSubscription => Go.ConnectTools.GetSubscription net (Go.NewConnectTools client) arguments
  | Handler.CreateSubscription => Go.ConnectTools.CreateSubscription net (Go.NewConnectTools client) arguments
  | Handler.ListSchedules => Go.ConnectTools.ListSchedules net (Go.NewConnectTools client) arguments
  | Handler.GetSchedule => Go.ConnectTools.GetSchedule net (Go.NewConnectTools client) arguments
  | Handler.CreateSchedule => Go.ConnectTools.CreateSchedule net (Go.NewConnectTools client) arguments
  | Handler.ListChannels => Go.LiveTools.ListChannels net (Go.NewLiveTools client) arguments
  | Handler.GetChannel => Go.LiveTools.GetChannel net (Go.NewLiveTools client) arguments
  | Handler.CreateChannel => Go.LiveTools.CreateChannel net (Go.NewLiveTools client) arguments
  | Handler.StartChannel => Go.LiveTools.StartChannel net (Go.NewLiveTools client) arguments
  | Handler.StopChannel => Go.LiveTools.StopChannel net (Go.NewLiveTools client) arguments
  | Handler.DeleteChannel => Go.LiveTools.DeleteChannel net (Go.NewLiveTools client) arguments
  | Handler.ListEncoderConfigs => Go.LiveTools.ListEncoderConfigs net (Go.NewLiveTools client) arguments
  | Handler.GetEncoderConfig => Go.LiveTools.GetEncoderConfig net (Go.NewLiveTools client) arguments
  | Handler.ListWorkflows => Go.LiveTools.ListWorkflows net (Go.NewLiveTools client) arguments
  | Handler.GetWorkflow => Go.LiveTools.GetWorkflow net (Go.NewLiveTools client) arguments
  | Handler.CreateWorkflow => Go.LiveTools.CreateWorkflow net (Go.NewLiveTools client) arguments
  | Handler.ListCaptures => Go.CaptureTools.ListCaptures net (Go.NewCaptureTools client) arguments
  | Handler.GetCapture => Go.CaptureTools.GetCapture net (Go.NewCaptureTools client) arguments
  | Handler.CreateCapture => Go.CaptureTools.CreateCapture net (Go.NewCaptureTools client) arguments
  | Handler.CancelCapture => Go.CaptureTools.CancelCapture net (Go.NewCaptureTools client) arguments
  | Handler.ListCaptureExports => Go.CaptureTools.ListCaptureExports net (Go.NewCaptureTools client) arguments
  | Handler.GetCaptureExport => Go.CaptureTools.GetCaptureExport net (Go.NewCaptureTools client) arguments
  | Handler.CreateClip => Go.CaptureTools.CreateClip net (Go.NewCaptureTools client) arguments
  | Handler.ListVODAssets => Go.VODTools.ListVODAssets net (Go.NewVODTools client) arguments
  | Handler.GetVODAsset => Go.VODTools.GetVODAsset net (Go.NewVODTools client) arguments
  | Handler.UpdateVODMetadata => Go.VODTools.UpdateVODMetadata net (Go.NewVODTools client) arguments
  | Handler.DeleteVODAsset => Go.VODTools.DeleteVODAsset net (Go.NewVODTools client) arguments
  | Handler.GetPlaybackURL => Go.VODTools.GetPlaybackURL net (Go.NewVODTools client) arguments

/-- The first embedding's return seen as the pair a handler returns in Go: the result behind
a pointer, holding the one text content. -/
def HandlerReturn.toGo (r : HandlerReturn) : Go.HandlerReturn :=
  { result := some { content := [Go.Content.text r.result.text], isError := r.result.isError }
    err := r.err
    calls := r.calls }

/-- What a call on the client comes back with, told by its record: when no request was sent,
`http.NewRequest` rejected the method and URL string and the error is that of the request's
creation; when a request was sent, the result is the one `doRequest` makes of what came
back for that request. -/
def GatewayReturn (client : M2AClient) (ret : Except String String × List GatewayCall) : Prop :=
  ∃ g, ret.2 = [g] ∧
    ((g.sent = none ∧
        ∃ e, client.httpClient.newRequestError g.method (client.config.BaseURL ++ g.endpoint)
            = some e ∧
          ret.1 = Except.error ("failed to create request: " ++ e)) ∨
      (∃ req, g.sent = some req ∧
        ((∃ e, client.httpClient.roundTrip req = RoundTrip.doError e ∧
            ret.1 = Except.error ("request failed: " ++ e)) ∨
          (∃ s e, client.httpClient.roundTrip req = RoundTrip.readError s e ∧
            ret.1 = Except.error ("failed to read response: " ++ e)) ∨
          (∃ s b, client.httpClient.roundTrip req = RoundTrip.response s b ∧
            ret.1 = statusResult s b))))

/-! ## Basic facts about the embedding -/

theorem check_eq_not_populated (arguments : Arguments) (p : String) :
    (!(assertString (arguments.get p)).2 || (assertString (arguments.get p)).1 == "")
      = !populated arguments p := by
  unfold populated assertString
  cases h : arguments.get p with
  | none => simp
  | some v => cases v <;> simp [beq_eq_decide]

theorem optional_ne_eq_populated (arguments : Arguments) (p : String) :
    ((assertString (arguments.get p)).1 != "") = populated arguments p := by
  unfold populated assertString
  cases h : arguments.get p with
  | none => simp
  | some v => cases v <;> simp [bne, beq_eq_decide]

theorem stubClient_responds (status : Int) (body : String) :
    Responds (stubClient status body) status body :=
  ⟨fun _ _ => rfl, fun _ => rfl⟩

theorem doRequest_of_responds {client : M2AClient} {status : Int} {body : String}
    (hr : Responds client status body) (req : HttpRequest) :
    (client.doRequest req).1 = statusResult status body := by
  simp only [M2AClient.doRequest, hr.2, statusResult]
  split <;> rfl

theorem Get_of_responds {client : M2AClient} {status : Int} {body : String}
    (hr : Responds client status body) (endpoint : String) :
    (client.Get endpoint).1 = statusResult status body := by
  simp only [M2AClient.Get, Http.NewRequest, hr.1, doRequest_of_responds hr]

theorem Delete_of_responds {client : M2AClient} {status : Int} {body : String}
    (hr : Responds client status body) (endpoint : String) :
    (client.Delete endpoint).1 = statusResult status body := by
  simp only [M2AClient.Delete, Http.NewRequest, hr.1, doRequest_of_responds hr]

theorem Post_of_responds {client : M2AClient} {status : Int} {body : String}
    (hr : Responds client status body) (endpoint : String) (b : Option GoMap) :
    (client.Post endpoint b).1 = statusResult status body := by
  simp only [M2AClient.Post, Http.NewRequest, hr.1, doRequest_of_responds hr]

theorem Put_of_responds {client : M2AClient} {status : Int} {body : String}
    (hr : Responds client status body) (endpoint : String) (b : Option GoMap) :
    (client.Put endpoint b).1 = statusResult status body := by
  simp only [M2AClient.Put, Http.NewRequest, hr.1, doRequest_of_responds hr]

theorem Get_invocations (client : M2AClient) (endpoint : String) :
    (client.Get endpoint).2.map GatewayCall.invocation = [("GET", endpoint, none)] := by
  simp only [M2AClient.Get]
  cases client.httpClient.NewRequest "GET" (client.config.BaseURL ++ endpoint) none <;> rfl

theorem Delete_invocations (client : M2AClient) (endpoint : String) :
    (client.Delete endpoint).2.map GatewayCall.invocation = [("DELETE", endpoint, none)] := by
  simp only [M2AClient.Delete]
  cases client.httpClient.NewRequest "DELETE" (client.config.BaseURL ++ endpoint) none <;> rfl

theorem Post_invocations (client : M2AClient) (endpoint : String) (b : Option GoMap) :
    (client.Post endpoint b).2.map GatewayCall.invocation = [("POST", endpoint, b)] := by
  simp only [M2AClient.Post]
  cases client.httpClient.NewRequest "POST" (client.config.BaseURL ++ endpoint) (some (jsonMarshal b)) <;> rfl

theorem Put_invocations (client : M2AClient) (endpoint : String) (b : Option GoMap) :
    (client.Put endpoint b).2.map GatewayCall.invocation = [("PUT", endpoint, b)] := by
  simp only [M2AClient.Put]
  cases client.httpClient.NewRequest "PUT" (client.config.BaseURL ++ endpoint) (some (jsonMarshal b)) <;> rfl

theorem populated_of_get {arguments : Arguments} {p s : String}
    (h : arguments.get p = some (Value.str s)) : populated arguments p = decide (s ≠ "") := by
  simp only [populated, h]

theorem assertString_of_get {arguments : Arguments} {p s : String}
    (h : arguments.get p = some (Value.str s)) : (assertString (arguments.get p)).1 = s := by
  simp only [assertString, h]

theorem populated_eq_true_iff (arguments : Arguments) (p : String) :
    populated arguments p = true ↔ ∃ s, arguments.get p = some (Value.str s) ∧ s ≠ "" := by
  unfold populated
  cases h : arguments.get p with
  | none => simp
  | some v => cases v <;> simp

theorem populated_eq_false_iff (arguments : Arguments) (p : String) :
    populated arguments p = false ↔ ∀ s, arguments.get p = some (Value.str s) → s = "" := by
  rw [← Bool.not_eq_true, populated_eq_true_iff]
  constructor
  · intro h s hs
    by_contra hne
    exact h ⟨s, hs, hne⟩
  · rintro h ⟨s, hs, hne⟩
    exact hne (h s hs)

theorem populatedFields_keys (arguments : Arguments) (fields : List String) :
    GoMap.keys (populatedFields arguments fields) = fields.filter (populated arguments) := by
  simp [GoMap.keys, populatedFields, List.map_map, Function.comp_def]

theorem populatedFields_get (arguments : Arguments) (fields : List String) (k : String)
    (v : Field) :
    GoMap.get (populatedFields arguments fields) k = some v ↔
      k ∈ fields ∧ ∃ s, arguments.get k = some (Value.str s) ∧ s ≠ "" ∧ v = Field.str s := by
  induction fields with
  | nil => simp [populatedFields, GoMap.get]
  | cons f fs ih =>
    have hstep : GoMap.get (populatedFields arguments (f :: fs)) k
        = if populated arguments f = true ∧ f = k then
            some (Field.str (assertString (arguments.get f)).1)
          else GoMap.get (populatedFields arguments fs) k := by
      unfold populatedFields
      by_cases hp : populated arguments f = true
      · simp [List.filter_cons, hp, GoMap.get]
      · simp [List.filter_cons, hp]
    rw [hstep]
    by_cases hc : populated arguments f = true ∧ f = k
    · obtain ⟨hp, rfl⟩ := hc
      obtain ⟨s, hs, hne⟩ := (populated_eq_true_iff arguments f).1 hp
      simp only [hp, and_self, if_true, assertString_of_get hs, hs, List.mem_cons, true_or,
        true_and, Option.some.injEq, Value.str.injEq]
      constructor
      · intro h; exact ⟨s, rfl, hne, h.symm⟩
      · rintro ⟨s', rfl, -, rfl⟩; rfl
    · rw [if_neg hc, ih]
      constructor
      · rintro ⟨hm, h⟩; exact ⟨List.mem_cons_of_mem _ hm, h⟩
      · rintro ⟨hm, s, hs, hne, hv⟩
        refine ⟨?_, s, hs, hne, hv⟩
        rcases List.mem_cons.1 hm with rfl | hm
        · exact absurd ⟨(populated_eq_true_iff arguments k).2 ⟨s, hs, hne⟩, rfl⟩ hc
        · exact hm

theorem UpdateSource_invocations (client : M2AClient) (arguments : Arguments) (id : String)
    (hid : arguments.get "source_id" = some (Value.str id)) (hne : id ≠ "")
    (hf : populated arguments "name" = true ∨ populated arguments "url" = true ∨
        populated arguments "description" = true) :
      (Handler.UpdateSource.call client arguments).invocations
        = [("PUT", "/api/v2/connect/sources/" ++ id,
            some (populatedFields arguments ["name", "url", "description"]))] := by
  have h0 : populated arguments "source_id" = true := by
    rw [populated_of_get hid]; simpa using hne
  simp only [Handler.call, ConnectTools.UpdateSource, check_eq_not_populated,
    optional_ne_eq_populated, h0, HandlerReturn.invocations,
    Bool.not_true, Bool.false_eq_true, if_false]
  simp only [assertString_of_get hid]
  cases h1 : populated arguments "name" <;> cases h2 : populated arguments "url" <;>
    cases h3 : populated arguments "description" <;>
    simp only [h1, h2, h3, Bool.false_eq_true, if_false, if_true, GoMap.set, or_self,
      or_false, false_or, or_true, true_or] at hf ⊢
  all_goals
    simp only [populatedFields, List.filter_cons, h1, h2, h3, List.filter_nil, List.map_cons,
      List.map_nil, Bool.false_eq_true, if_false, if_true]
    rw [if_neg (by simp)]
    split <;> simp [Put_invocations]

theorem UpdateVODMetadata_invocations (client : M2AClient) (arguments : Arguments) (id : String)
    (hid : arguments.get "asset_id" = some (Value.str id)) (hne : id ≠ "")
    (hf : populated arguments "title" = true ∨ populated arguments "description" = true ∨
        populated arguments "tags" = true) :
      (Handler.UpdateVODMetadata.call client arguments).invocations
        = [("PUT", "/api/v1/vod/assets/" ++ id,
            some (populatedFields arguments ["title", "description", "tags"]))] := by
  have h0 : populated arguments "asset_id" = true := by
    rw [populated_of_get hid]; simpa using hne
  simp only [Handler.call, VODTools.UpdateVODMetadata, check_eq_not_populated,
    optional_ne_eq_populated, h0, HandlerReturn.invocations,
    Bool.not_true, Bool.false_eq_true, if_false]
  simp only [assertString_of_get hid]
  cases h1 : populated arguments "title" <;> cases h2 : populated arguments "description" <;>
    cases h3 : populated arguments "tags" <;>
    simp only [h1, h2, h3, Bool.false_eq_true, if_false, if_true, GoMap.set, or_self,
      or_false, false_or, or_true, true_or] at hf ⊢
  all_goals
    simp only [populatedFields, List.filter_cons, h1, h2, h3, List.filter_nil, List.map_cons,
      List.map_nil, Bool.false_eq_true, if_false, if_true]
    rw [if_neg (by simp)]
    split <;> simp [Put_invocations]

theorem goInt_intCast (X : Int) (h1 : minInt ≤ X) (h2 : X ≤ maxInt) :
    goInt (X : Rat) = X := by
  simp only [goInt, Rat.num_intCast, Rat.den_intCast, Int.Nat.cast_ofNat_Int, Int.tdiv_one, h1,
    h2, and_self, if_true]

theorem append_ne_empty_of_left (a b : String) (h : a ≠ "") : a ++ b ≠ "" := by
  intro hab
  apply h
  have hd := congrArg String.data hab
  rw [String.data_append] at hd
  exact String.ext (List.append_eq_nil.1 hd).1

theorem ListSubscribers_invocations (client : M2AClient) (arguments : Arguments) :
    (Handler.ListSubscribers.call client arguments).invocations
      = [("GET", "/api/v2/connect/subscribers" ++
          pageQuery (assertFloat64 (arguments.get "limit")).1
            (assertFloat64 (arguments.get "offset")).1, none)] := by
  simp only [Handler.call, ConnectTools.ListSubscribers, HandlerReturn.invocations, pageQuery]
  split <;> simp [Get_invocations]

theorem ListVODAssets_invocations (client : M2AClient) (arguments : Arguments) :
    (Handler.ListVODAssets.call client arguments).invocations
      = [("GET", "/api/v1/vod/assets" ++
          pageQuery (assertFloat64 (arguments.get "limit")).1
            (assertFloat64 (arguments.get "offset")).1, none)] := by
  simp only [Handler.call, VODTools.ListVODAssets, HandlerReturn.invocations, pageQuery]
  split <;> simp [Get_invocations]

theorem pageQuery_neither {limit offset : Rat} (hl : limit ≤ 0) (ho : offset ≤ 0) :
    pageQuery limit offset = "" := by
  simp [pageQuery, not_lt.2 hl, not_lt.2 ho]

theorem pageQuery_offset_only {limit offset : Rat} (hl : limit ≤ 0) (ho : 0 < offset) :
    pageQuery limit offset = "?offset=" ++ fmtD (goInt offset) := by
  simp only [pageQuery, gt_iff_lt, not_lt.2 hl, ho, if_false, if_true, beq_self_eq_true]
  apply String.ext
  simp [String.data_append]

theorem pageQuery_limit_only {limit offset : Rat} (hl : 0 < limit) (ho : offset ≤ 0) :
    pageQuery limit offset = "?limit=" ++ fmtD (goInt limit) := by
  simp [pageQuery, hl, not_lt.2 ho]

theorem pageQuery_both {limit offset : Rat} (hl : 0 < limit) (ho : 0 < offset) :
    pageQuery limit offset
      = "?limit=" ++ fmtD (goInt limit) ++ "&offset=" ++ fmtD (goInt offset) := by
  have hne : ("" ++ ("?limit=" ++ fmtD (goInt limit)) == "") = false := by
    rw [String.empty_append, beq_eq_false_iff_ne]
    exact append_ne_empty_of_left _ _ (by decide)
  simp only [pageQuery, gt_iff_lt, hl, ho, if_true, hne, Bool.false_eq_true, if_false]
  apply String.ext
  simp [String.data_append]

theorem assertFloat64_num (q : Rat) : (assertFloat64 (some (Value.num q))).1 = q := rfl

theorem assertFloat64_none : (assertFloat64 none).1 = 0 := rfl

theorem jsonEscapeChar_plain {c : Char} (h : jsonPlain c = true) :
    jsonEscapeChar c = String.mk [c] := by
  simp only [jsonPlain, Bool.and_eq_true, decide_eq_true_eq, bne_iff_ne, ne_eq] at h
  obtain ⟨⟨⟨⟨⟨⟨⟨h32, hq⟩, hb⟩, hlt⟩, hgt⟩, ha⟩, h1⟩, h2⟩ := h
  have e8 : ¬ c.toNat = 8 := by omega
  have e12 : ¬ c.toNat = 12 := by omega
  have en : ¬ c = '\n' := by
    rintro rfl
    exact absurd h32 (by decide)
  have er : ¬ c = '\r' := by
    rintro rfl
    exact absurd h32 (by decide)
  have et : ¬ c = '\t' := by
    rintro rfl
    exact absurd h32 (by decide)
  have ec : ¬ (c.toNat < 32 ∨ c = '<' ∨ c = '>' ∨ c = '&') := by
    rintro (h | h | h | h)
    · omega
    · exact hlt h
    · exact hgt h
    · exact ha h
  simp only [jsonEscapeChar, hq, hb, e8, e12, en, er, et, ec, h1, h2, if_false]

theorem jsonEscape_plain (l : List Char) (h : ∀ c ∈ l, jsonPlain c = true) :
    jsonEscape l = String.mk l := by
  induction l with
  | nil => rfl
  | cons c cs ih =>
    have hc := jsonEscapeChar_plain (h c (List.mem_cons_self _ _))
    have hcs := ih (fun d hd => h d (List.mem_cons_of_mem _ hd))
    rw [jsonEscape, hc, hcs]
    rfl

theorem jsonString_plain (s : String) (h : ∀ c ∈ s.data, jsonPlain c = true) :
    jsonString s = "\"" ++ s ++ "\"" := by
  unfold jsonString
  rw [jsonEscape_plain s.data h]

theorem jsonMarshalMap_deleted (m : String) :
    jsonMarshalMap [("success", Field.bool true), ("message", Field.str m)]
      = "\x7b\"message\":" ++ jsonString m ++ ",\"success\":true\x7d" := by
  have hlt : charsLt "success".data "message".data = false := by decide
  have hk1 : jsonString "message" = "\"message\"" := by decide
  have hk2 : jsonString "success" = "\"success\"" := by decide
  simp only [jsonMarshalMap, sortByKey, insertByKey, hlt, Bool.false_eq_true, if_false,
    jsonMembers, jsonField, hk1, hk2]
  apply String.ext
  simp [String.data_append]

theorem doRequest_sent (client : M2AClient) (req : HttpRequest) :
    (client.doRequest req).2
      = { req with
          header := setHeader (setHeader req.header "Authorization"
            ("Bearer " ++ client.config.APIKey)) "Accept" "application/json" } := by
  simp only [M2AClient.doRequest]
  split
  · rfl
  · rfl
  · split <;> rfl

theorem Post_sent (client : M2AClient) (endpoint : String) (b : Option GoMap)
    (hnew : client.httpClient.newRequestError "POST" (client.config.BaseURL ++ endpoint) = none) :
    (client.Post endpoint b).2.map
        (fun g => g.sent.map (fun r => (r.method, r.url, r.body)))
      = [some ("POST", client.httpClient.requestURL (client.config.BaseURL ++ endpoint),
          some (jsonMarshal b))] := by
  simp only [M2AClient.Post, Http.NewRequest, hnew, doRequest_sent]
  rfl

theorem CreateSource_invocations (client : M2AClient) (arguments : Arguments)
    (name typ url : String)
    (hname : arguments.get "name" = some (Value.str name)) (hn : name ≠ "")
    (htyp : arguments.get "type" = some (Value.str typ)) (ht : typ ≠ "")
    (hurl : arguments.get "url" = some (Value.str url)) (hu : url ≠ "") :
    (Handler.CreateSource.call client arguments).calls
      = (client.Post "/api/v2/connect/sources"
          (some (if populated arguments "description" = true then
              [("name", Field.str name), ("type", Field.str typ), ("url", Field.str url),
                ("description", Field.str (assertString (arguments.get "description")).1)]
            else [("name", Field.str name), ("type", Field.str typ), ("url", Field.str url)]))).2 := by
  have h1 : populated arguments "name" = true := by
    rw [populated_of_get hname]; simpa using hn
  have h2 : populated arguments "type" = true := by
    rw [populated_of_get htyp]; simpa using ht
  have h3 : populated arguments "url" = true := by
    rw [populated_of_get hurl]; simpa using hu
  simp only [Handler.call, ConnectTools.CreateSource, check_eq_not_populated,
    optional_ne_eq_populated, h1, h2, h3, Bool.not_true, Bool.false_eq_true, if_false]
  simp only [assertString_of_get hname, assertString_of_get htyp, assertString_of_get hurl]
  by_cases hd : populated arguments "description" = true
  · simp only [hd, if_true, GoMap.set]
    split <;> simp
  · simp only [hd, if_false, Bool.false_eq_true]
    split <;> rfl

theorem Get_calls_length (client : M2AClient) (endpoint : String) :
    (client.Get endpoint).2.length = 1 := by
  have h := congrArg List.length (Get_invocations client endpoint)
  simpa using h

theorem Delete_calls_length (client : M2AClient) (endpoint : String) :
    (client.Delete endpoint).2.length = 1 := by
  have h := congrArg List.length (Delete_invocations client endpoint)
  simpa using h

theorem Post_calls_length (client : M2AClient) (endpoint : String) (b : Option GoMap) :
    (client.Post endpoint b).2.length = 1 := by
  have h := congrArg List.length (Post_invocations client endpoint b)
  simpa using h

theorem Put_calls_length (client : M2AClient) (endpoint : String) (b : Option GoMap) :
    (client.Put endpoint b).2.length = 1 := by
  have h := congrArg List.length (Put_invocations client endpoint b)
  simpa using h


theorem Get_calls_ne_nil (client : M2AClient) (endpoint : String) :
    (client.Get endpoint).2 ≠ [] := by
  intro h; have := Get_calls_length client endpoint; rw [h] at this; cases this

theorem Delete_calls_ne_nil (client : M2AClient) (endpoint : String) :
    (client.Delete endpoint).2 ≠ [] := by
  intro h; have := Delete_calls_length client endpoint; rw [h] at this; cases this

theorem Post_calls_ne_nil (client : M2AClient) (endpoint : String) (b : Option GoMap) :
    (client.Post endpoint b).2 ≠ [] := by
  intro h; have := Post_calls_length client endpoint b; rw [h] at this; cases this

theorem Put_calls_ne_nil (client : M2AClient) (endpoint : String) (b : Option GoMap) :
    (client.Put endpoint b).2 ≠ [] := by
  intro h; have := Put_calls_length client endpoint b; rw [h] at this; cases this


set_option maxHeartbeats 4000000 in
/-- Every return of every handler has one of three shapes: a validation rejection made
without calling the client, an error of the client wrapped in the handler's phrase after
exactly one call, or a success envelope after exactly one call. -/
theorem outcome_shape (h : Handler) (client : M2AClient) (arguments : Arguments) :
    ((h.call client arguments).calls = [] ∧ (h.call client arguments).result.isError = true ∧
      ((∃ p ∈ h.required, (h.call client arguments).result.text = p ++ " is required") ∨
        (h.updateFields ≠ [] ∧
          ((h.call client arguments).result.text = "at least one field to update is required" ∨
            (h.call client arguments).result.text
              = "at least one metadata field is required")))) ∨
    ((h.call client arguments).calls.length = 1 ∧
      (h.call client arguments).result.isError = true ∧
      ∃ e, (h.call client arguments).result.text = "failed to " ++ h.operation ++ ": " ++ e) ∨
    ((h.call client arguments).calls.length = 1 ∧
      (h.call client arguments).result.isError = false) := by
  cases h <;>
    simp only [Handler.call, ConnectTools.ListSources, ConnectTools.GetSource, ConnectTools.CreateSource, ConnectTools.UpdateSource, ConnectTools.DeleteSource, ConnectTools.ListSubscribers, ConnectTools.GetSubscriber, ConnectTools.CreateSubscriber, ConnectTools.ListSubscriptions, ConnectTools.GetSubscription, ConnectTools.CreateSubscription, ConnectTools.ListSchedules, ConnectTools.GetSchedule, ConnectTools.CreateSchedule, LiveTools.ListChannels, LiveTools.GetChannel, LiveTools.CreateChannel, LiveTools.StartChannel, LiveTools.StopChannel, LiveTools.DeleteChannel, LiveTools.ListEncoderConfigs, LiveTools.GetEncoderConfig, LiveTools.ListWorkflows, LiveTools.GetWorkflow, LiveTools.CreateWorkflow, CaptureTools.ListCaptures, CaptureTools.GetCapture, CaptureTools.CreateCapture, CaptureTools.CancelCapture, CaptureTools.ListCaptureExports, CaptureTools.GetCaptureExport, CaptureTools.CreateClip, VODTools.ListVODAssets, VODTools.GetVODAsset, VODTools.UpdateVODMetadata, VODTools.DeleteVODAsset, VODTools.GetPlaybackURL,
      Handler.required, Handler.operation, Handler.updateFields] <;>
    (repeat' split) <;>
    simp only [NewToolResultError, NewToolResultText, Get_calls_length, Post_calls_length,
      Put_calls_length, Delete_calls_length, Get_calls_ne_nil, Post_calls_ne_nil,
      Put_calls_ne_nil, Delete_calls_ne_nil, false_and, true_and, and_true, and_false, or_false,
      false_or, or_true, true_or, Bool.true_eq_false, Bool.false_eq_true, List.length_nil,
      List.mem_cons, List.mem_nil_iff, exists_eq_left, exists_eq_or_imp, String.reduceAppend,
      List.not_mem_nil, exists_false, zero_ne_one, OfNat.zero_ne_ofNat,
      ← String.append_assoc] <;>
    first
    | done
    | exact ⟨_, rfl⟩
    | exact Or.inr (by decide)

theorem startsWith_append (p e : String) : startsWith (p ++ e) p = true := by
  simp only [startsWith, String.data_append]
  exact List.isPrefixOf_iff_prefix.2 (List.prefix_append _ _)

theorem getHeader_setHeader_self (h : List (String × String)) (k v : String) :
    getHeader (setHeader h k v) k = some v := by
  induction h with
  | nil => simp [setHeader, getHeader]
  | cons e rest ih =>
    obtain ⟨k', w⟩ := e
    by_cases hk : k' = k
    · simp [setHeader, getHeader, hk]
    · simp [setHeader, getHeader, hk, ih]

theorem getHeader_setHeader_ne (h : List (String × String)) (k v k' : String) (hne : k ≠ k') :
    getHeader (setHeader h k v) k' = getHeader h k' := by
  induction h with
  | nil => simp [setHeader, getHeader, hne]
  | cons e rest ih =>
    obtain ⟨k0, w⟩ := e
    by_cases hk : k0 = k
    · subst hk
      simp [setHeader, getHeader, hne]
    · by_cases hk' : k0 = k'
      · subst hk'
        simp [setHeader, getHeader, hk]
      · simp [setHeader, getHeader, hk, hk', ih]

theorem Get_calls (client : M2AClient) (endpoint : String) :
    (client.Get endpoint).2
      = [{ method := "GET", endpoint := endpoint, body := none,
           sent := match client.httpClient.newRequestError "GET"
                (client.config.BaseURL ++ endpoint) with
             | some _ => none
             | none => some
                { method := "GET",
                  url := client.httpClient.requestURL (client.config.BaseURL ++ endpoint), body := none,
                  header := setHeader (setHeader [] "Authorization"
                    ("Bearer " ++ client.config.APIKey)) "Accept" "application/json" } }] := by
  simp only [M2AClient.Get, Http.NewRequest]
  cases client.httpClient.newRequestError "GET" (client.config.BaseURL ++ endpoint) with
  | some e => rfl
  | none => simp only [doRequest_sent]

theorem Delete_calls (client : M2AClient) (endpoint : String) :
    (client.Delete endpoint).2
      = [{ method := "DELETE", endpoint := endpoint, body := none,
           sent := match client.httpClient.newRequestError "DELETE"
                (client.config.BaseURL ++ endpoint) with
             | some _ => none
             | none => some
                { method := "DELETE",
                  url := client.httpClient.requestURL (client.config.BaseURL ++ endpoint), body := none,
                  header := setHeader (setHeader [] "Authorization"
                    ("Bearer " ++ client.config.APIKey)) "Accept" "application/json" } }] := by
  simp only [M2AClient.Delete, Http.NewRequest]
  cases client.httpClient.newRequestError "DELETE" (client.config.BaseURL ++ endpoint) with
  | some e => rfl
  | none => simp only [doRequest_sent]

theorem Post_calls (client : M2AClient) (endpoint : String) (b : Option GoMap) :
    (client.Post endpoint b).2
      = [{ method := "POST", endpoint := endpoint, body := b,
           sent := match client.httpClient.newRequestError "POST"
                (client.config.BaseURL ++ endpoint) with
             | some _ => none
             | none => some
                { method := "POST",
                  url := client.httpClient.requestURL (client.config.BaseURL ++ endpoint),
                  body := some (jsonMarshal b),
                  header := setHeader (setHeader (setHeader [] "Content-Type" "application/json")
                    "Authorization" ("Bearer " ++ client.config.APIKey))
                    "Accept" "application/json" } }] := by
  simp only [M2AClient.Post, Http.NewRequest]
  cases client.httpClient.newRequestError "POST" (client.config.BaseURL ++ endpoint) with
  | some e => rfl
  | none => simp only [doRequest_sent]

theorem Put_calls (client : M2AClient) (endpoint : String) (b : Option GoMap) :
    (client.Put endpoint b).2
      = [{ method := "PUT", endpoint := endpoint, body := b,
           sent := match client.httpClient.newRequestError "PUT"
                (client.config.BaseURL ++ endpoint) with
             | some _ => none
             | none => some
                { method := "PUT",
                  url := client.httpClient.requestURL (client.config.BaseURL ++ endpoint),
                  body := some (jsonMarshal b),
                  header := setHeader (setHeader (setHeader [] "Content-Type" "application/json")
                    "Authorization" ("Bearer " ++ client.config.APIKey))
                    "Accept" "application/json" } }] := by
  simp only [M2AClient.Put, Http.NewRequest]
  cases client.httpClient.newRequestError "PUT" (client.config.BaseURL ++ endpoint) with
  | some e => rfl
  | none => simp only [doRequest_sent]

theorem action_calls (client : M2AClient) (arguments : Arguments) (id : String) :
    (arguments.get "channel_id" = some (Value.str id) → id ≠ "" →
      (Handler.StartChannel.call client arguments).calls
          = (client.Post ("/api/v3/live/channels/" ++ id ++ "/start") none).2 ∧
        (Handler.StopChannel.call client arguments).calls
          = (client.Post ("/api/v3/live/channels/" ++ id ++ "/stop") none).2) ∧
    (arguments.get "capture_id" = some (Value.str id) → id ≠ "" →
      (Handler.CancelCapture.call client arguments).calls
        = (client.Post ("/api/v1/connect/capture/" ++ id ++ "/cancel") none).2) := by
  constructor
  · intro hid hne
    have h0 : populated arguments "channel_id" = true := by
      rw [populated_of_get hid]; simpa using hne
    constructor <;>
      simp only [Handler.call, LiveTools.StartChannel, LiveTools.StopChannel,
        check_eq_not_populated, h0, Bool.not_true, Bool.false_eq_true, if_false] <;>
      simp only [assertString_of_get hid] <;>
      split <;> rfl
  · intro hid hne
    have h0 : populated arguments "capture_id" = true := by
      rw [populated_of_get hid]; simpa using hne
    simp only [Handler.call, CaptureTools.CancelCapture, check_eq_not_populated, h0,
      Bool.not_true, Bool.false_eq_true, if_false]
    simp only [assertString_of_get hid]
    split <;> rfl

theorem CreateChannel_calls (client : M2AClient) (arguments : Arguments) (name inputType : String)
    (hname : arguments.get "name" = some (Value.str name)) (hn : name ≠ "")
    (hit : arguments.get "input_type" = some (Value.str inputType)) (hi : inputType ≠ "") :
    (Handler.CreateChannel.call client arguments).calls
      = (client.Post "/api/v3/live/channels"
          (some (if populated arguments "encoder_config_id" = true then
              [("name", Field.str name), ("input_type", Field.str inputType),
                ("encoder_config_id",
                  Field.str (assertString (arguments.get "encoder_config_id")).1)]
            else [("name", Field.str name), ("input_type", Field.str inputType)]))).2 := by
  have h1 : populated arguments "name" = true := by
    rw [populated_of_get hname]; simpa using hn
  have h2 : populated arguments "input_type" = true := by
    rw [populated_of_get hit]; simpa using hi
  simp only [Handler.call, LiveTools.CreateChannel, check_eq_not_populated,
    optional_ne_eq_populated, h1, h2, Bool.not_true, Bool.false_eq_true, if_false]
  simp only [assertString_of_get hname, assertString_of_get hit]
  by_cases hd : populated arguments "encoder_config_id" = true
  · simp only [hd, if_true, GoMap.set]
    split <;> simp
  · simp only [hd, if_false, Bool.false_eq_true]
    split <;> rfl

theorem GetPlaybackURL_invocations (client : M2AClient) (arguments : Arguments) (id : String)
    (hid : arguments.get "asset_id" = some (Value.str id)) (hne : id ≠ "") :
    (Handler.GetPlaybackURL.call client arguments).invocations
      = [("GET", "/api/v1/vod/assets/" ++ id ++ "/playback?format=" ++
          (if populated arguments "format" = true then (assertString (arguments.get "format")).1
            else "hls"), none)] := by
  have h0 : populated arguments "asset_id" = true := by
    rw [populated_of_get hid]; simpa using hne
  have hf : ((assertString (arguments.get "format")).1 == "")
      = !populated arguments "format" := by
    rw [← optional_ne_eq_populated]
    simp [bne]
  simp only [Handler.call, VODTools.GetPlaybackURL, check_eq_not_populated, h0,
    HandlerReturn.invocations, hf, Bool.not_true, Bool.false_eq_true, if_false]
  simp only [assertString_of_get hid]
  by_cases hp : populated arguments "format" = true
  · simp only [hp, Bool.not_true, Bool.false_eq_true, if_false, if_true]
    split <;> simp [Get_invocations]
  · have hp' : populated arguments "format" = false := by simpa using hp
    simp only [hp', Bool.not_false, if_true, Bool.false_eq_true, if_false]
    split <;> simp [Get_invocations]

theorem downClient_fails (err : String) :
    GatewayFails (downClient err) ("request failed: " ++ err) :=
  ⟨fun _ => rfl, fun _ _ => rfl, fun _ _ => rfl, fun _ => rfl⟩

set_option maxHeartbeats 4000000 in
/-- Every return of every handler carries the nil error. -/
theorem call_err_nil (h : Handler) (client : M2AClient) (arguments : Arguments) :
    (h.call client arguments).err = none := by
  cases h <;>
    simp only [Handler.call, ConnectTools.ListSources, ConnectTools.GetSource, ConnectTools.CreateSource, ConnectTools.UpdateSource, ConnectTools.DeleteSource, ConnectTools.ListSubscribers, ConnectTools.GetSubscriber, ConnectTools.CreateSubscriber, ConnectTools.ListSubscriptions, ConnectTools.GetSubscription, ConnectTools.CreateSubscription, ConnectTools.ListSchedules, ConnectTools.GetSchedule, ConnectTools.CreateSchedule, LiveTools.ListChannels, LiveTools.GetChannel, LiveTools.CreateChannel, LiveTools.StartChannel, LiveTools.StopChannel, LiveTools.DeleteChannel, LiveTools.ListEncoderConfigs, LiveTools.GetEncoderConfig, LiveTools.ListWorkflows, LiveTools.GetWorkflow, LiveTools.CreateWorkflow, CaptureTools.ListCaptures, CaptureTools.GetCapture, CaptureTools.CreateCapture, CaptureTools.CancelCapture, CaptureTools.ListCaptureExports, CaptureTools.GetCaptureExport, CaptureTools.CreateClip, VODTools.ListVODAssets, VODTools.GetVODAsset, VODTools.UpdateVODMetadata, VODTools.DeleteVODAsset, VODTools.GetPlaybackURL] <;>
    (repeat' split) <;>
    rfl

set_option maxHeartbeats 4000000 in
/-- When the arguments pass validation the handler calls the client exactly once, and an
error of that call is returned wrapped in the handler's phrase. -/
theorem valid_call_once (h : Handler) (client : M2AClient) (arguments : Arguments)
    (hv : passesValidation h arguments = true) :
    (h.call client arguments).calls.length = 1 ∧
    ∀ e, GatewayFails client e →
      (h.call client arguments).result
        = NewToolResultError ("failed to " ++ h.operation ++ ": " ++ e) := by
  cases h <;>
    simp only [passesValidation, Handler.required, Handler.updateFields, List.all_cons,
      List.all_nil, List.any_cons, List.any_nil, List.isEmpty, Bool.and_true, Bool.or_false,
      Bool.false_or, Bool.true_or, Bool.and_eq_true, Bool.or_eq_true] at hv <;>
    simp only [Handler.call, ConnectTools.ListSources, ConnectTools.GetSource, ConnectTools.CreateSource, ConnectTools.UpdateSource, ConnectTools.DeleteSource, ConnectTools.ListSubscribers, ConnectTools.GetSubscriber, ConnectTools.CreateSubscriber, ConnectTools.ListSubscriptions, ConnectTools.GetSubscription, ConnectTools.CreateSubscription, ConnectTools.ListSchedules, ConnectTools.GetSchedule, ConnectTools.CreateSchedule, LiveTools.ListChannels, LiveTools.GetChannel, LiveTools.CreateChannel, LiveTools.StartChannel, LiveTools.StopChannel, LiveTools.DeleteChannel, LiveTools.ListEncoderConfigs, LiveTools.GetEncoderConfig, LiveTools.ListWorkflows, LiveTools.GetWorkflow, LiveTools.CreateWorkflow, CaptureTools.ListCaptures, CaptureTools.GetCapture, CaptureTools.CreateCapture, CaptureTools.CancelCapture, CaptureTools.ListCaptureExports, CaptureTools.GetCaptureExport, CaptureTools.CreateClip, VODTools.ListVODAssets, VODTools.GetVODAsset, VODTools.UpdateVODMetadata, VODTools.DeleteVODAsset, VODTools.GetPlaybackURL,
       check_eq_not_populated, optional_ne_eq_populated, hv,
       Handler.operation, Bool.not_true, Bool.false_eq_true, if_false] <;>
    first
    | (refine ⟨?_, fun e hf => ?_⟩
       · split <;>
           simp only [Get_calls_length, Post_calls_length, Put_calls_length, Delete_calls_length]
       · simp only [hf.1, hf.2.1, hf.2.2.1, hf.2.2.2, ← String.append_assoc,
           String.reduceAppend])
    | (obtain ⟨_, hfld⟩ := hv
       split_ifs <;>
       first
       | (refine ⟨?_, fun e hf => ?_⟩
          · split <;> simp only [Put_calls_length]
          · simp only [hf.2.2.1, ← String.append_assoc, String.reduceAppend])
       | (exfalso
          simp_all [GoMap.set]))

theorem Arguments.get_set (arguments : Arguments) (k : String) (w : Value) (k' : String) :
    Arguments.get (Arguments.set arguments k w) k'
      = if k = k' then some w else Arguments.get arguments k' := by
  induction arguments with
  | nil => simp [Arguments.set, Arguments.get]
  | cons e rest ih =>
    obtain ⟨k0, v0⟩ := e
    by_cases h0 : k0 = k
    · subst h0
      by_cases h1 : k0 = k' <;> simp [Arguments.set, Arguments.get, h1]
    · by_cases h1 : k0 = k'
      · subst h1
        simp [Arguments.set, Arguments.get, h0, Ne.symm h0]
      · simp [Arguments.set, Arguments.get, h0, h1, ih]

theorem Arguments.get_erase (arguments : Arguments) (k k' : String) :
    Arguments.get (Arguments.erase arguments k) k'
      = if k = k' then none else Arguments.get arguments k' := by
  induction arguments with
  | nil => simp [Arguments.erase, Arguments.get]
  | cons e rest ih =>
    obtain ⟨k0, v0⟩ := e
    by_cases h0 : k0 = k
    · subst h0
      by_cases h1 : k0 = k'
      · subst h1
        simpa [Arguments.erase] using ih
      · simpa [Arguments.erase, Arguments.get, h1] using ih
    · by_cases h1 : k0 = k'
      · subst h1
        simp [Arguments.erase, Arguments.get, h0, Ne.symm h0]
      · simp [Arguments.erase, Arguments.get, h0, h1, ih]

theorem assertString_wrong_kind {w : Value} (hw : w.isString = false) :
    assertString (some w) = assertString none := by
  cases w <;> first | rfl | cases hw

theorem assertFloat64_wrong_kind {w : Value} (hw : w.isNumber = false) :
    assertFloat64 (some w) = assertFloat64 none := by
  cases w <;> first | rfl | cases hw
set_option maxHeartbeats 4000000 in
/-- Setting an optional parameter to a value of the wrong kind gives the same return as
deleting the parameter. -/
theorem call_set_wrong_kind (h : Handler) (client : M2AClient) (arguments : Arguments)
    (k : String) (w : Value)
    (hk : (k ∈ h.optionalStrings ∧ w.isString = false) ∨
      (k ∈ h.optionalNumbers ∧ w.isNumber = false)) :
    h.call client (arguments.set k w) = h.call client (arguments.erase k) := by
  cases h <;>
    simp only [Handler.optionalStrings, Handler.optionalNumbers, List.mem_cons,
      List.mem_nil_iff, or_false, false_and, false_or, or_self] at hk <;>
    first
    | exact hk.elim
    | (obtain ⟨hk, hw⟩ := hk
       rcases hk with rfl | rfl | rfl <;>
         first
         | simp only [Handler.call, ConnectTools.ListSources, ConnectTools.GetSource, ConnectTools.CreateSource, ConnectTools.UpdateSource, ConnectTools.DeleteSource, ConnectTools.ListSubscribers, ConnectTools.GetSubscriber, ConnectTools.CreateSubscriber, ConnectTools.ListSubscriptions, ConnectTools.GetSubscription, ConnectTools.CreateSubscription, ConnectTools.ListSchedules, ConnectTools.GetSchedule, ConnectTools.CreateSchedule, LiveTools.ListChannels, LiveTools.GetChannel, LiveTools.CreateChannel, LiveTools.StartChannel, LiveTools.StopChannel, LiveTools.DeleteChannel, LiveTools.ListEncoderConfigs, LiveTools.GetEncoderConfig, LiveTools.ListWorkflows, LiveTools.GetWorkflow, LiveTools.CreateWorkflow, CaptureTools.ListCaptures, CaptureTools.GetCapture, CaptureTools.CreateCapture, CaptureTools.CancelCapture, CaptureTools.ListCaptureExports, CaptureTools.GetCaptureExport, CaptureTools.CreateClip, VODTools.ListVODAssets, VODTools.GetVODAsset, VODTools.UpdateVODMetadata, VODTools.DeleteVODAsset, VODTools.GetPlaybackURL,
             Arguments.get_set, Arguments.get_erase, String.reduceEq, if_true, if_false,
             assertString_wrong_kind hw]
         | simp only [Handler.call, ConnectTools.ListSources, ConnectTools.GetSource, ConnectTools.CreateSource, ConnectTools.UpdateSource, ConnectTools.DeleteSource, ConnectTools.ListSubscribers, ConnectTools.GetSubscriber, ConnectTools.CreateSubscriber, ConnectTools.ListSubscriptions, ConnectTools.GetSubscription, ConnectTools.CreateSubscription, ConnectTools.ListSchedules, ConnectTools.GetSchedule, ConnectTools.CreateSchedule, LiveTools.ListChannels, LiveTools.GetChannel, LiveTools.CreateChannel, LiveTools.StartChannel, LiveTools.StopChannel, LiveTools.DeleteChannel, LiveTools.ListEncoderConfigs, LiveTools.GetEncoderConfig, LiveTools.ListWorkflows, LiveTools.GetWorkflow, LiveTools.CreateWorkflow, CaptureTools.ListCaptures, CaptureTools.GetCapture, CaptureTools.CreateCapture, CaptureTools.CancelCapture, CaptureTools.ListCaptureExports, CaptureTools.GetCaptureExport, CaptureTools.CreateClip, VODTools.ListVODAssets, VODTools.GetVODAsset, VODTools.UpdateVODMetadata, VODTools.DeleteVODAsset, VODTools.GetPlaybackURL,
             Arguments.get_set, Arguments.get_erase, String.reduceEq, if_true, if_false,
             assertFloat64_wrong_kind hw])

theorem go_doRequest_eq (net : Http) (cfg : Config) (hc : Go.HttpClient) (req : HttpRequest) :
    Go.M2AClient.doRequest net (some { config := some cfg, httpClient := some hc }) req
      = Run.ret (M2AClient.doRequest { config := cfg, httpClient := net } req) := by
  simp only [Go.M2AClient.doRequest, M2AClient.doRequest]
  split
  · rfl
  · rfl
  · split <;> rfl

theorem go_Get_eq (net : Http) (cfg : Config) (hc : Go.HttpClient) (endpoint : String) :
    Go.M2AClient.Get net (some { config := some cfg, httpClient := some hc }) endpoint
      = Run.ret (M2AClient.Get { config := cfg, httpClient := net } endpoint) := by
  simp only [Go.M2AClient.Get, M2AClient.Get, go_doRequest_eq]
  split <;> rfl

theorem go_Delete_eq (net : Http) (cfg : Config) (hc : Go.HttpClient) (endpoint : String) :
    Go.M2AClient.Delete net (some { config := some cfg, httpClient := some hc }) endpoint
      = Run.ret (M2AClient.Delete { config := cfg, httpClient := net } endpoint) := by
  simp only [Go.M2AClient.Delete, M2AClient.Delete, go_doRequest_eq]
  split <;> rfl

theorem go_Post_eq (net : Http) (cfg : Config) (hc : Go.HttpClient) (endpoint : String)
    (body : Option GoMap) :
    Go.M2AClient.Post net (some { config := some cfg, httpClient := some hc }) endpoint body
      = Run.ret (M2AClient.Post { config := cfg, httpClient := net } endpoint body) := by
  simp only [Go.M2AClient.Post, M2AClient.Post, go_doRequest_eq]
  split <;> rfl

theorem go_Put_eq (net : Http) (cfg : Config) (hc : Go.HttpClient) (endpoint : String)
    (body : Option GoMap) :
    Go.M2AClient.Put net (some { config := some cfg, httpClient := some hc }) endpoint body
      = Run.ret (M2AClient.Put { config := cfg, httpClient := net } endpoint body) := by
  simp only [Go.M2AClient.Put, M2AClient.Put, go_doRequest_eq]
  split <;> rfl

theorem go_index_eq (arguments : Option Arguments) (key : String) :
    Go.index arguments key = Arguments.get (arguments.getD []) key := by
  cases arguments <;> rfl

theorem doRequest_return (client : M2AClient) (req : HttpRequest) :
    (∃ e, client.httpClient.roundTrip (client.doRequest req).2 = RoundTrip.doError e ∧
        (client.doRequest req).1 = Except.error ("request failed: " ++ e)) ∨
    (∃ s e, client.httpClient.roundTrip (client.doRequest req).2 = RoundTrip.readError s e ∧
        (client.doRequest req).1 = Except.error ("failed to read response: " ++ e)) ∨
    (∃ s b, client.httpClient.roundTrip (client.doRequest req).2 = RoundTrip.response s b ∧
        (client.doRequest req).1 = statusResult s b) := by
  rw [doRequest_sent]
  simp only [M2AClient.doRequest, statusResult]
  split
  · next e he => exact Or.inl ⟨e, he, rfl⟩
  · next s e he => exact Or.inr (Or.inl ⟨s, e, he, rfl⟩)
  · next s b he =>
    refine Or.inr (Or.inr ⟨s, b, he, ?_⟩)
    split <;> rfl

theorem Get_return (client : M2AClient) (endpoint : String) :
    GatewayReturn client (client.Get endpoint) := by
  simp only [GatewayReturn, M2AClient.Get, Http.NewRequest]
  cases hn : client.httpClient.newRequestError "GET" (client.config.BaseURL ++ endpoint) with
  | some e => exact ⟨_, rfl, Or.inl ⟨rfl, e, hn, rfl⟩⟩
  | none => exact ⟨_, rfl, Or.inr ⟨_, rfl, doRequest_return client _⟩⟩

theorem Delete_return (client : M2AClient) (endpoint : String) :
    GatewayReturn client (client.Delete endpoint) := by
  simp only [GatewayReturn, M2AClient.Delete, Http.NewRequest]
  cases hn : client.httpClient.newRequestError "DELETE" (client.config.BaseURL ++ endpoint) with
  | some e => exact ⟨_, rfl, Or.inl ⟨rfl, e, hn, rfl⟩⟩
  | none => exact ⟨_, rfl, Or.inr ⟨_, rfl, doRequest_return client _⟩⟩

theorem Post_return (client : M2AClient) (endpoint : String) (b : Option GoMap) :
    GatewayReturn client (client.Post endpoint b) := by
  simp only [GatewayReturn, M2AClient.Post, Http.NewRequest]
  cases hn : client.httpClient.newRequestError "POST" (client.config.BaseURL ++ endpoint) with
  | some e => exact ⟨_, rfl, Or.inl ⟨rfl, e, hn, rfl⟩⟩
  | none => exact ⟨_, rfl, Or.inr ⟨_, rfl, doRequest_return client _⟩⟩

theorem Put_return (client : M2AClient) (endpoint : String) (b : Option GoMap) :
    GatewayReturn client (client.Put endpoint b) := by
  simp only [GatewayReturn, M2AClient.Put, Http.NewRequest]
  cases hn : client.httpClient.newRequestError "PUT" (client.config.BaseURL ++ endpoint) with
  | some e => exact ⟨_, rfl, Or.inl ⟨rfl, e, hn, rfl⟩⟩
  | none => exact ⟨_, rfl, Or.inr ⟨_, rfl, doRequest_return client _⟩⟩

set_option maxHeartbeats 4000000 in
/-- On the objects that `main` builds from a loaded configuration no handler panics, and what
it returns is what the first embedding computes, for a nil argument map what it computes for
the empty one. -/
theorem go_call_eq (net : Http) (h : Handler) (cfg : Config) (arguments : Option Arguments) :
    Go.call net h (Go.NewM2AClient (some cfg)) arguments
      = Run.ret (HandlerReturn.toGo
          (h.call { config := cfg, httpClient := net } (arguments.getD []))) := by
  cases h <;>
    simp only [Go.call, Handler.call, Go.ConnectTools.ListSources, Go.ConnectTools.GetSource, Go.ConnectTools.CreateSource, Go.ConnectTools.UpdateSource, Go.ConnectTools.DeleteSource, Go.ConnectTools.ListSubscribers, Go.ConnectTools.GetSubscriber, Go.ConnectTools.CreateSubscriber, Go.ConnectTools.ListSubscriptions, Go.ConnectTools.GetSubscription, Go.ConnectTools.CreateSubscription, Go.ConnectTools.ListSchedules, Go.ConnectTools.GetSchedule, Go.ConnectTools.CreateSchedule, Go.LiveTools.ListChannels, Go.LiveTools.GetChannel, Go.LiveTools.CreateChannel, Go.LiveTools.StartChannel, Go.LiveTools.StopChannel, Go.LiveTools.DeleteChannel, Go.LiveTools.ListEncoderConfigs, Go.LiveTools.GetEncoderConfig, Go.LiveTools.ListWorkflows, Go.LiveTools.GetWorkflow, Go.LiveTools.CreateWorkflow, Go.CaptureTools.ListCaptures, Go.CaptureTools.GetCapture, Go.CaptureTools.CreateCapture, Go.CaptureTools.CancelCapture, Go.CaptureTools.ListCaptureExports, Go.CaptureTools.GetCaptureExport, Go.CaptureTools.CreateClip, Go.VODTools.ListVODAssets, Go.VODTools.GetVODAsset, Go.VODTools.UpdateVODMetadata, Go.VODTools.DeleteVODAsset, Go.VODTools.GetPlaybackURL, ConnectTools.ListSources, ConnectTools.GetSource, ConnectTools.CreateSource, ConnectTools.UpdateSource, ConnectTools.DeleteSource, ConnectTools.ListSubscribers, ConnectTools.GetSubscriber, ConnectTools.CreateSubscriber, ConnectTools.ListSubscriptions, ConnectTools.GetSubscription, ConnectTools.CreateSubscription, ConnectTools.ListSchedules, ConnectTools.GetSchedule, ConnectTools.CreateSchedule, LiveTools.ListChannels, LiveTools.GetChannel, LiveTools.CreateChannel, LiveTools.StartChannel, LiveTools.StopChannel, LiveTools.DeleteChannel, LiveTools.ListEncoderConfigs, LiveTools.GetEncoderConfig, LiveTools.ListWorkflows, LiveTools.GetWorkflow, LiveTools.CreateWorkflow, CaptureTools.ListCaptures, CaptureTools.GetCapture, CaptureTools.CreateCapture, CaptureTools.CancelCapture, CaptureTools.ListCaptureExports, CaptureTools.GetCaptureExport, CaptureTools.CreateClip, VODTools.ListVODAssets, VODTools.GetVODAsset, VODTools.UpdateVODMetadata, VODTools.DeleteVODAsset, VODTools.GetPlaybackURL,
      Go.NewConnectTools, Go.NewLiveTools, Go.NewCaptureTools, Go.NewVODTools, Go.NewM2AClient,
      go_Get_eq, go_Post_eq, go_Put_eq, go_Delete_eq, go_index_eq] <;>
    (repeat' split) <;>
    rfl

set_option maxHeartbeats 4000000 in
/-- When the arguments fail validation the handler makes no call on the client. -/
theorem invalid_no_call (h : Handler) (client : M2AClient) (arguments : Arguments)
    (hv : passesValidation h arguments = false) :
    (h.call client arguments).calls = [] := by
  cases h <;>
    simp only [passesValidation, Handler.required, Handler.updateFields, List.all_cons,
      List.all_nil, List.any_cons, List.any_nil, List.isEmpty, Bool.and_true, Bool.or_false,
      Bool.false_or, Bool.true_or, Bool.and_eq_false_imp, Bool.or_eq_false_iff,
      Bool.true_eq_false, Bool.and_eq_true] at hv <;>
    simp only [Handler.call, ConnectTools.ListSources, ConnectTools.GetSource, ConnectTools.CreateSource, ConnectTools.UpdateSource, ConnectTools.DeleteSource, ConnectTools.ListSubscribers, ConnectTools.GetSubscriber, ConnectTools.CreateSubscriber, ConnectTools.ListSubscriptions, ConnectTools.GetSubscription, ConnectTools.CreateSubscription, ConnectTools.ListSchedules, ConnectTools.GetSchedule, ConnectTools.CreateSchedule, LiveTools.ListChannels, LiveTools.GetChannel, LiveTools.CreateChannel, LiveTools.StartChannel, LiveTools.StopChannel, LiveTools.DeleteChannel, LiveTools.ListEncoderConfigs, LiveTools.GetEncoderConfig, LiveTools.ListWorkflows, LiveTools.GetWorkflow, LiveTools.CreateWorkflow, CaptureTools.ListCaptures, CaptureTools.GetCapture, CaptureTools.CreateCapture, CaptureTools.CancelCapture, CaptureTools.ListCaptureExports, CaptureTools.GetCaptureExport, CaptureTools.CreateClip, VODTools.ListVODAssets, VODTools.GetVODAsset, VODTools.UpdateVODMetadata, VODTools.DeleteVODAsset, VODTools.GetPlaybackURL,
       check_eq_not_populated, optional_ne_eq_populated] <;>
    (repeat' split) <;>
    first
    | rfl
    | (exfalso
       simp_all [GoMap.set])

set_option maxHeartbeats 4000000 in
/-- When the arguments pass validation the handler makes one call on the client; an error of
that call comes back as the error envelope with the handler's phrase before it, and a
success as a success envelope, holding the data returned unless the handler is one of the
delete-style ones. -/
theorem valid_call_return (h : Handler) (client : M2AClient) (arguments : Arguments)
    (hv : passesValidation h arguments = true) :
    ∃ ret, GatewayReturn client ret ∧ (h.call client arguments).calls = ret.2 ∧
      ((∃ e, ret.1 = Except.error e ∧
          (h.call client arguments).result
            = NewToolResultError ("failed to " ++ h.operation ++ ": " ++ e)) ∨
        (∃ d, ret.1 = Except.ok d ∧ ∃ t, (h.call client arguments).result = NewToolResultText t ∧
          (h.isDelete = false → t = d))) := by
  cases h <;>
    simp only [passesValidation, Handler.required, Handler.updateFields, List.all_cons,
      List.all_nil, List.any_cons, List.any_nil, List.isEmpty, Bool.and_true, Bool.or_false,
      Bool.false_or, Bool.true_or, Bool.and_eq_true, Bool.or_eq_true] at hv <;>
    simp only [Handler.call, ConnectTools.ListSources, ConnectTools.GetSource, ConnectTools.CreateSource, ConnectTools.UpdateSource, ConnectTools.DeleteSource, ConnectTools.ListSubscribers, ConnectTools.GetSubscriber, ConnectTools.CreateSubscriber, ConnectTools.ListSubscriptions, ConnectTools.GetSubscription, ConnectTools.CreateSubscription, ConnectTools.ListSchedules, ConnectTools.GetSchedule, ConnectTools.CreateSchedule, LiveTools.ListChannels, LiveTools.GetChannel, LiveTools.CreateChannel, LiveTools.StartChannel, LiveTools.StopChannel, LiveTools.DeleteChannel, LiveTools.ListEncoderConfigs, LiveTools.GetEncoderConfig, LiveTools.ListWorkflows, LiveTools.GetWorkflow, LiveTools.CreateWorkflow, CaptureTools.ListCaptures, CaptureTools.GetCapture, CaptureTools.CreateCapture, CaptureTools.CancelCapture, CaptureTools.ListCaptureExports, CaptureTools.GetCaptureExport, CaptureTools.CreateClip, VODTools.ListVODAssets, VODTools.GetVODAsset, VODTools.UpdateVODMetadata, VODTools.DeleteVODAsset, VODTools.GetPlaybackURL,
       check_eq_not_populated, optional_ne_eq_populated, hv,
       Handler.operation, Handler.isDelete, Bool.not_true, Bool.false_eq_true, if_false] <;>
    first
    | (first
        | (generalize hq : M2AClient.Get _ _ = q
           have hq' : GatewayReturn client q := hq ▸ Get_return _ _)
        | (generalize hq : M2AClient.Post _ _ _ = q
           have hq' : GatewayReturn client q := hq ▸ Post_return _ _ _)
        | (generalize hq : M2AClient.Delete _ _ = q
           have hq' : GatewayReturn client q := hq ▸ Delete_return _ _)
       rcases q with ⟨res, calls⟩
       cases res with
       | error e =>
         exact ⟨_, hq', rfl, Or.inl ⟨e, rfl,
           by simp only [← String.append_assoc, String.reduceAppend]⟩⟩
       | ok d =>
         exact ⟨_, hq', rfl, Or.inr ⟨d, rfl, _, rfl, by simp⟩⟩)
    | (obtain ⟨_, hfld⟩ := hv
       split_ifs <;>
       first
       | (generalize hq : M2AClient.Put _ _ _ = q
          have hq' : GatewayReturn client q := hq ▸ Put_return _ _ _
          rcases q with ⟨res, calls⟩
          cases res with
          | error e =>
            exact ⟨_, hq', rfl, Or.inl ⟨e, rfl,
              by simp only [← String.append_assoc, String.reduceAppend]⟩⟩
          | ok d =>
            exact ⟨_, hq', rfl, Or.inr ⟨d, rfl, _, rfl, by simp⟩⟩)
       | (exfalso
          simp_all [GoMap.set]))

set_option maxHeartbeats 4000000 in
/-- On a nil client, and on a client built from a nil configuration, a handler whose
arguments pass validation panics: it reaches its call on the client, which dereferences the
nil pointer. -/
theorem go_nil_panics (net : Http) (h : Handler) (arguments : Option Arguments)
    (hv : passesValidation h (arguments.getD []) = true) :
    Go.call net h none arguments = Run.panic ∧
    Go.call net h (Go.NewM2AClient none) arguments = Run.panic := by
  cases h <;>
    simp only [passesValidation, Handler.required, Handler.updateFields, List.all_cons,
      List.all_nil, List.any_cons, List.any_nil, List.isEmpty, Bool.and_true, Bool.or_false,
      Bool.false_or, Bool.true_or, Bool.and_eq_true, Bool.or_eq_true] at hv <;>
    simp only [Go.call, Go.ConnectTools.ListSources, Go.ConnectTools.GetSource, Go.ConnectTools.CreateSource, Go.ConnectTools.UpdateSource, Go.ConnectTools.DeleteSource, Go.ConnectTools.ListSubscribers, Go.ConnectTools.GetSubscriber, Go.ConnectTools.CreateSubscriber, Go.ConnectTools.ListSubscriptions, Go.ConnectTools.GetSubscription, Go.ConnectTools.CreateSubscription, Go.ConnectTools.ListSchedules, Go.ConnectTools.GetSchedule, Go.ConnectTools.CreateSchedule, Go.LiveTools.ListChannels, Go.LiveTools.GetChannel, Go.LiveTools.CreateChannel, Go.LiveTools.StartChannel, Go.LiveTools.StopChannel, Go.LiveTools.DeleteChannel, Go.LiveTools.ListEncoderConfigs, Go.LiveTools.GetEncoderConfig, Go.LiveTools.ListWorkflows, Go.LiveTools.GetWorkflow, Go.LiveTools.CreateWorkflow, Go.CaptureTools.ListCaptures, Go.CaptureTools.GetCapture, Go.CaptureTools.CreateCapture, Go.CaptureTools.CancelCapture, Go.CaptureTools.ListCaptureExports, Go.CaptureTools.GetCaptureExport, Go.CaptureTools.CreateClip, Go.VODTools.ListVODAssets, Go.VODTools.GetVODAsset, Go.VODTools.UpdateVODMetadata, Go.VODTools.DeleteVODAsset, Go.VODTools.GetPlaybackURL,
      Go.NewConnectTools, Go.NewLiveTools, Go.NewCaptureTools, Go.NewVODTools, Go.NewM2AClient,
      Go.M2AClient.Get, Go.M2AClient.Post, Go.M2AClient.Put, Go.M2AClient.Delete,
      go_index_eq, check_eq_not_populated, optional_ne_eq_populated, hv,
      Bool.not_true, Bool.false_eq_true, if_false, and_self] <;>
    (try (obtain ⟨_, hf⟩ := hv
          split_ifs <;> simp_all [GoMap.set]))

theorem toGo_result_error {r : HandlerReturn} {m : String}
    (hr : r.result = NewToolResultError m) : r.toGo.result = Go.NewToolResultError m := by
  simp only [HandlerReturn.toGo, hr, NewToolResultError, Go.NewToolResultError]

theorem toGo_result_text {r : HandlerReturn} {t : String}
    (hr : r.result = NewToolResultText t) : r.toGo.result = Go.NewToolResultText t := by
  simp only [HandlerReturn.toGo, hr, NewToolResultText, Go.NewToolResultText]

theorem go_envelope_exclusive (x : Option Go.CallToolResult) :
    ¬ ((∃ m, x = Go.NewToolResultError m) ∧ (∃ t, x = Go.NewToolResultText t)) := by
  rintro ⟨⟨m, hm⟩, ⟨t, ht⟩⟩
  rw [hm] at ht
  simp [Go.NewToolResultError, Go.NewToolResultText] at ht

/-- Every return of a handler, sorted by what the arguments and the gateway gave: a
validation rejection without a call, or one call whose outcome decides the envelope. -/
theorem call_classified (h : Handler) (client : M2AClient) (arguments : Arguments) :
    (passesValidation h arguments = false ∧ (h.call client arguments).calls = [] ∧
      ∃ m, (h.call client arguments).result = NewToolResultError m ∧
        ((∃ p ∈ h.required, m = p ++ " is required") ∨
          (h.updateFields ≠ [] ∧ (m = "at least one field to update is required" ∨
            m = "at least one metadata field is required")))) ∨
    (passesValidation h arguments = true ∧ ∃ g, (h.call client arguments).calls = [g] ∧
      ((g.sent = none ∧
          ∃ e, client.httpClient.newRequestError g.method (client.config.BaseURL ++ g.endpoint)
              = some e ∧
            (h.call client arguments).result = NewToolResultError
              ("failed to " ++ h.operation ++ ": " ++ ("failed to create request: " ++ e))) ∨
        (∃ req e, g.sent = some req ∧ client.httpClient.roundTrip req = RoundTrip.doError e ∧
          (h.call client arguments).result = NewToolResultError
            ("failed to " ++ h.operation ++ ": " ++ ("request failed: " ++ e))) ∨
        (∃ req s e, g.sent = some req ∧
          client.httpClient.roundTrip req = RoundTrip.readError s e ∧
          (h.call client arguments).result = NewToolResultError
            ("failed to " ++ h.operation ++ ": " ++ ("failed to read response: " ++ e))) ∨
        (∃ req s b, g.sent = some req ∧
          client.httpClient.roundTrip req = RoundTrip.response s b ∧ (s < 200 ∨ 300 ≤ s) ∧
          (h.call client arguments).result = NewToolResultError
            ("failed to " ++ h.operation ++ ": " ++
              ("API error (status " ++ fmtD s ++ "): " ++ b))) ∨
        (∃ req s b, g.sent = some req ∧
          client.httpClient.roundTrip req = RoundTrip.response s b ∧ 200 ≤ s ∧ s < 300 ∧
          ∃ t, (h.call client arguments).result = NewToolResultText t ∧
            (h.isDelete = false → t = b)))) := by
  cases hv : passesValidation h arguments with
  | false =>
    left
    have hc := invalid_no_call h client arguments hv
    refine ⟨rfl, hc, ?_⟩
    rcases outcome_shape h client arguments with ⟨-, he, ht⟩ | ⟨hl, -, -⟩ | ⟨hl, -⟩
    · refine ⟨(h.call client arguments).result.text, ?_, ht⟩
      cases hr : (h.call client arguments).result with
      | mk t e =>
        rw [hr] at he
        simp only at he
        subst he
        rfl
    · rw [hc] at hl; cases hl
    · rw [hc] at hl; cases hl
  | true =>
    right
    obtain ⟨ret, ⟨g, hg, hcase⟩, hcalls, hres⟩ := valid_call_return h client arguments hv
    refine ⟨rfl, g, hcalls.trans hg, ?_⟩
    rcases hcase with ⟨hs, e, hn, h1⟩ | ⟨req, hs, hrt⟩
    · left
      refine ⟨hs, e, hn, ?_⟩
      rcases hres with ⟨e', he', hr⟩ | ⟨d, hd, -⟩
      · rw [h1] at he'
        cases he'
        exact hr
      · rw [h1] at hd
        cases hd
    · right
      rcases hrt with ⟨e, hrt, h1⟩ | ⟨s, e, hrt, h1⟩ | ⟨s, b, hrt, h1⟩
      · left
        refine ⟨req, e, hs, hrt, ?_⟩
        rcases hres with ⟨e', he', hr⟩ | ⟨d, hd, -⟩
        · rw [h1] at he'
          cases he'
          exact hr
        · rw [h1] at hd
          cases hd
      · right; left
        refine ⟨req, s, e, hs, hrt, ?_⟩
        rcases hres with ⟨e', he', hr⟩ | ⟨d, hd, -⟩
        · rw [h1] at he'
          cases he'
          exact hr
        · rw [h1] at hd
          cases hd
      · right; right
        by_cases hst : s < 200 ∨ s ≥ 300
        · left
          have h2 : statusResult s b
              = Except.error ("API error (status " ++ fmtD s ++ "): " ++ b) := by
            simp only [statusResult, hst, if_true]
          refine ⟨req, s, b, hs, hrt, hst, ?_⟩
          rcases hres with ⟨e', he', hr⟩ | ⟨d, hd, -⟩
          · rw [h1, h2] at he'
            cases he'
            exact hr
          · rw [h1, h2] at hd
            cases hd
        · right
          have h2 : statusResult s b = Except.ok b := by
            simp only [statusResult, hst, if_false]
          have h3 : 200 ≤ s ∧ s < 300 := by omega
          refine ⟨req, s, b, hs, hrt, h3.1, h3.2, ?_⟩
          rcases hres with ⟨e', he', -⟩ | ⟨d, hd, t, ht, htd⟩
          · rw [h1, h2] at he'
            cases he'
          · rw [h1, h2] at hd
            cases hd
            exact ⟨t, ht, htd⟩

/-! ## Properties -/

/-- C1. A handler whose first missing required parameter (absent, empty string or not a
string) is `p` returns the error envelope with message `p ++ " is required"`, a nil error,
and makes no call on the client. -/
theorem missing_required_rejected (h : Handler) (client : M2AClient) (arguments : Arguments)
    (p : String) (hp : firstMissing arguments h.required = some p) :
    h.call client arguments
      = { result := NewToolResultError (p ++ " is required"), err := none, calls := [] } := by
  cases h <;>
    simp only [Handler.required, firstMissing, List.find?] at hp <;>
    first
    | cases hp
    | (simp only [Handler.call, ConnectTools.ListSources, ConnectTools.GetSource, ConnectTools.CreateSource, ConnectTools.UpdateSource, ConnectTools.DeleteSource, ConnectTools.ListSubscribers, ConnectTools.GetSubscriber, ConnectTools.CreateSubscriber, ConnectTools.ListSubscriptions, ConnectTools.GetSubscription, ConnectTools.CreateSubscription, ConnectTools.ListSchedules, ConnectTools.GetSchedule, ConnectTools.CreateSchedule, LiveTools.ListChannels, LiveTools.GetChannel, LiveTools.CreateChannel, LiveTools.StartChannel, LiveTools.StopChannel, LiveTools.DeleteChannel, LiveTools.ListEncoderConfigs, LiveTools.GetEncoderConfig, LiveTools.ListWorkflows, LiveTools.GetWorkflow, LiveTools.CreateWorkflow, CaptureTools.ListCaptures, CaptureTools.GetCapture, CaptureTools.CreateCapture, CaptureTools.CancelCapture, CaptureTools.ListCaptureExports, CaptureTools.GetCaptureExport, CaptureTools.CreateClip, VODTools.ListVODAssets, VODTools.GetVODAsset, VODTools.UpdateVODMetadata, VODTools.DeleteVODAsset, VODTools.GetPlaybackURL,
        check_eq_not_populated]
       (repeat' split at hp) <;> cases hp <;> simp_all)

/-- Witness for C1: `create_source` called with a name only is rejected for its `type`. -/
theorem missing_required_rejected_witness :
    firstMissing [("name", Value.str "cam1")] Handler.CreateSource.required = some "type" ∧
    Handler.CreateSource.call (stubClient 200 "\x7b\x7d") [("name", Value.str "cam1")]
      = { result := NewToolResultError "type is required", err := none, calls := [] } :=
  ⟨by decide, missing_required_rejected Handler.CreateSource (stubClient 200 "\x7b\x7d")
    [("name", Value.str "cam1")] "type" (by decide)⟩

/-- C6. When the arguments pass validation and the backend answers with a status code
outside [200,300) and body `body`, the handler returns the error envelope with message
"failed to <op>: API error (status <status>): <body>", the body inserted verbatim. -/
theorem api_error_reported (h : Handler) (client : M2AClient) (arguments : Arguments)
    (status : Int) (body : String) (hv : passesValidation h arguments = true)
    (hr : Responds client status body) (hs : status < 200 ∨ 300 ≤ status) :
    (h.call client arguments).result
      = NewToolResultError
          ("failed to " ++ h.operation ++ ": API error (status " ++ fmtD status ++ "): " ++ body) ∧
    (h.call client arguments).err = none := by
  have hst : statusResult status body
      = Except.error ("API error (status " ++ fmtD status ++ "): " ++ body) := by
    simp only [statusResult, ge_iff_le, hs, if_true]
  cases h <;>
    simp only [passesValidation, Handler.required, Handler.updateFields, List.all_cons,
      List.all_nil, List.any_cons, List.any_nil, List.isEmpty, Bool.and_true, Bool.or_false,
      Bool.false_or, Bool.true_or, Bool.and_eq_true, Bool.or_eq_true] at hv <;>
    simp only [Handler.call, ConnectTools.ListSources, ConnectTools.GetSource, ConnectTools.CreateSource, ConnectTools.UpdateSource, ConnectTools.DeleteSource, ConnectTools.ListSubscribers, ConnectTools.GetSubscriber, ConnectTools.CreateSubscriber, ConnectTools.ListSubscriptions, ConnectTools.GetSubscription, ConnectTools.CreateSubscription, ConnectTools.ListSchedules, ConnectTools.GetSchedule, ConnectTools.CreateSchedule, LiveTools.ListChannels, LiveTools.GetChannel, LiveTools.CreateChannel, LiveTools.StartChannel, LiveTools.StopChannel, LiveTools.DeleteChannel, LiveTools.ListEncoderConfigs, LiveTools.GetEncoderConfig, LiveTools.ListWorkflows, LiveTools.GetWorkflow, LiveTools.CreateWorkflow, CaptureTools.ListCaptures, CaptureTools.GetCapture, CaptureTools.CreateCapture, CaptureTools.CancelCapture, CaptureTools.ListCaptureExports, CaptureTools.GetCaptureExport, CaptureTools.CreateClip, VODTools.ListVODAssets, VODTools.GetVODAsset, VODTools.UpdateVODMetadata, VODTools.DeleteVODAsset, VODTools.GetPlaybackURL,
       check_eq_not_populated, optional_ne_eq_populated, hv,
       Get_of_responds hr, Post_of_responds hr, Put_of_responds hr, Delete_of_responds hr, hst,
       Handler.operation, Bool.not_true, Bool.false_eq_true, if_false,
       ← String.append_assoc, String.reduceAppend, and_self] <;>
    (try (obtain ⟨_, hf⟩ := hv
          split_ifs <;> simp_all [GoMap.set]))

/-- Witness for C6: status 404 with body `{"msg":"not found"}` on `list_sources`. -/
theorem api_error_reported_witness :
    passesValidation Handler.ListSources [] = true ∧
    Responds (stubClient 404 "\x7b\"msg\":\"not found\"\x7d") 404 "\x7b\"msg\":\"not found\"\x7d" ∧
    ((404 : Int) < 200 ∨ (300 : Int) ≤ 404) ∧
    (Handler.ListSources.call (stubClient 404 "\x7b\"msg\":\"not found\"\x7d") []).result
      = NewToolResultError
          "failed to list sources: API error (status 404): \x7b\"msg\":\"not found\"\x7d" :=
  ⟨by decide, stubClient_responds _ _, by decide,
    (api_error_reported Handler.ListSources (stubClient 404 "\x7b\"msg\":\"not found\"\x7d") [] 404
      "\x7b\"msg\":\"not found\"\x7d" (by decide) (stubClient_responds _ _) (by decide)).1⟩

/-- C7. When the arguments pass validation and the backend answers with a status code in
[200,300) and body `body`, every handler other than the delete-style ones returns the
success envelope whose text is `body`, unchanged. -/
theorem success_body_passed_through (h : Handler) (client : M2AClient) (arguments : Arguments)
    (status : Int) (body : String) (hd : h.isDelete = false)
    (hv : passesValidation h arguments = true)
    (hr : Responds client status body) (hlo : 200 ≤ status) (hhi : status < 300) :
    (h.call client arguments).result = NewToolResultText body ∧
    (h.call client arguments).err = none := by
  have hst : statusResult status body = Except.ok body := by
    have h1 : ¬ (status < 200 ∨ status ≥ 300) := by omega
    simp only [statusResult, h1, if_false]
  cases h <;>
    first
    | exact absurd hd (by decide)
    | (simp only [passesValidation, Handler.required, Handler.updateFields, List.all_cons,
        List.all_nil, List.any_cons, List.any_nil, List.isEmpty, Bool.and_true, Bool.or_false,
        Bool.false_or, Bool.true_or, Bool.and_eq_true, Bool.or_eq_true] at hv
       simp only [Handler.call, ConnectTools.ListSources, ConnectTools.GetSource, ConnectTools.CreateSource, ConnectTools.UpdateSource, ConnectTools.DeleteSource, ConnectTools.ListSubscribers, ConnectTools.GetSubscriber, ConnectTools.CreateSubscriber, ConnectTools.ListSubscriptions, ConnectTools.GetSubscription, ConnectTools.CreateSubscription, ConnectTools.ListSchedules, ConnectTools.GetSchedule, ConnectTools.CreateSchedule, LiveTools.ListChannels, LiveTools.GetChannel, LiveTools.CreateChannel, LiveTools.StartChannel, LiveTools.StopChannel, LiveTools.DeleteChannel, LiveTools.ListEncoderConfigs, LiveTools.GetEncoderConfig, LiveTools.ListWorkflows, LiveTools.GetWorkflow, LiveTools.CreateWorkflow, CaptureTools.ListCaptures, CaptureTools.GetCapture, CaptureTools.CreateCapture, CaptureTools.CancelCapture, CaptureTools.ListCaptureExports, CaptureTools.GetCaptureExport, CaptureTools.CreateClip, VODTools.ListVODAssets, VODTools.GetVODAsset, VODTools.UpdateVODMetadata, VODTools.DeleteVODAsset, VODTools.GetPlaybackURL,
         check_eq_not_populated, optional_ne_eq_populated, hv,
         Get_of_responds hr, Post_of_responds hr, Put_of_responds hr, Delete_of_responds hr, hst,
         Bool.not_true, Bool.false_eq_true, if_false, and_self]
       try (obtain ⟨_, hf⟩ := hv
            split_ifs <;> simp_all [GoMap.set]))

/-- Witness for C7: a backend body `{"id":"abc"}` with status 200 on `get_source`. -/
theorem success_body_passed_through_witness :
    Handler.GetSource.isDelete = false ∧
    passesValidation Handler.GetSource [("source_id", Value.str "s1")] = true ∧
    Responds (stubClient 200 "\x7b\"id\":\"abc\"\x7d") 200 "\x7b\"id\":\"abc\"\x7d" ∧
    (200 : Int) ≤ 200 ∧ (200 : Int) < 300 ∧
    (Handler.GetSource.call (stubClient 200 "\x7b\"id\":\"abc\"\x7d")
        [("source_id", Value.str "s1")]).result
      = NewToolResultText "\x7b\"id\":\"abc\"\x7d" :=
  ⟨rfl, by decide, stubClient_responds _ _, by decide, by decide,
    (success_body_passed_through Handler.GetSource (stubClient 200 "\x7b\"id\":\"abc\"\x7d")
      [("source_id", Value.str "s1")] 200 "\x7b\"id\":\"abc\"\x7d" rfl (by decide)
      (stubClient_responds _ _) (by decide) (by decide)).1⟩

/-- C3. `update_source` and `update_vod_metadata`, called with a valid identifier and none of
their optional fields being a non-empty string, return the error envelope of the
no-fields-to-update rejection and make no call on the client. -/
theorem update_without_fields_rejected (client : M2AClient) (arguments : Arguments) :
    (populated arguments "source_id" = true →
      populated arguments "name" = false → populated arguments "url" = false →
      populated arguments "description" = false →
      Handler.UpdateSource.call client arguments
        = { result := NewToolResultError "at least one field to update is required",
            err := none, calls := [] }) ∧
    (populated arguments "asset_id" = true →
      populated arguments "title" = false → populated arguments "description" = false →
      populated arguments "tags" = false →
      Handler.UpdateVODMetadata.call client arguments
        = { result := NewToolResultError "at least one metadata field is required",
            err := none, calls := [] }) := by
  constructor
  · intro h0 h1 h2 h3
    simp [Handler.call, ConnectTools.UpdateSource, check_eq_not_populated,
      optional_ne_eq_populated, h0, h1, h2, h3]
  · intro h0 h1 h2 h3
    simp [Handler.call, VODTools.UpdateVODMetadata, check_eq_not_populated,
      optional_ne_eq_populated, h0, h1, h2, h3]

/-- Witness for C3: `update_source` with an identifier only, and `update_vod_metadata` with
an identifier and an empty title. -/
theorem update_without_fields_rejected_witness :
    (populated [("source_id", Value.str "s1")] "source_id" = true ∧
      populated [("source_id", Value.str "s1")] "name" = false ∧
      Handler.UpdateSource.call (stubClient 200 "ok") [("source_id", Value.str "s1")]
        = { result := NewToolResultError "at least one field to update is required",
            err := none, calls := [] }) ∧
    (populated [("asset_id", Value.str "a1"), ("title", Value.str "")] "asset_id" = true ∧
      Handler.UpdateVODMetadata.call (stubClient 200 "ok")
          [("asset_id", Value.str "a1"), ("title", Value.str "")]
        = { result := NewToolResultError "at least one metadata field is required",
            err := none, calls := [] }) :=
  ⟨⟨by decide, by decide,
      (update_without_fields_rejected (stubClient 200 "ok") [("source_id", Value.str "s1")]).1
        (by decide) (by decide) (by decide) (by decide)⟩,
    ⟨by decide,
      (update_without_fields_rejected (stubClient 200 "ok")
          [("asset_id", Value.str "a1"), ("title", Value.str "")]).2
        (by decide) (by decide) (by decide) (by decide)⟩⟩

/-- C2 (counterexample). `list_channels` called with `state` = "all" requests
`/api/v3/live/channels?state=all`, not the bare resource path. -/
theorem list_channels_forwards_all :
    (Handler.ListChannels.call (stubClient 200 "[]") [("state", Value.str "all")]).invocations
        = [("GET", "/api/v3/live/channels?state=all", none)] ∧
    ¬ (Handler.ListChannels.call (stubClient 200 "[]") [("state", Value.str "all")]).invocations
        = [("GET", "/api/v3/live/channels", none)] := by
  constructor <;> decide

/-- C2 (amended). `list_sources` requests the bare resource path when `status` is "all" or
the empty string; `list_channels` and `list_captures` request the bare resource path when
their filter is the empty string, and forward the value "all" as `?state=all`,
respectively `?status=all`. -/
theorem filter_omitted (client : M2AClient) (arguments : Arguments) :
    ((arguments.get "status" = some (Value.str "all") ∨
        arguments.get "status" = some (Value.str "")) →
      (Handler.ListSources.call client arguments).invocations
        = [("GET", "/api/v2/connect/sources", none)]) ∧
    (arguments.get "state" = some (Value.str "") →
      (Handler.ListChannels.call client arguments).invocations
        = [("GET", "/api/v3/live/channels", none)]) ∧
    (arguments.get "status" = some (Value.str "") →
      (Handler.ListCaptures.call client arguments).invocations
        = [("GET", "/api/v1/connect/capture", none)]) ∧
    (arguments.get "state" = some (Value.str "all") →
      (Handler.ListChannels.call client arguments).invocations
        = [("GET", "/api/v3/live/channels?state=all", none)]) ∧
    (arguments.get "status" = some (Value.str "all") →
      (Handler.ListCaptures.call client arguments).invocations
        = [("GET", "/api/v1/connect/capture?status=all", none)]) := by
  refine ⟨?_, ?_, ?_, ?_, ?_⟩
  · rintro (h | h) <;>
      simp only [Handler.call, ConnectTools.ListSources, HandlerReturn.invocations, h,
        assertString] <;>
      split <;> simp [Get_invocations]
  all_goals
    intro h
    simp only [Handler.call, LiveTools.ListChannels, CaptureTools.ListCaptures,
      HandlerReturn.invocations, h, assertString]
    split <;> simp [Get_invocations]

/-- Witness for C2 (amended): `list_sources` with `status` = "all" and `list_captures` with
an empty `status`. -/
theorem filter_omitted_witness :
    (Arguments.get [("status", Value.str "all")] "status" = some (Value.str "all") ∧
      (Handler.ListSources.call (stubClient 200 "[]") [("status", Value.str "all")]).invocations
        = [("GET", "/api/v2/connect/sources", none)]) ∧
    (Arguments.get [("status", Value.str "")] "status" = some (Value.str "") ∧
      (Handler.ListCaptures.call (stubClient 200 "[]") [("status", Value.str "")]).invocations
        = [("GET", "/api/v1/connect/capture", none)]) :=
  ⟨⟨rfl, (filter_omitted (stubClient 200 "[]") [("status", Value.str "all")]).1 (Or.inl rfl)⟩,
   ⟨rfl, (filter_omitted (stubClient 200 "[]") [("status", Value.str "")]).2.2.1 rfl⟩⟩

/-- C4. `update_source` and `update_vod_metadata`, called with a non-empty identifier `id` and at
least one optional field populated, make exactly one call on the client: a PUT to the
resource path ending in `id`, with a body whose keys are distinct, in which a key `k` is
bound to `v` exactly when `k` is one of the optional fields, its argument is a non-empty
string `s` and `v` is that string; the identifier parameter is not a key of the body. -/
theorem update_sends_populated_fields (client : M2AClient) (arguments : Arguments)
    (id : String) (hne : id ≠ "") :
    (arguments.get "source_id" = some (Value.str id) →
      (populated arguments "name" = true ∨ populated arguments "url" = true ∨
        populated arguments "description" = true) →
      ∃ body : GoMap,
        (Handler.UpdateSource.call client arguments).invocations
          = [("PUT", "/api/v2/connect/sources/" ++ id, some body)] ∧
        body.keys.Nodup ∧
        (∀ k v, GoMap.get body k = some v ↔
          k ∈ ["name", "url", "description"] ∧
            ∃ s, arguments.get k = some (Value.str s) ∧ s ≠ "" ∧ v = Field.str s) ∧
        "source_id" ∉ body.keys) ∧
    (arguments.get "asset_id" = some (Value.str id) →
      (populated arguments "title" = true ∨ populated arguments "description" = true ∨
        populated arguments "tags" = true) →
      ∃ body : GoMap,
        (Handler.UpdateVODMetadata.call client arguments).invocations
          = [("PUT", "/api/v1/vod/assets/" ++ id, some body)] ∧
        body.keys.Nodup ∧
        (∀ k v, GoMap.get body k = some v ↔
          k ∈ ["title", "description", "tags"] ∧
            ∃ s, arguments.get k = some (Value.str s) ∧ s ≠ "" ∧ v = Field.str s) ∧
        "asset_id" ∉ body.keys) := by
  constructor
  · intro hid hf
    refine ⟨_, UpdateSource_invocations client arguments id hid hne hf, ?_,
      populatedFields_get arguments _, ?_⟩
    · rw [populatedFields_keys]
      exact List.Nodup.filter _ (by decide)
    · rw [populatedFields_keys]
      intro hm
      exact absurd (List.mem_filter.1 hm).1 (by decide)
  · intro hid hf
    refine ⟨_, UpdateVODMetadata_invocations client arguments id hid hne hf, ?_,
      populatedFields_get arguments _, ?_⟩
    · rw [populatedFields_keys]
      exact List.Nodup.filter _ (by decide)
    · rw [populatedFields_keys]
      intro hm
      exact absurd (List.mem_filter.1 hm).1 (by decide)

/-- Witness for C4: `update_source` with a new name and an empty url sends only the name. -/
theorem update_sends_populated_fields_witness :
    ("s1" ≠ "" ∧
      Arguments.get [("source_id", Value.str "s1"), ("name", Value.str "cam2"),
        ("url", Value.str "")] "source_id" = some (Value.str "s1") ∧
      populated [("source_id", Value.str "s1"), ("name", Value.str "cam2"),
        ("url", Value.str "")] "name" = true) ∧
    ∃ body : GoMap,
      (Handler.UpdateSource.call (stubClient 200 "ok")
          [("source_id", Value.str "s1"), ("name", Value.str "cam2"),
            ("url", Value.str "")]).invocations
        = [("PUT", "/api/v2/connect/sources/" ++ "s1", some body)] ∧
      body.keys.Nodup ∧
      (∀ k v, GoMap.get body k = some v ↔
        k ∈ ["name", "url", "description"] ∧
          ∃ s, Arguments.get [("source_id", Value.str "s1"), ("name", Value.str "cam2"),
            ("url", Value.str "")] k = some (Value.str s) ∧ s ≠ "" ∧ v = Field.str s) ∧
      "source_id" ∉ body.keys :=
  ⟨⟨by decide, rfl, by decide⟩,
    (update_sends_populated_fields (stubClient 200 "ok")
      [("source_id", Value.str "s1"), ("name", Value.str "cam2"), ("url", Value.str "")]
      "s1" (by decide)).1 rfl (Or.inl (by decide))⟩

/-- C5. For `list_subscribers` and `list_vod_assets`: a numeric `limit` that is zero or
negative puts no `limit` parameter in the endpoint (which is the bare path, or the path
with the `offset` parameter only); `limit` = 10 alone gives the query string `?limit=10`;
positive integers `limit` = X and `offset` = Y give `?limit=X&offset=Y`; in general a
positive `limit` and a positive `offset` give `?limit=` and `&offset=`, in that order, each
followed by the value converted to `int`. -/
theorem pagination_query (client : M2AClient) (arguments : Arguments) (h : Handler)
    (path : String)
    (hh : (h = Handler.ListSubscribers ∧ path = "/api/v2/connect/subscribers") ∨
      (h = Handler.ListVODAssets ∧ path = "/api/v1/vod/assets")) :
    (∀ q : Rat, arguments.get "limit" = some (Value.num q) → q ≤ 0 →
      (h.call client arguments).invocations = [("GET", path, none)] ∨
        ∃ o : Rat, arguments.get "offset" = some (Value.num o) ∧ 0 < o ∧
          (h.call client arguments).invocations
            = [("GET", path ++ "?offset=" ++ fmtD (goInt o), none)]) ∧
    (arguments.get "limit" = some (Value.num 10) → arguments.get "offset" = none →
      (h.call client arguments).invocations = [("GET", path ++ "?limit=10", none)]) ∧
    (∀ X Y : Int, 0 < X → X ≤ maxInt → 0 < Y → Y ≤ maxInt →
      arguments.get "limit" = some (Value.num X) → arguments.get "offset" = some (Value.num Y) →
      (h.call client arguments).invocations
          = [("GET", path ++ "?limit=" ++ fmtD X ++ "&offset=" ++ fmtD Y, none)]) ∧
    (∀ q o : Rat, 0 < q → 0 < o →
      arguments.get "limit" = some (Value.num q) → arguments.get "offset" = some (Value.num o) →
      (h.call client arguments).invocations
          = [("GET", path ++ "?limit=" ++ fmtD (goInt q) ++ "&offset=" ++ fmtD (goInt o),
              none)]) := by
  have hinv : (h.call client arguments).invocations
      = [("GET", path ++ pageQuery (assertFloat64 (arguments.get "limit")).1
            (assertFloat64 (arguments.get "offset")).1, none)] := by
    rcases hh with ⟨rfl, rfl⟩ | ⟨rfl, rfl⟩
    · exact ListSubscribers_invocations client arguments
    · exact ListVODAssets_invocations client arguments
  rw [hinv]
  refine ⟨?_, ?_, ?_, ?_⟩
  · intro q hq hle
    by_cases hpos : 0 < (assertFloat64 (arguments.get "offset")).1
    · right
      cases ho : arguments.get "offset" with
      | none => simp [ho, assertFloat64] at hpos
      | some v =>
        cases v with
        | num o =>
          have ho' : 0 < o := by simpa [ho, assertFloat64] using hpos
          refine ⟨o, rfl, ho', ?_⟩
          simp only [hq, assertFloat64_num, pageQuery_offset_only hle ho', String.append_assoc]
        | _ => simp [ho, assertFloat64] at hpos
    · left
      simp only [hq, assertFloat64_num, pageQuery_neither hle (not_lt.1 hpos), String.append_empty]
  · intro hl ho
    have h10 : goInt (10 : Rat) = 10 := by
      have := goInt_intCast 10 (by decide) (by decide)
      simpa using this
    have hf : fmtD 10 = "10" := by decide
    simp only [hl, ho, assertFloat64_num, assertFloat64_none, pageQuery_limit_only (by norm_num : (0 : Rat) < 10)
      (le_refl (0 : Rat)), h10, hf, ← String.append_assoc, String.reduceAppend]
  · intro X Y hX hXm hY hYm hl ho
    have hXq : (0 : Rat) < (X : Rat) := Int.cast_pos.2 hX
    have hYq : (0 : Rat) < (Y : Rat) := Int.cast_pos.2 hY
    have hminX : minInt ≤ X := le_trans (by decide) (le_of_lt hX)
    have hminY : minInt ≤ Y := le_trans (by decide) (le_of_lt hY)
    simp only [hl, ho, assertFloat64_num, pageQuery_both hXq hYq, goInt_intCast X hminX hXm,
      goInt_intCast Y hminY hYm, ← String.append_assoc]
  · intro q o hq ho hl hof
    simp only [hl, hof, assertFloat64_num, pageQuery_both hq ho, ← String.append_assoc]

/-- Witness for C5: `limit` = -5 and `limit` = 10 on `list_subscribers`, `limit` = 3 with
`offset` = 7 on `list_vod_assets`. -/
theorem pagination_query_witness :
    ((Handler.ListSubscribers.call (stubClient 200 "[]")
          [("limit", Value.num (-5))]).invocations
        = [("GET", "/api/v2/connect/subscribers", none)] ∨
      ∃ o : Rat, Arguments.get [("limit", Value.num (-5))] "offset" = some (Value.num o) ∧ 0 < o ∧
        (Handler.ListSubscribers.call (stubClient 200 "[]")
            [("limit", Value.num (-5))]).invocations
          = [("GET", "/api/v2/connect/subscribers" ++ "?offset=" ++ fmtD (goInt o), none)]) ∧
    (Handler.ListSubscribers.call (stubClient 200 "[]") [("limit", Value.num 10)]).invocations
        = [("GET", "/api/v2/connect/subscribers" ++ "?limit=10", none)] ∧
    (Handler.ListVODAssets.call (stubClient 200 "[]")
          [("limit", Value.num ((3 : Int) : Rat)), ("offset", Value.num ((7 : Int) : Rat))]).invocations
        = [("GET", "/api/v1/vod/assets" ++ "?limit=" ++ fmtD 3 ++ "&offset=" ++ fmtD 7, none)] :=
  ⟨(pagination_query (stubClient 200 "[]") [("limit", Value.num (-5))] Handler.ListSubscribers
      "/api/v2/connect/subscribers" (Or.inl ⟨rfl, rfl⟩)).1 (-5) rfl (by norm_num),
    (pagination_query (stubClient 200 "[]") [("limit", Value.num 10)] Handler.ListSubscribers
      "/api/v2/connect/subscribers" (Or.inl ⟨rfl, rfl⟩)).2.1 rfl rfl,
    (pagination_query (stubClient 200 "[]")
      [("limit", Value.num ((3 : Int) : Rat)), ("offset", Value.num ((7 : Int) : Rat))]
      Handler.ListVODAssets "/api/v1/vod/assets" (Or.inr ⟨rfl, rfl⟩)).2.2.1 3 7
      (by decide) (by decide) (by decide) (by decide) rfl rfl⟩

example : jsonString "a\"b<c" = "\"a\\\"b\\u003cc\"" := by decide
example : jsonString "a\x01b\n" = "\"a\\u0001b\\n\"" := by decide

/-- C8. A delete-style handler (`delete_source`, `delete_channel`, `delete_vod_asset`) called
with a non-empty identifier `id`, when the backend answers with a success status and any
body, returns the success envelope whose text is `json.Marshal` of the synthesized payload:
the object with exactly the members `success`, bound to `true`, and `message`, bound to the
string "<Resource> <id> deleted successfully" with `id` as given, whichever way round the
two members are listed. As bytes the text is `{"message":<m>,"success":true}`, `<m>` the JSON
string literal of the message, in which `id` stands unchanged when it has no character that
JSON escapes. The result does not depend on the backend: a second backend answering with
another success status and another body yields the same result. -/
theorem delete_synthesizes_payload (h : Handler) (idParam resource : String)
    (hh : (h = Handler.DeleteSource ∧ idParam = "source_id" ∧ resource = "Source") ∨
      (h = Handler.DeleteChannel ∧ idParam = "channel_id" ∧ resource = "Channel") ∨
      (h = Handler.DeleteVODAsset ∧ idParam = "asset_id" ∧ resource = "VOD asset"))
    (client client' : M2AClient) (arguments : Arguments) (id : String)
    (status status' : Int) (body body' : String)
    (hid : arguments.get idParam = some (Value.str id)) (hne : id ≠ "")
    (hr : Responds client status body) (hlo : 200 ≤ status) (hhi : status < 300)
    (hr' : Responds client' status' body') (hlo' : 200 ≤ status') (hhi' : status' < 300) :
    (h.call client arguments).result
      = NewToolResultText (jsonMarshalMap [("success", Field.bool true),
          ("message", Field.str (resource ++ " " ++ id ++ " deleted successfully"))]) ∧
    (h.call client arguments).result
      = NewToolResultText (jsonMarshalMap
          [("message", Field.str (resource ++ " " ++ id ++ " deleted successfully")),
           ("success", Field.bool true)]) ∧
    (h.call client arguments).result
      = NewToolResultText ("\x7b\"message\":" ++
          jsonString (resource ++ " " ++ id ++ " deleted successfully") ++ ",\"success\":true\x7d") ∧
    ((∀ c ∈ id.data, jsonPlain c = true) →
      (h.call client arguments).result
        = NewToolResultText ("\x7b\"message\":\"" ++ resource ++ " " ++ id ++
            " deleted successfully\",\"success\":true\x7d")) ∧
    (h.call client' arguments).result = (h.call client arguments).result := by
  have h0 : populated arguments idParam = true := by
    rw [populated_of_get hid]; simpa using hne
  have hmain : ∀ (c : M2AClient) (s : Int) (b : String), Responds c s b → 200 ≤ s → s < 300 →
      (h.call c arguments).result
        = NewToolResultText (jsonMarshalMap [("success", Field.bool true),
            ("message", Field.str (resource ++ " " ++ id ++ " deleted successfully"))]) := by
    intro c s b hc h1 h2
    have hst : statusResult s b = Except.ok b := by
      have h3 : ¬ (s < 200 ∨ s ≥ 300) := by omega
      simp only [statusResult, h3, if_false]
    rcases hh with ⟨rfl, rfl, rfl⟩ | ⟨rfl, rfl, rfl⟩ | ⟨rfl, rfl, rfl⟩ <;>
      simp only [Handler.call, ConnectTools.DeleteSource, LiveTools.DeleteChannel,
        VODTools.DeleteVODAsset, check_eq_not_populated, h0, Delete_of_responds hc, hst,
        Bool.not_true, Bool.false_eq_true, if_false] <;>
      simp only [assertString_of_get hid, ← String.append_assoc, String.reduceAppend]
  have hswap : ∀ m : String,
      jsonMarshalMap [("message", Field.str m), ("success", Field.bool true)]
        = jsonMarshalMap [("success", Field.bool true), ("message", Field.str m)] := by
    intro m
    have hlt : charsLt "success".data "message".data = false := by decide
    have hgt : charsLt "message".data "success".data = true := by decide
    simp only [jsonMarshalMap, sortByKey, insertByKey, hlt, hgt, Bool.false_eq_true, if_false,
      if_true]
  have hbytes := hmain client status body hr hlo hhi
  refine ⟨hbytes, ?_, ?_, ?_, ?_⟩
  · rw [hswap]; exact hbytes
  · rw [hbytes, jsonMarshalMap_deleted]
  · intro hplain
    rw [hbytes, jsonMarshalMap_deleted]
    have hres : ∀ c ∈ resource.data, jsonPlain c = true := by
      rcases hh with ⟨-, -, rfl⟩ | ⟨-, -, rfl⟩ | ⟨-, -, rfl⟩ <;> decide
    have hall : ∀ c ∈ (resource ++ " " ++ id ++ " deleted successfully").data,
        jsonPlain c = true := by
      intro c hc
      simp only [String.data_append, List.mem_append] at hc
      rcases hc with ((hc | hc) | hc) | hc
      · exact hres c hc
      · revert c; decide
      · exact hplain c hc
      · revert c; decide
    rw [jsonString_plain _ hall]
    congr 1
    apply String.ext
    simp [String.data_append]
  · rw [hbytes, hmain client' status' body' hr' hlo' hhi']

/-- Witness for C8: `delete_channel` for the identifier `ch-1` when one backend answers 204
with the body `gone` and another answers 200 with a JSON body. -/
theorem delete_synthesizes_payload_witness :
    Arguments.get [("channel_id", Value.str "ch-1")] "channel_id" = some (Value.str "ch-1") ∧
    "ch-1" ≠ "" ∧ Responds (stubClient 204 "gone") 204 "gone" ∧
    Responds (stubClient 200 "\x7b\"deleted\":1\x7d") 200 "\x7b\"deleted\":1\x7d" ∧
    (Handler.DeleteChannel.call (stubClient 204 "gone") [("channel_id", Value.str "ch-1")]).result
      = NewToolResultText (jsonMarshalMap [("success", Field.bool true),
          ("message", Field.str ("Channel" ++ " " ++ "ch-1" ++ " deleted successfully"))]) ∧
    (Handler.DeleteChannel.call (stubClient 200 "\x7b\"deleted\":1\x7d")
        [("channel_id", Value.str "ch-1")]).result
      = (Handler.DeleteChannel.call (stubClient 204 "gone")
          [("channel_id", Value.str "ch-1")]).result :=
  ⟨rfl, by decide, stubClient_responds _ _, stubClient_responds _ _,
    (delete_synthesizes_payload Handler.DeleteChannel "channel_id" "Channel"
      (Or.inr (Or.inl ⟨rfl, rfl, rfl⟩)) (stubClient 204 "gone")
      (stubClient 200 "\x7b\"deleted\":1\x7d")
      [("channel_id", Value.str "ch-1")] "ch-1" 204 200 "gone" "\x7b\"deleted\":1\x7d" rfl
      (by decide) (stubClient_responds _ _) (by decide) (by decide)
      (stubClient_responds _ _) (by decide) (by decide)).1,
    (delete_synthesizes_payload Handler.DeleteChannel "channel_id" "Channel"
      (Or.inr (Or.inl ⟨rfl, rfl, rfl⟩)) (stubClient 204 "gone")
      (stubClient 200 "\x7b\"deleted\":1\x7d")
      [("channel_id", Value.str "ch-1")] "ch-1" 204 200 "gone" "\x7b\"deleted\":1\x7d" rfl
      (by decide) (stubClient_responds _ _) (by decide) (by decide)
      (stubClient_responds _ _) (by decide) (by decide)).2.2.2.2⟩

/-- C9. `create_source` called with non-empty strings `name`, `type` and `url` makes one call
on the client, a POST to `/api/v2/connect/sources`, whose body has exactly the keys `name`,
`type`, `url` bound to the supplied values, followed by `description` bound to the supplied
value exactly when the `description` argument is a non-empty string. For the arguments
`name` = "cam1", `type` = "rtmp", `url` = "rtmp://x" the body is serialized, and sent, as
`{"name":"cam1","type":"rtmp","url":"rtmp://x"}`. -/
theorem create_source_request (client : M2AClient) :
    (∀ (arguments : Arguments) (name typ url : String),
      arguments.get "name" = some (Value.str name) → name ≠ "" →
      arguments.get "type" = some (Value.str typ) → typ ≠ "" →
      arguments.get "url" = some (Value.str url) → url ≠ "" →
      (∀ d, arguments.get "description" = some (Value.str d) → d ≠ "" →
        (Handler.CreateSource.call client arguments).invocations
          = [("POST", "/api/v2/connect/sources",
              some [("name", Field.str name), ("type", Field.str typ), ("url", Field.str url),
                ("description", Field.str d)])]) ∧
      (populated arguments "description" = false →
        (Handler.CreateSource.call client arguments).invocations
          = [("POST", "/api/v2/connect/sources",
              some [("name", Field.str name), ("type", Field.str typ),
                ("url", Field.str url)])])) ∧
    (Handler.CreateSource.call client
        [("name", Value.str "cam1"), ("type", Value.str "rtmp"),
          ("url", Value.str "rtmp://x")]).calls.map
          (fun g => (g.method, g.endpoint, jsonMarshal g.body))
      = [("POST", "/api/v2/connect/sources",
          "\x7b\"name\":\"cam1\",\"type\":\"rtmp\",\"url\":\"rtmp://x\"\x7d")] ∧
    (client.httpClient.newRequestError "POST"
        (client.config.BaseURL ++ "/api/v2/connect/sources") = none →
      (Handler.CreateSource.call client
        [("name", Value.str "cam1"), ("type", Value.str "rtmp"),
          ("url", Value.str "rtmp://x")]).calls.map
          (fun g => g.sent.map (fun r => (r.method, r.url, r.body)))
      = [some ("POST",
          client.httpClient.requestURL (client.config.BaseURL ++ "/api/v2/connect/sources"),
          some "\x7b\"name\":\"cam1\",\"type\":\"rtmp\",\"url\":\"rtmp://x\"\x7d")]) := by
  have hcam : (Handler.CreateSource.call client
        [("name", Value.str "cam1"), ("type", Value.str "rtmp"),
          ("url", Value.str "rtmp://x")]).calls
      = (client.Post "/api/v2/connect/sources"
          (some [("name", Field.str "cam1"), ("type", Field.str "rtmp"),
            ("url", Field.str "rtmp://x")])).2 := by
    rw [CreateSource_invocations client
      [("name", Value.str "cam1"), ("type", Value.str "rtmp"), ("url", Value.str "rtmp://x")]
      "cam1" "rtmp" "rtmp://x" rfl (by decide) rfl (by decide) rfl (by decide)]
    rfl
  have hjson : jsonMarshal (some [("name", Field.str "cam1"), ("type", Field.str "rtmp"),
        ("url", Field.str "rtmp://x")])
      = "\x7b\"name\":\"cam1\",\"type\":\"rtmp\",\"url\":\"rtmp://x\"\x7d" := by decide
  refine ⟨?_, ?_, ?_⟩
  · intro arguments name typ url hname hn htyp ht hurl hu
    have hc := CreateSource_invocations client arguments name typ url hname hn htyp ht hurl hu
    constructor
    · intro d hd hdne
      have hp : populated arguments "description" = true := by
        rw [populated_of_get hd]; simpa using hdne
      rw [HandlerReturn.invocations, hc, Post_invocations, hp, if_pos rfl,
        assertString_of_get hd]
    · intro hp
      rw [HandlerReturn.invocations, hc, Post_invocations, hp]
      rfl
  · rw [hcam]
    have := Post_invocations client "/api/v2/connect/sources"
      (some [("name", Field.str "cam1"), ("type", Field.str "rtmp"),
        ("url", Field.str "rtmp://x")])
    cases hl : (client.Post "/api/v2/connect/sources"
      (some [("name", Field.str "cam1"), ("type", Field.str "rtmp"),
        ("url", Field.str "rtmp://x")])).2 with
    | nil => rw [hl] at this; cases this
    | cons g gs =>
      rw [hl] at this
      simp only [List.map_cons, List.cons.injEq, GatewayCall.invocation, Prod.mk.injEq,
        List.map_eq_nil_iff] at this
      obtain ⟨⟨hm, he, hb⟩, rfl⟩ := this
      simp only [List.map_cons, List.map_nil, hm, he, hb, hjson]
  · intro hnew
    rw [hcam, Post_sent client _ _ hnew, hjson]

/-- Witness for C9: `create_source` with a description sends the four keys. -/
theorem create_source_request_witness :
    (Arguments.get [("name", Value.str "cam1"), ("type", Value.str "rtmp"),
        ("url", Value.str "rtmp://x"), ("description", Value.str "door")] "description"
      = some (Value.str "door") ∧ "cam1" ≠ "" ∧ "rtmp" ≠ "" ∧ "rtmp://x" ≠ "" ∧ "door" ≠ "") ∧
    (Handler.CreateSource.call (stubClient 201 "ok")
        [("name", Value.str "cam1"), ("type", Value.str "rtmp"),
          ("url", Value.str "rtmp://x"), ("description", Value.str "door")]).invocations
      = [("POST", "/api/v2/connect/sources",
          some [("name", Field.str "cam1"), ("type", Field.str "rtmp"),
            ("url", Field.str "rtmp://x"), ("description", Field.str "door")])] :=
  ⟨⟨rfl, by decide, by decide, by decide, by decide⟩,
    ((create_source_request (stubClient 201 "ok")).1
      [("name", Value.str "cam1"), ("type", Value.str "rtmp"),
        ("url", Value.str "rtmp://x"), ("description", Value.str "door")]
      "cam1" "rtmp" "rtmp://x" rfl (by decide) rfl (by decide) rfl (by decide)).1
      "door" rfl (by decide)⟩

/-- C10 (counterexample). `get_source` called without arguments ends in an error envelope
whose message, "source_id is required", does not start with "failed to get source";
`update_source` called with an identifier only ends in one whose message does not start
with "failed to update source". -/
theorem validation_error_lacks_operation :
    ((Handler.GetSource.call (stubClient 200 "ok") []).result
        = NewToolResultError "source_id is required" ∧
      startsWith (Handler.GetSource.call (stubClient 200 "ok") []).result.text
        ("failed to " ++ Handler.GetSource.operation) = false) ∧
    ((Handler.UpdateSource.call (stubClient 200 "ok") [("source_id", Value.str "s1")]).result
        = NewToolResultError "at least one field to update is required" ∧
      startsWith
        (Handler.UpdateSource.call (stubClient 200 "ok") [("source_id", Value.str "s1")]).result.text
        ("failed to " ++ Handler.UpdateSource.operation) = false) := by
  decide

/-- C10 (amended). An invocation that ends in an error envelope either called the client
exactly once, and then the message starts with "failed to <op>: " for the handler's
operation phrase (request construction, transport and backend API errors); or it called
the client not at all, and then the message is "<p> is required" for a required parameter
`p` of the handler or, for the update-style handlers, one of their two no-fields
messages. -/
theorem error_message_shape (h : Handler) (client : M2AClient) (arguments : Arguments)
    (hE : (h.call client arguments).result.isError = true) :
    ((h.call client arguments).calls.length = 1 ∧
      startsWith (h.call client arguments).result.text ("failed to " ++ h.operation ++ ": ")
        = true) ∨
    ((h.call client arguments).calls = [] ∧
      ((∃ p ∈ h.required, (h.call client arguments).result.text = p ++ " is required") ∨
        (h.updateFields ≠ [] ∧
          ((h.call client arguments).result.text = "at least one field to update is required" ∨
            (h.call client arguments).result.text
              = "at least one metadata field is required")))) := by
  rcases outcome_shape h client arguments with ⟨hc, -, hm⟩ | ⟨hc, -, e, he⟩ | ⟨-, hs⟩
  · exact Or.inr ⟨hc, hm⟩
  · refine Or.inl ⟨hc, ?_⟩
    rw [he]
    exact startsWith_append _ _
  · rw [hs] at hE
    cases hE

/-- Witness for C10 (amended): `list_sources` against a backend answering 500. -/
theorem error_message_shape_witness :
    (Handler.ListSources.call (stubClient 500 "boom") []).result.isError = true ∧
    (((Handler.ListSources.call (stubClient 500 "boom") []).calls.length = 1 ∧
      startsWith (Handler.ListSources.call (stubClient 500 "boom") []).result.text
        ("failed to " ++ Handler.ListSources.operation ++ ": ") = true) ∨
    ((Handler.ListSources.call (stubClient 500 "boom") []).calls = [] ∧
      ((∃ p ∈ Handler.ListSources.required,
          (Handler.ListSources.call (stubClient 500 "boom") []).result.text
            = p ++ " is required") ∨
        (Handler.ListSources.updateFields ≠ [] ∧
          ((Handler.ListSources.call (stubClient 500 "boom") []).result.text
              = "at least one field to update is required" ∨
            (Handler.ListSources.call (stubClient 500 "boom") []).result.text
              = "at least one metadata field is required"))))) :=
  ⟨by decide, error_message_shape Handler.ListSources (stubClient 500 "boom") [] (by decide)⟩

/-- C11 (counterexample). The number of commands registered by `registerTools` is not 28. -/
theorem registered_count_not_28 : registerTools.length ≠ 28 := by decide

/-- C11 (amended). `registerTools` registers exactly 37 commands, and no two of them share a
name. -/
theorem registered_commands : registerTools.length = 37 ∧ (registerTools.map Prod.fst).Nodup := by
  constructor <;> decide

/-- C12 (counterexample). The request `start_channel` sends has the JSON body `null` and the
header `Content-Type: application/json`; it is not a request without body and without
`Content-Type`. -/
theorem start_channel_sends_null_body :
    (Handler.StartChannel.call (stubClient 200 "ok") [("channel_id", Value.str "c1")]).calls.map
        (fun g => (g.body, g.sent.map (fun r => (r.body, getHeader r.header "Content-Type"))))
      = [(none, some (some "null", some "application/json"))] ∧
    ¬ (Handler.StartChannel.call (stubClient 200 "ok") [("channel_id", Value.str "c1")]).calls.map
        (fun g => g.sent.map (fun r => (r.body, getHeader r.header "Content-Type")))
      = [some (none, none)] := by
  constructor <;> decide

/-- C12 (amended). A request sent by `Post` or `Put` always has the JSON text of the supplied
body as its body and the header `Content-Type: application/json`, also when the supplied
body is nil, which is serialized as `null`; a request sent by `Get` or `Delete` has no body
and no `Content-Type`. `start_channel`, `stop_channel` and `cancel_capture`, called with a
non-empty identifier, pass a nil body to `Post`, and the request they send has the body
`null` and the header `Content-Type: application/json`. -/
theorem body_and_content_type (client : M2AClient) :
    (∀ endpoint b g req,
      (g ∈ (client.Post endpoint b).2 ∨ g ∈ (client.Put endpoint b).2) → g.sent = some req →
      req.body = some (jsonMarshal b) ∧
        getHeader req.header "Content-Type" = some "application/json") ∧
    jsonMarshal none = "null" ∧
    (∀ endpoint g req,
      (g ∈ (client.Get endpoint).2 ∨ g ∈ (client.Delete endpoint).2) → g.sent = some req →
      req.body = none ∧ getHeader req.header "Content-Type" = none) ∧
    (∀ h idParam arguments id g req,
      ((h = Handler.StartChannel ∧ idParam = "channel_id") ∨
        (h = Handler.StopChannel ∧ idParam = "channel_id") ∨
        (h = Handler.CancelCapture ∧ idParam = "capture_id")) →
      arguments.get idParam = some (Value.str id) → id ≠ "" →
      g ∈ (h.call client arguments).calls → g.sent = some req →
      g.method = "POST" ∧ g.body = none ∧ req.body = some "null" ∧
        getHeader req.header "Content-Type" = some "application/json") := by
  have hct : ∀ (h0 : List (String × String)) (a : String),
      getHeader (setHeader (setHeader (setHeader h0 "Content-Type" "application/json")
        "Authorization" a) "Accept" "application/json") "Content-Type"
        = some "application/json" := by
    intro h0 a
    rw [getHeader_setHeader_ne _ _ _ _ (by decide), getHeader_setHeader_ne _ _ _ _ (by decide),
      getHeader_setHeader_self]
  have hno : ∀ a : String,
      getHeader (setHeader (setHeader [] "Authorization" a) "Accept" "application/json")
        "Content-Type" = none := by
    intro a
    rw [getHeader_setHeader_ne _ _ _ _ (by decide), getHeader_setHeader_ne _ _ _ _ (by decide)]
    rfl
  have hpost : ∀ endpoint b g req, g ∈ (client.Post endpoint b).2 → g.sent = some req →
      g.method = "POST" ∧ g.body = b ∧ req.body = some (jsonMarshal b) ∧
        getHeader req.header "Content-Type" = some "application/json" := by
    intro endpoint b g req hg hs
    rw [Post_calls, List.mem_singleton] at hg
    subst hg
    simp only at hs
    split at hs
    · cases hs
    · cases hs
      exact ⟨rfl, rfl, rfl, hct _ _⟩
  refine ⟨?_, rfl, ?_, ?_⟩
  · intro endpoint b g req hg hs
    rcases hg with hg | hg
    · exact (hpost endpoint b g req hg hs).2.2
    · rw [Put_calls, List.mem_singleton] at hg
      subst hg
      simp only at hs
      split at hs
      · cases hs
      · cases hs
        exact ⟨rfl, hct _ _⟩
  · intro endpoint g req hg hs
    rw [Get_calls, Delete_calls] at hg
    simp only [List.mem_singleton] at hg
    rcases hg with rfl | rfl <;>
      simp only at hs <;>
      split at hs <;>
      first
      | (cases hs
         exact ⟨rfl, hno _⟩)
      | cases hs
  · intro h idParam arguments id g req hh hid hne hg hs
    rcases hh with ⟨rfl, rfl⟩ | ⟨rfl, rfl⟩ | ⟨rfl, rfl⟩
    · rw [((action_calls client arguments id).1 hid hne).1] at hg
      exact hpost _ _ g req hg hs
    · rw [((action_calls client arguments id).1 hid hne).2] at hg
      exact hpost _ _ g req hg hs
    · rw [(action_calls client arguments id).2 hid hne] at hg
      exact hpost _ _ g req hg hs

/-- Witness for C12 (amended): the request `stop_channel` sends for the channel `c1`. -/
theorem body_and_content_type_witness :
    Arguments.get [("channel_id", Value.str "c1")] "channel_id" = some (Value.str "c1") ∧
    "c1" ≠ "" ∧
    (({ method := "POST", endpoint := "/api/v3/live/channels/c1/stop", body := none,
        sent := some { method := "POST",
                       url := "https://cloud.m2amedia.tv/api/v3/live/channels/c1/stop",
                       body := some "null",
                       header := [("Content-Type", "application/json"),
                         ("Authorization", "Bearer key"), ("Accept", "application/json")] } } :
        GatewayCall)
      ∈ (Handler.StopChannel.call (stubClient 200 "ok") [("channel_id", Value.str "c1")]).calls) ∧
    getHeader [("Content-Type", "application/json"), ("Authorization", "Bearer key"),
      ("Accept", "application/json")] "Content-Type" = some "application/json" :=
  ⟨rfl, by decide, by decide,
    ((body_and_content_type (stubClient 200 "ok")).2.2.2 Handler.StopChannel "channel_id"
      [("channel_id", Value.str "c1")] "c1"
      { method := "POST", endpoint := "/api/v3/live/channels/c1/stop", body := none,
        sent := some { method := "POST",
                       url := "https://cloud.m2amedia.tv/api/v3/live/channels/c1/stop",
                       body := some "null",
                       header := [("Content-Type", "application/json"),
                         ("Authorization", "Bearer key"), ("Accept", "application/json")] } }
      { method := "POST", url := "https://cloud.m2amedia.tv/api/v3/live/channels/c1/stop",
        body := some "null",
        header := [("Content-Type", "application/json"), ("Authorization", "Bearer key"),
          ("Accept", "application/json")] }
      (Or.inr (Or.inl ⟨rfl, rfl⟩)) rfl (by decide) (by decide) rfl).2.2.2⟩

/-- C13. Every handler, bound as `registerTools` binds it to the client that `main` builds
from a loaded configuration, for every argument map (nil included, any keys, any kinds of
value) and every behaviour of `net/http` and the network: the handler returns, it does not
panic; the error returned is nil; the result is a non-nil pointer to the error envelope or
to the success-text envelope (one text content, `IsError` set or unset), never both. Which
one is decided by the arguments and by the gateway's outcome. Arguments that fail
validation give the error envelope naming the parameter, with no call on the gateway.
Arguments that pass give one call; the error envelope holds the handler's phrase and the
gateway's error when the request could not be created, when the transport failed, when the
response could not be read, or when the status is outside [200,300) (API error); the
success-text envelope is returned when the status is inside, with the response body as text
unless the handler is delete-style. The construction matters: on a nil client, or on a
client built from a nil configuration, a handler whose arguments pass validation panics. -/
theorem handler_never_raises (h : Handler) (cfg : Config) (net : Http)
    (arguments : Option Arguments) :
    (∃ r : Go.HandlerReturn,
      Go.call net h (Go.NewM2AClient (some cfg)) arguments = Run.ret r ∧
      r.err = none ∧
      ((∃ m, r.result = Go.NewToolResultError m) ∨ (∃ t, r.result = Go.NewToolResultText t)) ∧
      ¬ ((∃ m, r.result = Go.NewToolResultError m) ∧ (∃ t, r.result = Go.NewToolResultText t)) ∧
      ((passesValidation h (arguments.getD []) = false ∧ r.calls = [] ∧
          ∃ m, r.result = Go.NewToolResultError m ∧
            ((∃ p ∈ h.required, m = p ++ " is required") ∨
              (h.updateFields ≠ [] ∧ (m = "at least one field to update is required" ∨
                m = "at least one metadata field is required")))) ∨
        (passesValidation h (arguments.getD []) = true ∧ ∃ g, r.calls = [g] ∧
          ((g.sent = none ∧
              ∃ e, net.newRequestError g.method (cfg.BaseURL ++ g.endpoint) = some e ∧
                r.result = Go.NewToolResultError
                  ("failed to " ++ h.operation ++ ": " ++ ("failed to create request: " ++ e))) ∨
            (∃ req e, g.sent = some req ∧ net.roundTrip req = RoundTrip.doError e ∧
              r.result = Go.NewToolResultError
                ("failed to " ++ h.operation ++ ": " ++ ("request failed: " ++ e))) ∨
            (∃ req s e, g.sent = some req ∧ net.roundTrip req = RoundTrip.readError s e ∧
              r.result = Go.NewToolResultError
                ("failed to " ++ h.operation ++ ": " ++ ("failed to read response: " ++ e))) ∨
            (∃ req s b, g.sent = some req ∧ net.roundTrip req = RoundTrip.response s b ∧
              (s < 200 ∨ 300 ≤ s) ∧
              r.result = Go.NewToolResultError
                ("failed to " ++ h.operation ++ ": " ++
                  ("API error (status " ++ fmtD s ++ "): " ++ b))) ∨
            (∃ req s b, g.sent = some req ∧ net.roundTrip req = RoundTrip.response s b ∧
              200 ≤ s ∧ s < 300 ∧
              ∃ t, r.result = Go.NewToolResultText t ∧ (h.isDelete = false → t = b)))))) ∧
    (passesValidation h (arguments.getD []) = true →
      Go.call net h none arguments = Run.panic ∧
      Go.call net h (Go.NewM2AClient none) arguments = Run.panic) := by
  refine ⟨⟨_, go_call_eq net h cfg arguments, ?_, ?_, go_envelope_exclusive _, ?_⟩,
    go_nil_panics net h arguments⟩
  · exact call_err_nil h _ _
  · rcases call_classified h { config := cfg, httpClient := net } (arguments.getD []) with
      ⟨-, -, m, hm, -⟩ | ⟨-, g, -, hc⟩
    · exact Or.inl ⟨m, toGo_result_error hm⟩
    · rcases hc with ⟨-, e, -, hr⟩ | ⟨_, e, -, -, hr⟩ | ⟨_, _, e, -, -, hr⟩ |
        ⟨_, s, b, -, -, -, hr⟩ | ⟨_, s, b, -, -, -, -, t, hr, -⟩
      · exact Or.inl ⟨_, toGo_result_error hr⟩
      · exact Or.inl ⟨_, toGo_result_error hr⟩
      · exact Or.inl ⟨_, toGo_result_error hr⟩
      · exact Or.inl ⟨_, toGo_result_error hr⟩
      · exact Or.inr ⟨_, toGo_result_text hr⟩
  · rcases call_classified h { config := cfg, httpClient := net } (arguments.getD []) with
      ⟨hv, hcalls, m, hm, hform⟩ | ⟨hv, g, hcalls, hc⟩
    · exact Or.inl ⟨hv, hcalls, m, toGo_result_error hm, hform⟩
    · refine Or.inr ⟨hv, g, hcalls, ?_⟩
      rcases hc with ⟨hs, e, hn, hr⟩ | ⟨req, e, hs, hrt, hr⟩ | ⟨req, s, e, hs, hrt, hr⟩ |
        ⟨req, s, b, hs, hrt, hst, hr⟩ | ⟨req, s, b, hs, hrt, hlo, hhi, t, hr, ht⟩
      · exact Or.inl ⟨hs, e, hn, toGo_result_error hr⟩
      · exact Or.inr (Or.inl ⟨req, e, hs, hrt, toGo_result_error hr⟩)
      · exact Or.inr (Or.inr (Or.inl ⟨req, s, e, hs, hrt, toGo_result_error hr⟩))
      · exact Or.inr (Or.inr (Or.inr (Or.inl ⟨req, s, b, hs, hrt, hst, toGo_result_error hr⟩)))
      · exact Or.inr (Or.inr (Or.inr (Or.inr
          ⟨req, s, b, hs, hrt, hlo, hhi, t, toGo_result_text hr, ht⟩)))

/-- Witness for C13: `get_source` with an identifier passes validation, so on a nil client
it panics, while on the client built from a configuration it returns. -/
theorem handler_never_raises_witness :
    passesValidation Handler.GetSource
        ((some [("source_id", Value.str "s1")] : Option Arguments).getD []) = true ∧
    Go.call (stubClient 200 "ok").httpClient Handler.GetSource none
        (some [("source_id", Value.str "s1")]) = Run.panic ∧
    ∃ r : Go.HandlerReturn,
      Go.call (stubClient 200 "ok").httpClient Handler.GetSource
          (Go.NewM2AClient (some (stubClient 200 "ok").config))
          (some [("source_id", Value.str "s1")]) = Run.ret r ∧
      r.err = none :=
  ⟨by decide,
    ((handler_never_raises Handler.GetSource (stubClient 200 "ok").config
      (stubClient 200 "ok").httpClient (some [("source_id", Value.str "s1")])).2
        (by decide)).1,
    (handler_never_raises Handler.GetSource (stubClient 200 "ok").config
      (stubClient 200 "ok").httpClient (some [("source_id", Value.str "s1")])).1.imp
        (fun _ hr => ⟨hr.1, hr.2.1⟩)⟩

/-- C14. For `list_sources` (`status`), `list_channels` (`state`) and `list_captures`
(`status`), a filter value `v` that is a non-empty string other than "all" gives one GET
whose endpoint is the resource path followed by `?<name>=` and `v` as given. -/
theorem filter_forwarded (client : M2AClient) (arguments : Arguments) (v : String)
    (hne : v ≠ "") (hall : v ≠ "all") :
    (arguments.get "status" = some (Value.str v) →
      (Handler.ListSources.call client arguments).invocations
        = [("GET", "/api/v2/connect/sources" ++ "?" ++ "status" ++ "=" ++ v, none)]) ∧
    (arguments.get "state" = some (Value.str v) →
      (Handler.ListChannels.call client arguments).invocations
        = [("GET", "/api/v3/live/channels" ++ "?" ++ "state" ++ "=" ++ v, none)]) ∧
    (arguments.get "status" = some (Value.str v) →
      (Handler.ListCaptures.call client arguments).invocations
        = [("GET", "/api/v1/connect/capture" ++ "?" ++ "status" ++ "=" ++ v, none)]) := by
  refine ⟨?_, ?_, ?_⟩
  all_goals
    intro h
    simp only [Handler.call, ConnectTools.ListSources, LiveTools.ListChannels,
      CaptureTools.ListCaptures, HandlerReturn.invocations, h, assertString]
    split <;> simp [Get_invocations, hne, hall, ← String.append_assoc]

/-- Witness for C14: `list_channels` with `state` = "RUNNING". -/
theorem filter_forwarded_witness :
    "RUNNING" ≠ "" ∧ "RUNNING" ≠ "all" ∧
    Arguments.get [("state", Value.str "RUNNING")] "state" = some (Value.str "RUNNING") ∧
    (Handler.ListChannels.call (stubClient 200 "[]") [("state", Value.str "RUNNING")]).invocations
      = [("GET", "/api/v3/live/channels?state=RUNNING", none)] :=
  ⟨by decide, by decide, rfl,
    (filter_forwarded (stubClient 200 "[]") [("state", Value.str "RUNNING")] "RUNNING"
      (by decide) (by decide)).2.1 rfl⟩

/-- C15. `list_schedules` builds its query string so that the first parameter appended is
introduced by `?` and a later one by `&`, the values inserted as given: both dates
non-empty give `?start_date=S&end_date=E`, only the end date `?end_date=E`, only the start
date `?start_date=S`, neither no query string. -/
theorem schedules_query (client : M2AClient) (arguments : Arguments) :
    (∀ s e, arguments.get "start_date" = some (Value.str s) → s ≠ "" →
      arguments.get "end_date" = some (Value.str e) → e ≠ "" →
      (Handler.ListSchedules.call client arguments).invocations
        = [("GET", "/api/v2/connect/schedules" ++ "?start_date=" ++ s ++ "&end_date=" ++ e,
            none)]) ∧
    (∀ e, populated arguments "start_date" = false →
      arguments.get "end_date" = some (Value.str e) → e ≠ "" →
      (Handler.ListSchedules.call client arguments).invocations
        = [("GET", "/api/v2/connect/schedules" ++ "?end_date=" ++ e, none)]) ∧
    (∀ s, arguments.get "start_date" = some (Value.str s) → s ≠ "" →
      populated arguments "end_date" = false →
      (Handler.ListSchedules.call client arguments).invocations
        = [("GET", "/api/v2/connect/schedules" ++ "?start_date=" ++ s, none)]) ∧
    (populated arguments "start_date" = false → populated arguments "end_date" = false →
      (Handler.ListSchedules.call client arguments).invocations
        = [("GET", "/api/v2/connect/schedules", none)]) := by
  have hinv : (Handler.ListSchedules.call client arguments).invocations
      = [("GET", "/api/v2/connect/schedules" ++
          (if populated arguments "end_date" = true then
            (if (if populated arguments "start_date" = true then
                  "" ++ ("?start_date=" ++ (assertString (arguments.get "start_date")).1)
                else "") == "" then
              (if populated arguments "start_date" = true then
                  "" ++ ("?start_date=" ++ (assertString (arguments.get "start_date")).1)
                else "") ++ "?"
            else
              (if populated arguments "start_date" = true then
                  "" ++ ("?start_date=" ++ (assertString (arguments.get "start_date")).1)
                else "") ++ "&") ++ ("end_date=" ++ (assertString (arguments.get "end_date")).1)
          else
            (if populated arguments "start_date" = true then
                "" ++ ("?start_date=" ++ (assertString (arguments.get "start_date")).1)
              else "")), none)] := by
    simp only [Handler.call, ConnectTools.ListSchedules, HandlerReturn.invocations,
      optional_ne_eq_populated]
    split <;> simp [Get_invocations]
  rw [hinv]
  refine ⟨?_, ?_, ?_, ?_⟩
  · intro s e hs hsne he hene
    have hps : populated arguments "start_date" = true := by
      rw [populated_of_get hs]; simpa using hsne
    have hpe : populated arguments "end_date" = true := by
      rw [populated_of_get he]; simpa using hene
    have hq : ("" ++ ("?start_date=" ++ s) == "") = false := by
      rw [String.empty_append, beq_eq_false_iff_ne]
      exact append_ne_empty_of_left _ _ (by decide)
    simp only [hps, hpe, if_true, assertString_of_get hs, assertString_of_get he, hq,
      Bool.false_eq_true, if_false]
    refine congrArg (fun x => [("GET", x, (none : Option GoMap))]) ?_
    apply String.ext
    simp [String.data_append]
  · intro e hps he hene
    have hpe : populated arguments "end_date" = true := by
      rw [populated_of_get he]; simpa using hene
    simp only [hps, hpe, if_true, assertString_of_get he, Bool.false_eq_true, if_false,
      beq_self_eq_true]
    refine congrArg (fun x => [("GET", x, (none : Option GoMap))]) ?_
    apply String.ext
    simp [String.data_append]
  · intro s hs hsne hpe
    have hps : populated arguments "start_date" = true := by
      rw [populated_of_get hs]; simpa using hsne
    simp only [hps, hpe, if_true, assertString_of_get hs, Bool.false_eq_true, if_false]
    refine congrArg (fun x => [("GET", x, (none : Option GoMap))]) ?_
    apply String.ext
    simp [String.data_append]
  · intro hps hpe
    simp only [hps, hpe, Bool.false_eq_true, if_false, String.append_empty]

/-- Witness for C15: `list_schedules` with an end date only. -/
theorem schedules_query_witness :
    populated [("end_date", Value.str "2025-01-31")] "start_date" = false ∧
    Arguments.get [("end_date", Value.str "2025-01-31")] "end_date"
      = some (Value.str "2025-01-31") ∧ "2025-01-31" ≠ "" ∧
    (Handler.ListSchedules.call (stubClient 200 "[]")
        [("end_date", Value.str "2025-01-31")]).invocations
      = [("GET", "/api/v2/connect/schedules?end_date=2025-01-31", none)] :=
  ⟨by decide, rfl, by decide,
    (schedules_query (stubClient 200 "[]") [("end_date", Value.str "2025-01-31")]).2.1
      "2025-01-31" (by decide) rfl (by decide)⟩

/-- C16 (counterexample). For the endpoint `/api/v2/connect/sources/a b` (`get_source` with the
identifier `a b`) the string handed to `http.NewRequest` is the base URL followed by the
endpoint, but the URL of the request sent has the space written `%20`: it is not the base
URL concatenated with the endpoint verbatim. -/
theorem request_url_reescaped :
    ((stubClient 200 "ok").Get "/api/v2/connect/sources/a b").2.map
        (fun g => g.sent.map (fun r => r.url))
      = [some "https://cloud.m2amedia.tv/api/v2/connect/sources/a%20b"] ∧
    (Handler.GetSource.call (stubClient 200 "ok") [("source_id", Value.str "a b")]).calls.map
        (fun g => g.sent.map (fun r => r.url))
      = [some "https://cloud.m2amedia.tv/api/v2/connect/sources/a%20b"] ∧
    ¬ ((stubClient 200 "ok").Get "/api/v2/connect/sources/a b").2.map
        (fun g => g.sent.map (fun r => r.url))
      = [some ((stubClient 200 "ok").config.BaseURL ++ "/api/v2/connect/sources/a b")] := by
  refine ⟨?_, ?_, ?_⟩ <;> decide

/-- C16 (amended). A request that `Get`, `Post`, `Put` or `Delete` hands to the HTTP client has
the method of the call, the header `Authorization` set to `Bearer <APIKey>`, the header
`Accept` set to `application/json`, and the URL that `http.NewRequest` derives from the
string `BaseURL ++ endpoint`, which the client passes to it verbatim. -/
theorem requests_authenticated (client : M2AClient) (endpoint : String) (b : Option GoMap)
    (g : GatewayCall) (req : HttpRequest)
    (hg : g ∈ (client.Get endpoint).2 ∨ g ∈ (client.Post endpoint b).2 ∨
      g ∈ (client.Put endpoint b).2 ∨ g ∈ (client.Delete endpoint).2)
    (hs : g.sent = some req) :
    req.method = g.method ∧
    req.url = client.httpClient.requestURL (client.config.BaseURL ++ endpoint) ∧
    getHeader req.header "Authorization" = some ("Bearer " ++ client.config.APIKey) ∧
    getHeader req.header "Accept" = some "application/json" := by
  have hauth : ∀ h0 : List (String × String),
      getHeader (setHeader (setHeader h0 "Authorization" ("Bearer " ++ client.config.APIKey))
        "Accept" "application/json") "Authorization"
        = some ("Bearer " ++ client.config.APIKey) := by
    intro h0
    rw [getHeader_setHeader_ne _ _ _ _ (by decide), getHeader_setHeader_self]
  rw [Get_calls, Post_calls, Put_calls, Delete_calls] at hg
  simp only [List.mem_singleton] at hg
  rcases hg with rfl | rfl | rfl | rfl <;>
    simp only at hs <;>
    split at hs <;>
    first
    | (cases hs
       exact ⟨rfl, rfl, hauth _, getHeader_setHeader_self _ _ _⟩)
    | cases hs

/-- Witness for C16 (amended): the request `Get` sends for `/api/v2/connect/sources`. -/
theorem requests_authenticated_witness :
    (({ method := "GET", endpoint := "/api/v2/connect/sources", body := none,
        sent := some { method := "GET", url := "https://cloud.m2amedia.tv/api/v2/connect/sources",
                       body := none,
                       header := [("Authorization", "Bearer key"),
                         ("Accept", "application/json")] } } : GatewayCall)
      ∈ ((stubClient 200 "[]").Get "/api/v2/connect/sources").2) ∧
    "https://cloud.m2amedia.tv/api/v2/connect/sources"
      = (stubClient 200 "[]").httpClient.requestURL
          ((stubClient 200 "[]").config.BaseURL ++ "/api/v2/connect/sources") ∧
    getHeader [("Authorization", "Bearer key"), ("Accept", "application/json")] "Authorization"
      = some ("Bearer " ++ (stubClient 200 "[]").config.APIKey) ∧
    getHeader [("Authorization", "Bearer key"), ("Accept", "application/json")] "Accept"
      = some "application/json" :=
  ⟨by decide,
    (requests_authenticated (stubClient 200 "[]") "/api/v2/connect/sources" none
      { method := "GET", endpoint := "/api/v2/connect/sources", body := none,
        sent := some { method := "GET", url := "https://cloud.m2amedia.tv/api/v2/connect/sources",
                       body := none,
                       header := [("Authorization", "Bearer key"),
                         ("Accept", "application/json")] } }
      { method := "GET", url := "https://cloud.m2amedia.tv/api/v2/connect/sources",
        body := none,
        header := [("Authorization", "Bearer key"), ("Accept", "application/json")] }
      (Or.inl (by decide)) rfl).2⟩

/-- C17. `Load` fails exactly when the API key or the account identifier is empty; otherwise
it succeeds with the given API key and account identifier and with the given base URL when
that is non-empty, and the default `https://cloud.m2amedia.tv` when it is empty. -/
theorem load_config (apiKey baseURL accountID : String) :
    ((∃ e, Load apiKey baseURL accountID = Except.error e) ↔ (apiKey = "" ∨ accountID = "")) ∧
    (apiKey ≠ "" → accountID ≠ "" →
      Load apiKey baseURL accountID
        = Except.ok { APIKey := apiKey,
                      BaseURL := if baseURL = "" then "https://cloud.m2amedia.tv" else baseURL,
                      AWSAccountID := accountID }) := by
  by_cases hk : apiKey = ""
  · simp [Load, hk]
  · by_cases ha : accountID = ""
    · simp [Load, hk, ha]
    · simp [Load, hk, ha, defaultBaseURL]

/-- Witness for C17: a key and an account with no base URL load with the default base URL. -/
theorem load_config_witness :
    "k" ≠ "" ∧ "123" ≠ "" ∧
    Load "k" "" "123"
      = Except.ok { APIKey := "k",
                    BaseURL := "https://cloud.m2amedia.tv",
                    AWSAccountID := "123" } :=
  ⟨by decide, by decide, (load_config "k" "" "123").2 (by decide) (by decide)⟩

/-- C18. A handler calls the client at most once per invocation and exactly once when the
arguments pass validation; when that call fails with an error `e` (whatever the failure:
request construction, transport, reading, or backend status), the handler returns the
error envelope "failed to <op>: <e>" having made that one call only. -/
theorem no_retries (h : Handler) (client : M2AClient) (arguments : Arguments) :
    (h.call client arguments).calls.length ≤ 1 ∧
    (passesValidation h arguments = true → (h.call client arguments).calls.length = 1) ∧
    (passesValidation h arguments = true → ∀ e, GatewayFails client e →
      (h.call client arguments).result
          = NewToolResultError ("failed to " ++ h.operation ++ ": " ++ e) ∧
        (h.call client arguments).calls.length = 1) := by
  refine ⟨?_, fun hv => (valid_call_once h client arguments hv).1, fun hv e hf =>
    ⟨(valid_call_once h client arguments hv).2 e hf, (valid_call_once h client arguments hv).1⟩⟩
  rcases outcome_shape h client arguments with ⟨hc, -, -⟩ | ⟨hc, -, -⟩ | ⟨hc, -⟩
  · rw [hc]; decide
  · rw [hc]
  · rw [hc]

/-- Witness for C18: `get_source` against a backend that cannot be reached. -/
theorem no_retries_witness :
    passesValidation Handler.GetSource [("source_id", Value.str "s1")] = true ∧
    GatewayFails (downClient "dial tcp: timeout") ("request failed: " ++ "dial tcp: timeout") ∧
    (Handler.GetSource.call (downClient "dial tcp: timeout")
        [("source_id", Value.str "s1")]).result
      = NewToolResultError "failed to get source: request failed: dial tcp: timeout" ∧
    (Handler.GetSource.call (downClient "dial tcp: timeout")
        [("source_id", Value.str "s1")]).calls.length = 1 :=
  ⟨by decide, downClient_fails _,
    (no_retries Handler.GetSource (downClient "dial tcp: timeout")
      [("source_id", Value.str "s1")]).2.2 (by decide) _ (downClient_fails _)⟩

/-- C19. The handlers do not check enum constraints: every non-empty string `v` given as
`type` to `create_source`, as `input_type` to `create_channel` or as `format` to
`get_playback_url` (the other required parameters being non-empty strings), whether or not
it is one of the advertised enum values, passes validation and is forwarded unchanged, as
the value of the body key `type`, resp. `input_type`, or after `?format=` in the endpoint. -/
theorem enum_not_revalidated (client : M2AClient) (arguments : Arguments) (v : String)
    (hv : v ≠ "") :
    (∀ name url, arguments.get "name" = some (Value.str name) → name ≠ "" →
      arguments.get "url" = some (Value.str url) → url ≠ "" →
      arguments.get "type" = some (Value.str v) →
      ∃ body : GoMap,
        (Handler.CreateSource.call client arguments).invocations
          = [("POST", "/api/v2/connect/sources", some body)] ∧
        GoMap.get body "type" = some (Field.str v)) ∧
    (∀ name, arguments.get "name" = some (Value.str name) → name ≠ "" →
      arguments.get "input_type" = some (Value.str v) →
      ∃ body : GoMap,
        (Handler.CreateChannel.call client arguments).invocations
          = [("POST", "/api/v3/live/channels", some body)] ∧
        GoMap.get body "input_type" = some (Field.str v)) ∧
    (∀ id, arguments.get "asset_id" = some (Value.str id) → id ≠ "" →
      arguments.get "format" = some (Value.str v) →
      (Handler.GetPlaybackURL.call client arguments).invocations
        = [("GET", "/api/v1/vod/assets/" ++ id ++ "/playback?format=" ++ v, none)]) := by
  refine ⟨?_, ?_, ?_⟩
  · intro name url hname hn hurl hu htyp
    have hinv := congrArg (List.map GatewayCall.invocation)
      (CreateSource_invocations client arguments name v url hname hn htyp hv hurl hu)
    rw [Post_invocations] at hinv
    refine ⟨_, hinv, ?_⟩
    split <;> simp [GoMap.get]
  · intro name hname hn hit
    have hinv := congrArg (List.map GatewayCall.invocation)
      (CreateChannel_calls client arguments name v hname hn hit hv)
    rw [Post_invocations] at hinv
    refine ⟨_, hinv, ?_⟩
    split <;> simp [GoMap.get]
  · intro id hid hne hf
    have hp : populated arguments "format" = true := by
      rw [populated_of_get hf]; simpa using hv
    rw [GetPlaybackURL_invocations client arguments id hid hne, hp, if_pos rfl,
      assertString_of_get hf]

/-- Witness for C19: `get_playback_url` with the format `webm`, which is not one of the
advertised values `hls`, `dash`, `mp4`. -/
theorem enum_not_revalidated_witness :
    "webm" ≠ "" ∧ "webm" ∉ advertisedEnum "get_playback_url" "format" ∧
    Arguments.get [("asset_id", Value.str "a1"), ("format", Value.str "webm")] "format"
      = some (Value.str "webm") ∧
    (Handler.GetPlaybackURL.call (stubClient 200 "ok")
        [("asset_id", Value.str "a1"), ("format", Value.str "webm")]).invocations
      = [("GET", "/api/v1/vod/assets/" ++ "a1" ++ "/playback?format=" ++ "webm", none)] :=
  ⟨by decide, by decide, rfl,
    (enum_not_revalidated (stubClient 200 "ok")
      [("asset_id", Value.str "a1"), ("format", Value.str "webm")] "webm" (by decide)).2.2
      "a1" rfl (by decide) rfl⟩

/-- C20 (failing input). With `limit` = 0.5, `list_subscribers` requests
`/api/v2/connect/subscribers?limit=0`, and with `offset` = 0.5, `list_vod_assets` requests
`/api/v1/vod/assets?offset=0`: a `limit=` and an `offset=` parameter are emitted and the
integer printed after each is 0. -/
theorem fractional_page_value_prints_zero :
    (Handler.ListSubscribers.call (stubClient 200 "[]")
        [("limit", Value.num (1 / 2))]).invocations
      = [("GET", "/api/v2/connect/subscribers?limit=0", none)] ∧
    (Handler.ListVODAssets.call (stubClient 200 "[]")
        [("offset", Value.num (1 / 2))]).invocations
      = [("GET", "/api/v1/vod/assets?offset=0", none)] := by
  have hg : goInt (1 / 2 : Rat) = 0 := by
    have hn : (1 / 2 : Rat).num = 1 := by norm_num
    have hd : (1 / 2 : Rat).den = 2 := by norm_num
    simp only [goInt, hn, hd]
    decide
  have hf : fmtD 0 = "0" := by decide
  constructor
  · rw [ListSubscribers_invocations]
    have h1 : Arguments.get [("limit", Value.num (1 / 2))] "limit"
        = some (Value.num (1 / 2)) := rfl
    have h2 : Arguments.get [("limit", Value.num (1 / 2))] "offset" = none := rfl
    simp only [h1, h2, assertFloat64_num, assertFloat64_none,
      pageQuery_limit_only (by norm_num : (0 : Rat) < 1 / 2) (le_refl (0 : Rat)), hg, hf,
      ← String.append_assoc, String.reduceAppend]
  · rw [ListVODAssets_invocations]
    have h1 : Arguments.get [("offset", Value.num (1 / 2))] "offset"
        = some (Value.num (1 / 2)) := rfl
    have h2 : Arguments.get [("offset", Value.num (1 / 2))] "limit" = none := rfl
    simp only [h1, h2, assertFloat64_num, assertFloat64_none,
      pageQuery_offset_only (le_refl (0 : Rat)) (by norm_num : (0 : Rat) < 1 / 2), hg, hf,
      ← String.append_assoc, String.reduceAppend]

/-- C21. An optional parameter of the wrong kind is treated as not provided: for every
handler, setting one of its optional string parameters to a value that is not a string, or
one of its optional numeric parameters to a value that is not a number, gives the same
return (result, nil error, and calls on the client with the requests sent) as deleting
that parameter from the argument bag; in particular the call does not end in an error
envelope unless it also does so without the parameter. -/
theorem wrong_kind_optional_ignored (h : Handler) (client : M2AClient) (arguments : Arguments)
    (k : String) (w : Value)
    (hk : (k ∈ h.optionalStrings ∧ w.isString = false) ∨
      (k ∈ h.optionalNumbers ∧ w.isNumber = false)) :
    h.call client (arguments.set k w) = h.call client (arguments.erase k) ∧
    ((h.call client (arguments.erase k)).result.isError = false →
      (h.call client (arguments.set k w)).result.isError = false) := by
  have heq := call_set_wrong_kind h client arguments k w hk
  exact ⟨heq, fun hne => by rw [heq]; exact hne⟩

/-- Witness for C21: `create_source` with a numeric `description`, and `list_subscribers`
with a string `limit`. -/
theorem wrong_kind_optional_ignored_witness :
    ("description" ∈ Handler.CreateSource.optionalStrings ∧
      (Value.num 5).isString = false ∧
      Handler.CreateSource.call (stubClient 200 "ok")
          (Arguments.set [("name", Value.str "cam1"), ("type", Value.str "rtmp"),
            ("url", Value.str "rtmp://x")] "description" (Value.num 5))
        = Handler.CreateSource.call (stubClient 200 "ok")
          (Arguments.erase [("name", Value.str "cam1"), ("type", Value.str "rtmp"),
            ("url", Value.str "rtmp://x")] "description")) ∧
    ("limit" ∈ Handler.ListSubscribers.optionalNumbers ∧
      (Value.str "ten").isNumber = false ∧
      Handler.ListSubscribers.call (stubClient 200 "ok")
          (Arguments.set [("limit", Value.num 10)] "limit" (Value.str "ten"))
        = Handler.ListSubscribers.call (stubClient 200 "ok")
          (Arguments.erase [("limit", Value.num 10)] "limit")) :=
  ⟨⟨by decide, rfl,
      (wrong_kind_optional_ignored Handler.CreateSource (stubClient 200 "ok")
        [("name", Value.str "cam1"), ("type", Value.str "rtmp"), ("url", Value.str "rtmp://x")]
        "description" (Value.num 5) (Or.inl ⟨by decide, rfl⟩)).1⟩,
    ⟨by decide, rfl,
      (wrong_kind_optional_ignored Handler.ListSubscribers (stubClient 200 "ok")
        [("limit", Value.num 10)] "limit" (Value.str "ten") (Or.inr ⟨by decide, rfl⟩)).1⟩⟩

/-- C22. `get_playback_url` called with a non-empty string `asset_id` = `a` makes one GET whose
endpoint is `/api/v1/vod/assets/` ++ `a` ++ `/playback?format=` ++ `f`, where `f` is the
`format` argument when that is a non-empty string and `hls` when it is absent, the empty
string or not a string. -/
theorem playback_format_default (client : M2AClient) (arguments : Arguments) (a : String)
    (ha : arguments.get "asset_id" = some (Value.str a)) (hne : a ≠ "") :
    (∀ f, arguments.get "format" = some (Value.str f) → f ≠ "" →
      (Handler.GetPlaybackURL.call client arguments).invocations
        = [("GET", "/api/v1/vod/assets/" ++ a ++ "/playback?format=" ++ f, none)]) ∧
    (populated arguments "format" = false →
      (Handler.GetPlaybackURL.call client arguments).invocations
        = [("GET", "/api/v1/vod/assets/" ++ a ++ "/playback?format=" ++ "hls", none)]) := by
  have hinv := GetPlaybackURL_invocations client arguments a ha hne
  constructor
  · intro f hf hfne
    have hp : populated arguments "format" = true := by
      rw [populated_of_get hf]; simpa using hfne
    rw [hinv, hp, if_pos rfl, assertString_of_get hf]
  · intro hp
    rw [hinv, hp]
    rfl

/-- Witness for C22: `get_playback_url` with a numeric `format` requests the `hls` format. -/
theorem playback_format_default_witness :
    Arguments.get [("asset_id", Value.str "a1"), ("format", Value.num 3)] "asset_id"
      = some (Value.str "a1") ∧ "a1" ≠ "" ∧
    populated [("asset_id", Value.str "a1"), ("format", Value.num 3)] "format" = false ∧
    (Handler.GetPlaybackURL.call (stubClient 200 "ok")
        [("asset_id", Value.str "a1"), ("format", Value.num 3)]).invocations
      = [("GET", "/api/v1/vod/assets/" ++ "a1" ++ "/playback?format=" ++ "hls", none)] :=
  ⟨rfl, by decide, rfl,
    (playback_format_default (stubClient 200 "ok")
      [("asset_id", Value.str "a1"), ("format", Value.num 3)] "a1" rfl (by decide)).2 rfl⟩

end M2A
